import Mathlib

/-!
StratusGFX renderer backend and framebuffer: the shadow-map caches, the
framebuffers and the passes of a frame.

Shallow embedding of the shadow-map cache of
`Source/Engine/StratusRendererBackend.cpp` (`RendererBackend::ShadowMapCache`
and the member functions that work on it) and of the backend around it (the
constructor, `Begin` with the viewport (re)allocation, `RenderScene` with
`_UpdatePointLights` and `_InitLights`, `RecompileShaders`, the indices of
`_PerformBloomPostFx`) and of `FrameBufferImpl` and `FrameBuffer` of
`Source/Engine/StratusFrameBuffer.cpp`, followed by theorems about them.

Modelling conventions
* `TextureHandle` is declared outside the translated sources.  It is modelled
  as a natural number, `TextureHandle.Null` being `0`; a default-constructed
  handle is the null handle, and the handles of a pool are pairwise distinct
  and different from the null handle (`PoolOk`).
* `std::unordered_map<LightPtr, TextureHandle>` is an association list with
  `find` / `insert` (which never overwrites) / `erase`;
  `std::unordered_set<TextureHandle>` is a list with `find` / `insert` /
  `erase`; `std::list<LightPtr>` is a list whose head is `front()`.
* the keys of `shadowMap3DHandles` are kept as a list, in the order in which
  the range-`for` of `_GetOrAllocateShadowMapHandleForLight` visits them.
* every member function starts with `auto& cache = _GetSmapCacheForLight(light)`;
  the functions below take that cache as their first argument.
* undefined behaviour (`front()` of an empty list, dereferencing `end()`), a
  failed `assert` and a thrown exception are the result `none`.
* the backend holds the two caches `_smapCache` and `_vplSmapCache`, and
  `_GetSmapCacheForLight` selects one by `IsVirtualLight()`;
  `TextureHandle::NextHandle()` is a counter, `nextHandle`, whose first value
  is `1`.
* `FrameBuffer::valid()`, that is, the outcome of `glCheckFramebufferStatus`,
  is a parameter `complete : FboId -> Bool` that tells of each framebuffer the
  backend creates whether it is complete.
* what is drawn is not modelled.  A frame of `RenderScene` is the trace of the
  passes run, in order, with the lights whose shadow map was rendered, the
  light vectors of `_UpdatePointLights` and what `_InitLights` wrote.
* the framebuffer members of `_state` are default-constructed `FrameBuffer`s,
  whose `_fbo` is the null pointer, until the viewport (re)allocation of
  `Begin` assigns a framebuffer to them; `bind`, `unbind`, `clear`, `copyFrom`
  and `getColorAttachments` dereference `_fbo`, so on a member without a
  framebuffer they are undefined behaviour, as is a read outside
  `csc.cascades`, `postFxBuffers`, `gaussianBuffers` or
  `finalizedPostFxFrames`.  `Begin` and `RenderScene` are `none` then.
* `RenderScene` reads the frame `_frame` that the last `Begin` stored; it is a
  parameter of the model.  After `_RecalculateCascadeData` the cascade
  framebuffer `csc.fbo` of that frame holds a framebuffer.
* the distance of a light to the viewer is a natural number (only the order of
  the distances is used); `std::sort` with the comparison of the distances is
  a stable sort by distance, `resize` to a smaller size is `List.take`.
* `_frame->lights` is a list in iteration order, and `_frame->lightsToUpate` is
  a first-in first-out list.
* a member function of the framebuffer ends in an `Outcome`: it returned, it
  threw a `std::runtime_error`, or it ran into undefined behaviour; the GL
  calls that change the framebuffer object are kept as a list, in order, and
  the answer of `glCheckFramebufferStatus` is a parameter `complete`.
-/

namespace Stratus

/-- Handle of a texture; the null handle is `0`. -/
abbrev TextureHandle := Nat

/-- The value of `TextureHandle::Null()` and of a default-constructed handle. -/
def TextureHandle.Null : TextureHandle := 0

/-- A light, identified by `id`; `isVirtual` is what `IsVirtualLight()` returns. -/
structure Light where
  id : Nat
  isVirtual : Bool
deriving DecidableEq

/-- Shared pointer to a light; equality is identity of the light. -/
abbrev LightPtr := Light

/-- `std::unordered_map::find`, as the mapped value when the key is present. -/
def mapFind : List (LightPtr × TextureHandle) → LightPtr → Option TextureHandle
  | [], _ => none
  | (k, v) :: m, l => if k = l then some v else mapFind m l

/-- `std::unordered_map::insert`: nothing happens when the key is present. -/
def mapInsert (m : List (LightPtr × TextureHandle)) (l : LightPtr) (h : TextureHandle) :
    List (LightPtr × TextureHandle) :=
  match mapFind m l with
  | some _ => m
  | none => m ++ [(l, h)]

/-- `std::unordered_map::erase` by key. -/
def mapErase (m : List (LightPtr × TextureHandle)) (l : LightPtr) :
    List (LightPtr × TextureHandle) :=
  m.filter (fun e => decide (e.1 ≠ l))

/-- `std::unordered_set::insert`. -/
def setInsert (s : List TextureHandle) (h : TextureHandle) : List TextureHandle :=
  if h ∈ s then s else s ++ [h]

/-- `std::unordered_set::erase` by value. -/
def setErase (s : List TextureHandle) (h : TextureHandle) : List TextureHandle :=
  s.filter (fun x => decide (x ≠ h))

/-- The fields of `RendererBackend::ShadowMapCache`. -/
structure ShadowMapCache where
  /-- keys of `shadowMap3DHandles`: the handles the pool owns -/
  shadowMap3DHandles : List TextureHandle
  /-- `lightsToShadowMap`: light to assigned handle -/
  lightsToShadowMap : List (LightPtr × TextureHandle)
  /-- `usedShadowMaps`: handles that are assigned -/
  usedShadowMaps : List TextureHandle
  /-- `lruLightCache`: least recently used light first -/
  lruLightCache : List LightPtr
deriving DecidableEq

namespace ShadowMapCache

/-- The cache right after construction of the pool `pool`: no light is cached. -/
def empty (pool : List TextureHandle) : ShadowMapCache :=
  { shadowMap3DHandles := pool, lightsToShadowMap := [], usedShadowMaps := [],
    lruLightCache := [] }

/-- `_SetLightShadowMapHandle`. -/
def _SetLightShadowMapHandle (cache : ShadowMapCache) (light : LightPtr)
    (handle : TextureHandle) : ShadowMapCache :=
  { cache with
    lightsToShadowMap := mapInsert cache.lightsToShadowMap light handle
    usedShadowMaps := setInsert cache.usedShadowMaps handle }

/-- `_EvictLightFromShadowMapCache`: erases the first occurrence of `light`
from the LRU list and nothing else. -/
def _EvictLightFromShadowMapCache (cache : ShadowMapCache) (light : LightPtr) :
    ShadowMapCache :=
  { cache with lruLightCache := cache.lruLightCache.erase light }

/-- `_ShadowMapExistsForLight`. -/
def _ShadowMapExistsForLight (cache : ShadowMapCache) (light : LightPtr) : Bool :=
  (mapFind cache.lightsToShadowMap light).isSome

/-- `_AddLightToShadowMapCache`. -/
def _AddLightToShadowMapCache (cache : ShadowMapCache) (light : LightPtr) :
    ShadowMapCache :=
  let cache1 := _EvictLightFromShadowMapCache cache light
  { cache1 with lruLightCache := cache1.lruLightCache ++ [light] }

/-- The scan `for (const auto & entry : cache.shadowMap3DHandles)` of
`_GetOrAllocateShadowMapHandleForLight`: the first handle that is not in
`usedShadowMaps`, the null handle when there is none. -/
def scanFreeHandle (cache : ShadowMapCache) : TextureHandle :=
  match cache.shadowMap3DHandles.find? (fun h => decide (h ∉ cache.usedShadowMaps)) with
  | some h => h
  | none => TextureHandle.Null

/-- `_GetOrAllocateShadowMapHandleForLight`: the returned handle and the cache
after the call. -/
def _GetOrAllocateShadowMapHandleForLight (cache : ShadowMapCache) (light : LightPtr) :
    Option (TextureHandle × ShadowMapCache) :=
  if cache.shadowMap3DHandles.length = 0 then none
  else
    match mapFind cache.lightsToShadowMap light with
    | none =>
      let handle := scanFreeHandle cache
      if handle = TextureHandle.Null then
        match cache.lruLightCache with
        | [] => none
        | oldest :: rest =>
          let cache1 := { cache with lruLightCache := rest }
          match mapFind cache1.lightsToShadowMap oldest with
          | none => none
          | some handle1 =>
            let cache2 := _EvictLightFromShadowMapCache cache1 oldest
            let cache3 := _SetLightShadowMapHandle cache2 light handle1
            some (handle1, _AddLightToShadowMapCache cache3 light)
      else
        let cache1 := _SetLightShadowMapHandle cache light handle
        some (handle, _AddLightToShadowMapCache cache1 light)
    | some handle => some (handle, _AddLightToShadowMapCache cache light)

/-- `_RemoveLightFromShadowMapCache`. -/
def _RemoveLightFromShadowMapCache (cache : ShadowMapCache) (light : LightPtr) :
    ShadowMapCache :=
  match mapFind cache.lightsToShadowMap light with
  | none => cache
  | some handle =>
    let cache1 := { cache with
      lightsToShadowMap := mapErase cache.lightsToShadowMap light
      usedShadowMaps := setErase cache.usedShadowMaps handle }
    _EvictLightFromShadowMapCache cache1 light

end ShadowMapCache

open ShadowMapCache

/-- A request to a cache. -/
inductive CacheOp where
  | getOrAllocate (light : LightPtr)
  | remove (light : LightPtr)
deriving DecidableEq

/-- One request: the cache after it. -/
def stepOp (cache : ShadowMapCache) : CacheOp → Option ShadowMapCache
  | .getOrAllocate light =>
    match _GetOrAllocateShadowMapHandleForLight cache light with
    | some r => some r.2
    | none => none
  | .remove light => some (_RemoveLightFromShadowMapCache cache light)

/-- A sequence of requests, oldest first. -/
def runOps (cache : ShadowMapCache) : List CacheOp → Option ShadowMapCache
  | [] => some cache
  | op :: ops =>
    match stepOp cache op with
    | some cache1 => runOps cache1 ops
    | none => none

/-- `GetOrAllocate` for the lights of a list, in order: the handles returned and
the cache afterwards. -/
def requestAll (cache : ShadowMapCache) :
    List LightPtr → Option (List TextureHandle × ShadowMapCache)
  | [] => some ([], cache)
  | light :: lights =>
    match _GetOrAllocateShadowMapHandleForLight cache light with
    | none => none
    | some (h, cache1) =>
      match requestAll cache1 lights with
      | none => none
      | some (hs, cache2) => some (h :: hs, cache2)

/-- A pool as `_CreateShadowMap3D` fills it: at least one handle, the handles
(map keys made by `NextHandle`) pairwise distinct and not null. -/
def PoolOk (pool : List TextureHandle) : Prop :=
  pool ≠ [] ∧ pool.Nodup ∧ TextureHandle.Null ∉ pool

instance (pool : List TextureHandle) : Decidable (PoolOk pool) := by
  unfold PoolOk; infer_instance

/-- The states of the cache of pool `pool` that a sequence of `GetOrAllocate`
and `Remove` calls reaches from the empty cache. -/
inductive Reachable (pool : List TextureHandle) : ShadowMapCache → Prop where
  | init : Reachable pool (ShadowMapCache.empty pool)
  | getOrAllocate {cache cache1 : ShadowMapCache} {light : LightPtr} {h : TextureHandle} :
      Reachable pool cache →
      _GetOrAllocateShadowMapHandleForLight cache light = some (h, cache1) →
      Reachable pool cache1
  | remove {cache : ShadowMapCache} (light : LightPtr) :
      Reachable pool cache →
      Reachable pool (_RemoveLightFromShadowMapCache cache light)

/-- The cache after the branch that assigns `handle` to a light without an
entry, `lru` being the LRU list before `_AddLightToShadowMapCache`. -/
def assigned (cache : ShadowMapCache) (lru : List LightPtr) (light : LightPtr)
    (handle : TextureHandle) : ShadowMapCache :=
  { shadowMap3DHandles := cache.shadowMap3DHandles
    lightsToShadowMap := mapInsert cache.lightsToShadowMap light handle
    usedShadowMaps := setInsert cache.usedShadowMaps handle
    lruLightCache := lru.erase light ++ [light] }

/-- What holds in every reachable state of the cache of pool `pool`. -/
structure CacheInv (pool : List TextureHandle) (cache : ShadowMapCache) : Prop where
  handles_eq : cache.shadowMap3DHandles = pool
  lru_nodup : cache.lruLightCache.Nodup
  lru_cached : ∀ l ∈ cache.lruLightCache, mapFind cache.lightsToShadowMap l ≠ none
  used_sub : ∀ h ∈ cache.usedShadowMaps, h ∈ pool
  used_nodup : cache.usedShadowMaps.Nodup
  vals_sub : ∀ e ∈ cache.lightsToShadowMap, e.2 ∈ pool
  full_lru : (∀ h ∈ pool, h ∈ cache.usedShadowMaps) → cache.lruLightCache ≠ []

/-- First regular light of the worked examples. -/
def lightA : LightPtr := { id := 1, isVirtual := false }

/-- Second regular light of the worked examples. -/
def lightB : LightPtr := { id := 2, isVirtual := false }

/-- Third regular light of the worked examples. -/
def lightC : LightPtr := { id := 3, isVirtual := false }

/-- The light that `_GetOrAllocateShadowMapHandleForLight cache light` picks as
the LRU victim: `lruLightCache.front()` when the call takes the eviction branch
(no entry for `light`, no free handle), nothing otherwise. -/
def evictionVictim (cache : ShadowMapCache) (light : LightPtr) : Option LightPtr :=
  match mapFind cache.lightsToShadowMap light with
  | some _ => none
  | none => if scanFreeHandle cache = TextureHandle.Null then cache.lruLightCache.head? else none

/-- Whether one of the requests `ops`, run from `cache`, picks `victim` as the LRU
victim. -/
def evictedDuring (victim : LightPtr) (cache : ShadowMapCache) : List CacheOp → Bool
  | [] => false
  | op :: ops =>
    (match op with
      | .getOrAllocate light => decide (evictionVictim cache light = some victim)
      | .remove _ => false) ||
    (match stepOp cache op with
      | some cache1 => evictedDuring victim cache1 ops
      | none => false)

/-! ## The renderer backend -/

/-- The framebuffers the backend creates, by the member that holds them. -/
inductive FboId where
  | dummyCubeMap
  | shadowMap (vpl : Bool) (i : Nat)
  | cascade
  | gBuffer
  | lighting
  | ssaoOcclusion
  | ssaoOcclusionBlurred
  | vplGI
  | atmospheric
  | bloomDownsample (i : Nat)
  | gaussianBlur (i : Nat) (j : Nat)
  | bloomUpsample (i : Nat)
  | atmosphericPostFx
  | fxaa1
  | fxaa2
deriving DecidableEq

/-- The framebuffers whose `valid()` the viewport (re)allocation tests after
creating them: the G-buffer, lighting, SSAO, SSAO blur, VPL GI, atmospheric,
bloom (downsample and upsample), atmospheric post-FX and FXAA framebuffers.
The Gaussian blur framebuffers of the bloom loop and the cascade framebuffer
are created without a test. -/
def FboId.validated : FboId → Bool
  | .gBuffer => true
  | .lighting => true
  | .ssaoOcclusion => true
  | .ssaoOcclusionBlurred => true
  | .vplGI => true
  | .atmospheric => true
  | .bloomDownsample _ => true
  | .bloomUpsample _ => true
  | .atmosphericPostFx => true
  | .fxaa1 => true
  | .fxaa2 => true
  | _ => false

/-- The passes of a frame: a pass is in the trace when the body of its function
runs, that is, when the function gets past the guard it starts with. -/
inductive RenderPass where
  | pointLightUpdate
  | csmDepth
  | geometry
  | ssaoOcclude
  | ssaoBlur
  | atmosphericShadowing
  | deferredLighting
  | vplCulling
  | vplGlobalIllumination
  | depthCopy
  | skybox
  | flatForward
  | bloom
  | atmosphericPostFx
  | fxaaLuminance
  | fxaaSmoothing
  | finalize
deriving DecidableEq

/-- The constants of `_state` that the translated functions read; they are
declared in the header, outside the translated sources. -/
structure RendererState where
  numRegularShadowMaps : Nat
  maxTotalRegularLightsPerFrame : Nat
  maxShadowCastingLightsPerFrame : Nat
  maxShadowUpdatesPerFrame : Nat
  maxTotalVirtualPointLightsPerFrame : Nat

/-- The part of `RendererFrame` that the translated functions read.  `lights` is
the light container in the order in which the range-`for` of
`_UpdatePointLights` visits it, `distance` is
`glm::distance(camera position, light position)` in a unit fine enough to tell
the distances apart (only `<` on distances is used), `castsShadows` is
`light->castsShadows()`, `cascades` is `csc.cascades.size()`, `cscFboValid`
is `csc.fbo.valid()` when `Begin` starts. -/
structure RendererFrame where
  lights : List LightPtr
  distance : LightPtr → Nat
  castsShadows : LightPtr → Bool
  lightsToRemove : List LightPtr
  lightsToUpate : List LightPtr
  viewportDirty : Bool
  viewportWidth : Nat
  viewportHeight : Nat
  worldLightEnabled : Bool
  globalIlluminationEnabled : Bool
  cascades : Nat
  cscRegenerateFbo : Bool
  cscFboValid : Bool

/-- The members of `RendererBackend` that the translated functions read or
write.  `nextHandle` is the handle the next call of
`TextureHandle::NextHandle()` returns: that function is declared outside the
translated sources and is taken to return the successive handles after the
null handle, so never a handle twice and never the null handle.
`framebuffers` lists the framebuffer members of `_state` (G-buffer, lighting,
SSAO, SSAO blur, VPL GI, atmospheric, atmospheric post-FX, FXAA 1 and 2) that
hold a framebuffer: a `FrameBuffer` member is default-constructed with the null
pointer for `_fbo` and holds a framebuffer once a `FrameBuffer({...})` has been
assigned to it. -/
structure RendererBackend where
  _isValid : Bool
  state : RendererState
  dummyCubeMap : TextureHandle
  nextHandle : TextureHandle
  _smapCache : ShadowMapCache
  _vplSmapCache : ShadowMapCache
  numDownsampleIterations : Nat
  numUpsampleIterations : Nat
  gaussianBuffers : List FboId
  postFxBuffers : List FboId
  framebuffers : List FboId

/-- What `_InitLights` hands to the lighting pipeline: `lightPositions`,
`lightColors` and `lightRadii` hold one entry per light of `lights`, in this
order, and `numLights` is their number; `shadowCubeMaps` holds one shadow map
per light of `shadowLights`, and `numShadowLights` is their number. -/
structure LightUniforms where
  lights : List LightPtr
  shadowLights : List (LightPtr × TextureHandle)

/-- The uniform `numLights`. -/
def LightUniforms.numLights (u : LightUniforms) : Nat := u.lights.length

/-- The uniform `numShadowLights`. -/
def LightUniforms.numShadowLights (u : LightUniforms) : Nat := u.shadowLights.length

/-- The three vectors `_UpdatePointLights` fills. -/
structure LightLists where
  perLightDistToViewer : List (LightPtr × Nat)
  perLightShadowCastingDistToViewer : List (LightPtr × Nat)
  perVPLDistToViewer : List (LightPtr × Nat)

/-- What a frame of `RenderScene` did: the passes in the order in which they ran,
the lights whose shadow map the point-light update rendered (with the handle of
the map), the vectors of `_UpdatePointLights` and the uniforms of the lighting
pass. -/
structure FrameTrace where
  passes : List RenderPass
  shadowMapsRendered : List (LightPtr × TextureHandle)
  lists : LightLists
  uniforms : LightUniforms

/-- The three vectors `_PerformBloomPostFx` indexes. -/
inductive BloomVector where
  | postFxBuffers
  | gaussianBuffers
  | finalizedPostFxFrames
deriving DecidableEq

namespace RendererBackend

/-- `Valid`. -/
def Valid (b : RendererBackend) : Bool := b._isValid

/-- The assignment `member = FrameBuffer({...})` to the framebuffer member `id` of
`_state`: from now on the member holds a framebuffer, complete or not. -/
def assignFramebuffer (b : RendererBackend) (id : FboId) : RendererBackend :=
  { b with framebuffers := id :: b.framebuffers }

/-- Calls of `bind`, `unbind`, `clear`, `copyFrom` or `getColorAttachments` on the
framebuffer members `ids` of `_state`: `FrameBuffer` forwards each of them to
`_fbo`, which is the null pointer as long as no framebuffer was assigned to the
member; the call is then undefined (`none`). -/
def useFramebuffers (b : RendererBackend) (ids : List FboId) : Option Unit :=
  if ∀ id ∈ ids, id ∈ b.framebuffers then some () else none

/-- `_GetSmapCacheForLight`. -/
def _GetSmapCacheForLight (b : RendererBackend) (light : LightPtr) : ShadowMapCache :=
  if light.isVirtual then b._vplSmapCache else b._smapCache

/-- The write through the reference that `_GetSmapCacheForLight(light)` returns. -/
def setSmapCacheForLight (b : RendererBackend) (light : LightPtr) (cache : ShadowMapCache) :
    RendererBackend :=
  if light.isVirtual then { b with _vplSmapCache := cache } else { b with _smapCache := cache }

/-- `_GetOrAllocateShadowMapHandleForLight`, on the backend. -/
def _GetOrAllocateShadowMapHandleForLight (b : RendererBackend) (light : LightPtr) :
    Option (TextureHandle × RendererBackend) :=
  match ShadowMapCache._GetOrAllocateShadowMapHandleForLight (b._GetSmapCacheForLight light)
      light with
  | none => none
  | some (h, cache) => some (h, b.setSmapCacheForLight light cache)

/-- `_GetOrAllocateShadowMapForLight`: the shadow map is identified by its handle;
`shadowMap3DHandles.find(handle)->second` needs the handle to be a key. -/
def _GetOrAllocateShadowMapForLight (b : RendererBackend) (light : LightPtr) :
    Option (TextureHandle × RendererBackend) :=
  match b._GetOrAllocateShadowMapHandleForLight light with
  | none => none
  | some (h, b1) =>
    if h ∈ (b1._GetSmapCacheForLight light).shadowMap3DHandles then some (h, b1) else none

/-- `_ShadowMapExistsForLight`, on the backend. -/
def _ShadowMapExistsForLight (b : RendererBackend) (light : LightPtr) : Bool :=
  ShadowMapCache._ShadowMapExistsForLight (b._GetSmapCacheForLight light) light

/-- `_RemoveLightFromShadowMapCache`, on the backend. -/
def _RemoveLightFromShadowMapCache (b : RendererBackend) (light : LightPtr) : RendererBackend :=
  b.setSmapCacheForLight light
    (ShadowMapCache._RemoveLightFromShadowMapCache (b._GetSmapCacheForLight light) light)

/-- `_ValidateAllShaders`; `pipelines` holds `p->isValid()` for the pipelines of
`_state.shaders`. -/
def _ValidateAllShaders (b : RendererBackend) (pipelines : List Bool) : RendererBackend :=
  { b with _isValid := pipelines.foldl (fun valid p => valid && p) true }

/-- `_CreateShadowMap3D`; `complete` is the answer of the framebuffer's validity
check. -/
def _CreateShadowMap3D (b : RendererBackend) (complete : Bool) (vpl : Bool) :
    TextureHandle × RendererBackend :=
  if !complete then (TextureHandle.Null, { b with _isValid := false })
  else
    let handle := b.nextHandle
    let b1 := { b with nextHandle := handle + 1 }
    if vpl then
      (handle, { b1 with _vplSmapCache :=
        { b1._vplSmapCache with
          shadowMap3DHandles := b1._vplSmapCache.shadowMap3DHandles ++ [handle] } })
    else
      (handle, { b1 with _smapCache :=
        { b1._smapCache with
          shadowMap3DHandles := b1._smapCache.shadowMap3DHandles ++ [handle] } })

/-- One of the two loops of `_InitPointShadowMaps`: `n` more calls of
`_CreateShadowMap3D`, the next one for the loop index `i`. -/
def createShadowMaps (complete : FboId → Bool) (vpl : Bool) :
    Nat → Nat → RendererBackend → RendererBackend
  | _, 0, b => b
  | i, n + 1, b =>
    createShadowMaps complete vpl (i + 1) n
      (b._CreateShadowMap3D (complete (FboId.shadowMap vpl i)) vpl).2

/-- `_InitPointShadowMaps`. -/
def _InitPointShadowMaps (complete : FboId → Bool) (b : RendererBackend) : RendererBackend :=
  let b1 := createShadowMaps complete false 0 b.state.numRegularShadowMaps b
  createShadowMaps complete true 0 b1.state.maxTotalVirtualPointLightsPerFrame b1

/-- The constructor, as far as it touches the members above: the validity flag is
set from the pipelines, then the dummy cube map is created (as a regular shadow
map), then the two pools. -/
def construct (state : RendererState) (pipelines : List Bool) (complete : FboId → Bool) :
    RendererBackend :=
  let b0 : RendererBackend :=
    { _isValid := true, state := state, dummyCubeMap := TextureHandle.Null, nextHandle := 1,
      _smapCache := ShadowMapCache.empty [], _vplSmapCache := ShadowMapCache.empty [],
      numDownsampleIterations := 0, numUpsampleIterations := 0,
      gaussianBuffers := [], postFxBuffers := [], framebuffers := [] }
  let b1 := b0._ValidateAllShaders pipelines
  let r := b1._CreateShadowMap3D (complete FboId.dummyCubeMap) false
  _InitPointShadowMaps complete { r.2 with dummyCubeMap := r.1 }

/-- One request to the backend: the handle a `GetOrAllocate` returned, and the
backend afterwards. -/
def stepOp (b : RendererBackend) : CacheOp → Option (List (LightPtr × TextureHandle) × RendererBackend)
  | .getOrAllocate light =>
    match b._GetOrAllocateShadowMapHandleForLight light with
    | some (h, b1) => some ([(light, h)], b1)
    | none => none
  | .remove light => some ([], b._RemoveLightFromShadowMapCache light)

/-- A sequence of requests to the backend, oldest first: the lights requested with
the handles returned, and the backend afterwards. -/
def runOps (b : RendererBackend) :
    List CacheOp → Option (List (LightPtr × TextureHandle) × RendererBackend)
  | [] => some ([], b)
  | op :: ops =>
    match b.stepOp op with
    | none => none
    | some (r1, b1) =>
      match runOps b1 ops with
      | none => none
      | some (r2, b2) => some (r1 ++ r2, b2)

/-- `_ClearGBuffer`: `_state.buffer = GBuffer()` leaves the G-buffer member without
a framebuffer; the two vectors are cleared. -/
def _ClearGBuffer (b : RendererBackend) : RendererBackend :=
  { b with
    framebuffers := b.framebuffers.filter (fun id => decide (id ≠ FboId.gBuffer))
    gaussianBuffers := []
    postFxBuffers := [] }

/-- `_ClearRemovedLightData`. -/
def _ClearRemovedLightData (b : RendererBackend) (frame : RendererFrame) : RendererBackend :=
  frame.lightsToRemove.foldl (fun acc light => acc._RemoveLightFromShadowMapCache light) b

/-- `_RecalculateCascadeData`: the framebuffers it creates. -/
def _RecalculateCascadeData (frame : RendererFrame) : List FboId :=
  if frame.cscRegenerateFbo || !frame.cscFboValid then [FboId.cascade] else []

/-- The bloom loop of `_InitializePostFxBuffers`, `fuel` iterations before
`numDownsampleIterations` reaches 8: the framebuffers created, the backend, and
whether the function returned from inside the loop. -/
def bloomDownsampleLoop (complete : FboId → Bool) :
    Nat → Nat → Nat → RendererBackend → List FboId × RendererBackend × Bool
  | 0, _, _, b => ([], b, false)
  | fuel + 1, currWidth, currHeight, b =>
    let currWidth := currWidth / 2
    let currHeight := currHeight / 2
    if currWidth < 8 ∨ currHeight < 8 then ([], b, false)
    else
      let i := b.numDownsampleIterations
      if !complete (FboId.bloomDownsample i) then
        ([FboId.bloomDownsample i], { b with _isValid := false }, true)
      else
        let b1 := { b with
          postFxBuffers := b.postFxBuffers ++ [FboId.bloomDownsample i]
          gaussianBuffers := b.gaussianBuffers ++ [FboId.gaussianBlur i 0, FboId.gaussianBlur i 1]
          numDownsampleIterations := i + 1 }
        let r := bloomDownsampleLoop complete fuel currWidth currHeight b1
        ([FboId.bloomDownsample i, FboId.gaussianBlur i 0, FboId.gaussianBlur i 1] ++ r.1,
          r.2.1, r.2.2)

/-- The upsample loop of `_InitializePostFxBuffers` over the `n` remaining
entries of `sizes`. -/
def bloomUpsampleLoop (complete : FboId → Bool) :
    Nat → RendererBackend → List FboId × RendererBackend × Bool
  | 0, b => ([], b, false)
  | n + 1, b =>
    let j := b.numUpsampleIterations
    let b1 := { b with numUpsampleIterations := j + 1 }
    if !complete (FboId.bloomUpsample j) then
      ([FboId.bloomUpsample j], { b1 with _isValid := false }, true)
    else
      let b2 := { b1 with postFxBuffers := b1.postFxBuffers ++ [FboId.bloomUpsample j] }
      let r := bloomUpsampleLoop complete n b2
      (FboId.bloomUpsample j :: r.1, r.2.1, r.2.2)

/-- `_InitializePostFxBuffers`: the framebuffers created, and the backend.  The
bloom framebuffers are locals that are pushed to `postFxBuffers` once they
passed their test; the atmospheric post-FX and the two FXAA framebuffers are
assigned to their members before they are tested. -/
def _InitializePostFxBuffers (complete : FboId → Bool) (frame : RendererFrame)
    (b : RendererBackend) : List FboId × RendererBackend :=
  let b0 := { b with numDownsampleIterations := 0, numUpsampleIterations := 0 }
  let down := bloomDownsampleLoop complete 8 frame.viewportWidth frame.viewportHeight b0
  if down.2.2 then (down.1, down.2.1)
  else
    let b1 := down.2.1
    let up := bloomUpsampleLoop complete ((b1.numDownsampleIterations - 1) + 1) b1
    if up.2.2 then (down.1 ++ up.1, up.2.1)
    else
      let b2 := up.2.1.assignFramebuffer FboId.atmosphericPostFx
      if !complete FboId.atmosphericPostFx then
        (down.1 ++ up.1 ++ [FboId.atmosphericPostFx], { b2 with _isValid := false })
      else
        let b3 := ({ b2 with postFxBuffers :=
          b2.postFxBuffers ++ [FboId.atmosphericPostFx] }).assignFramebuffer FboId.fxaa1
        if !complete FboId.fxaa1 then
          (down.1 ++ up.1 ++ [FboId.atmosphericPostFx, FboId.fxaa1],
            { b3 with _isValid := false })
        else
          let b4 := ({ b3 with postFxBuffers :=
            b3.postFxBuffers ++ [FboId.fxaa1] }).assignFramebuffer FboId.fxaa2
          if !complete FboId.fxaa2 then
            (down.1 ++ up.1 ++ [FboId.atmosphericPostFx, FboId.fxaa1, FboId.fxaa2],
              { b4 with _isValid := false })
          else
            (down.1 ++ up.1 ++ [FboId.atmosphericPostFx, FboId.fxaa1, FboId.fxaa2],
              { b4 with postFxBuffers := b4.postFxBuffers ++ [FboId.fxaa2] })

/-- `_UpdateWindowDimensions`: the framebuffers created, and the backend;
`complete` is the answer of `glCheckFramebufferStatus` for each framebuffer.
Each framebuffer is assigned to its member before it is tested. -/
def _UpdateWindowDimensions (complete : FboId → Bool) (frame : RendererFrame)
    (b : RendererBackend) : List FboId × RendererBackend :=
  if !frame.viewportDirty then ([], b)
  else
    let b1 := b._ClearGBuffer.assignFramebuffer FboId.gBuffer
    if !complete FboId.gBuffer then ([FboId.gBuffer], { b1 with _isValid := false })
    else
      let b2 := b1.assignFramebuffer FboId.lighting
      if !complete FboId.lighting then
        ([FboId.gBuffer, FboId.lighting], { b2 with _isValid := false })
      else
        let b3 := b2.assignFramebuffer FboId.ssaoOcclusion
        if !complete FboId.ssaoOcclusion then
          ([FboId.gBuffer, FboId.lighting, FboId.ssaoOcclusion], { b3 with _isValid := false })
        else
          let b4 := b3.assignFramebuffer FboId.ssaoOcclusionBlurred
          if !complete FboId.ssaoOcclusionBlurred then
            ([FboId.gBuffer, FboId.lighting, FboId.ssaoOcclusion, FboId.ssaoOcclusionBlurred],
              { b4 with _isValid := false })
          else
            let b5 := b4.assignFramebuffer FboId.vplGI
            if !complete FboId.vplGI then
              ([FboId.gBuffer, FboId.lighting, FboId.ssaoOcclusion, FboId.ssaoOcclusionBlurred,
                FboId.vplGI], { b5 with _isValid := false })
            else
              let b6 := b5.assignFramebuffer FboId.atmospheric
              if !complete FboId.atmospheric then
                ([FboId.gBuffer, FboId.lighting, FboId.ssaoOcclusion,
                  FboId.ssaoOcclusionBlurred, FboId.vplGI, FboId.atmospheric],
                  { b6 with _isValid := false })
              else
                let r := _InitializePostFxBuffers complete frame b6
                ([FboId.gBuffer, FboId.lighting, FboId.ssaoOcclusion,
                  FboId.ssaoOcclusionBlurred, FboId.vplGI, FboId.atmospheric] ++ r.1, r.2)

/-- `_ClearFramebufferData`: with `clearScreen` it calls `clear` on the G-buffer,
SSAO, SSAO blur, atmospheric, lighting and VPL GI framebuffers, on the cascade
framebuffer if that one is valid, on the elements of `gaussianBuffers` and
`postFxBuffers` (which hold framebuffers) and on the atmospheric post-FX
framebuffer. -/
def _ClearFramebufferData (b : RendererBackend) (clearScreen : Bool) : Option Unit :=
  if clearScreen then
    b.useFramebuffers [FboId.gBuffer, FboId.ssaoOcclusion, FboId.ssaoOcclusionBlurred,
      FboId.atmospheric, FboId.lighting, FboId.vplGI, FboId.atmosphericPostFx]
  else some ()

/-- `Begin`: the framebuffers created, in order, and the backend; `none` when the
clearing of the framebuffers is undefined. -/
def Begin (complete : FboId → Bool) (b : RendererBackend) (frame : RendererFrame)
    (clearScreen : Bool) : Option (List FboId × RendererBackend) :=
  let b1 := b._ClearRemovedLightData frame
  let cascade := _RecalculateCascadeData frame
  let r := _UpdateWindowDimensions complete frame b1
  match r.2._ClearFramebufferData clearScreen with
  | none => none
  | some _ => some (cascade ++ r.1, r.2)

/-- `std::sort` with `comparison` (`a.second < b.second`): the entries in
ascending order of distance.  Where distances are equal `std::sort` leaves the
order open; the insertion sort keeps the order of insertion. -/
def sortByDistance (l : List (LightPtr × Nat)) : List (LightPtr × Nat) :=
  l.insertionSort (fun a b => a.2 ≤ b.2)

/-- The `if (v.size() > max) v.resize(max)` of `_UpdatePointLights`. -/
def truncate (l : List (LightPtr × Nat)) (max : Nat) : List (LightPtr × Nat) :=
  if l.length > max then l.take max else l

/-- First part of `_UpdatePointLights`: the three vectors are filled from the
lights of the frame, sorted by distance to the viewer and cut to their maximum
sizes. -/
def buildLightLists (b : RendererBackend) (frame : RendererFrame) : LightLists :=
  let withDistance := fun (light : LightPtr) => (light, frame.distance light)
  { perLightDistToViewer :=
      truncate (sortByDistance
        ((frame.lights.filter (fun l => !l.isVirtual)).map withDistance))
        b.state.maxTotalRegularLightsPerFrame
    perLightShadowCastingDistToViewer :=
      truncate (sortByDistance
        ((frame.lights.filter (fun l => !l.isVirtual && frame.castsShadows l)).map
          withDistance))
        b.state.maxShadowCastingLightsPerFrame
    perVPLDistToViewer :=
      truncate (sortByDistance ((frame.lights.filter (fun l => l.isVirtual)).map withDistance))
        b.state.maxTotalVirtualPointLightsPerFrame }

/-- Modelled from the spec: the type of `lightsToUpate` is declared outside the
translated sources; it is the FIFO "lights to update" work queue of the spec,
`PushBack` appending at the back and `PopFront` taking from the front.  Second
part of `_UpdatePointLights`: the lights of the two shadow-caster vectors that
have no shadow map are pushed to the queue, in the order of the vectors. -/
def enqueueShadowUpdates (b : RendererBackend) (lists : LightLists)
    (queue : List LightPtr) : List LightPtr :=
  queue ++ ((lists.perLightShadowCastingDistToViewer ++ lists.perVPLDistToViewer).map
    Prod.fst).filter (fun light => !b._ShadowMapExistsForLight light)

/-- Third part of `_UpdatePointLights`, the loop that drains the queue, with
`fuel` iterations before `shadowUpdates` reaches `maxShadowUpdatesPerFrame`: the
lights whose shadow map was rendered, with the handle of the map, the backend
and the queue afterwards. -/
def drainShadowUpdates (castsShadows : LightPtr → Bool) :
    Nat → RendererBackend → List LightPtr →
      Option (List (LightPtr × TextureHandle) × RendererBackend × List LightPtr)
  | 0, b, queue => some ([], b, queue)
  | _ + 1, b, [] => some ([], b, [])
  | fuel + 1, b, light :: queue =>
    if !castsShadows light then drainShadowUpdates castsShadows fuel b queue
    else
      match b._GetOrAllocateShadowMapForLight light with
      | none => none
      | some (h, b1) =>
        match drainShadowUpdates castsShadows fuel b1 queue with
        | none => none
        | some (rendered, b2, queue2) => some ((light, h) :: rendered, b2, queue2)

/-- `_UpdatePointLights`: the vectors, the shadow maps rendered, the backend and
the queue `lightsToUpate` afterwards. -/
def _UpdatePointLights (b : RendererBackend) (frame : RendererFrame) :
    Option (LightLists × List (LightPtr × TextureHandle) × RendererBackend × List LightPtr) :=
  let lists := buildLightLists b frame
  let queue := enqueueShadowUpdates b lists frame.lightsToUpate
  match drainShadowUpdates frame.castsShadows b.state.maxShadowUpdatesPerFrame b queue with
  | none => none
  | some (rendered, b1, queue1) => some (lists, rendered, b1, queue1)

/-- The loop of `_InitLights` over the remaining entries of `lights`; `u` holds
what was written so far, `lightIndex` being `u.lights.length` and
`shadowLightIndex` being `u.shadowLights.length`. -/
def initLightsLoop (castsShadows : LightPtr → Bool) (maxShadowLights : Nat) :
    List (LightPtr × Nat) → LightUniforms → RendererBackend →
      Option (LightUniforms × RendererBackend)
  | [], u, b => some (u, b)
  | (light, _) :: lights, u, b =>
    if light.isVirtual then initLightsLoop castsShadows maxShadowLights lights u b
    else if castsShadows light then
      if u.shadowLights.length ≥ maxShadowLights then
        initLightsLoop castsShadows maxShadowLights lights u b
      else
        match b._GetOrAllocateShadowMapHandleForLight light with
        | none => none
        | some (h, b1) =>
          initLightsLoop castsShadows maxShadowLights lights
            { lights := u.lights ++ [light], shadowLights := u.shadowLights ++ [(light, h)] } b1
    else
      initLightsLoop castsShadows maxShadowLights lights
        { u with lights := u.lights ++ [light] } b

/-- The downsample stage of `_PerformBloomPostFx`: the elements of the three
vectors it reads or writes, as vector and index, in order.  In iteration `i`
the variable `gaussian` is `2 * i`. -/
def bloomDownsampleStage (numDownsampleIterations : Nat) : List (BloomVector × Int) :=
  (List.range numDownsampleIterations).flatMap (fun n =>
    let i : Int := n
    let gaussian : Int := 2 * n
    [(BloomVector.postFxBuffers, i)] ++
    (if i = 0 then [] else [(BloomVector.postFxBuffers, i - 1)]) ++
    [(BloomVector.gaussianBuffers, gaussian + 0),
     (BloomVector.gaussianBuffers, gaussian + 1), (BloomVector.gaussianBuffers, gaussian),
     (BloomVector.gaussianBuffers, gaussian + 1), (BloomVector.finalizedPostFxFrames, i)])

/-- The upsample stage of `_PerformBloomPostFx`: in its `n`-th iteration `i` is
`numDownsampleIterations - 1 - n` and `postFXIndex` is
`numDownsampleIterations + n`; the loop ends when `i` is below 0. -/
def bloomUpsampleStage (numDownsampleIterations : Nat) : List (BloomVector × Int) :=
  (List.range numDownsampleIterations).flatMap (fun n =>
    let i : Int := (numDownsampleIterations : Int) - 1 - n
    let postFXIndex : Int := (numDownsampleIterations : Int) + n
    [(BloomVector.postFxBuffers, postFXIndex),
     (BloomVector.finalizedPostFxFrames, postFXIndex - 1)] ++
    (if i = 0 then [] else [(BloomVector.finalizedPostFxFrames, i - 1)]) ++
    [(BloomVector.finalizedPostFxFrames, postFXIndex)])

/-- `_PerformBloomPostFx`: the elements of `_state.postFxBuffers`,
`_state.gaussianBuffers` and the local `finalizedPostFxFrames` it reads or
writes, in order. -/
def _PerformBloomPostFx (b : RendererBackend) : List (BloomVector × Int) :=
  bloomDownsampleStage b.numDownsampleIterations ++
    bloomUpsampleStage b.numDownsampleIterations

/-- The size of a vector of `_PerformBloomPostFx`; `finalizedPostFxFrames` is
created with `numDownsampleIterations + numUpsampleIterations` elements. -/
def bloomVectorSize (b : RendererBackend) : BloomVector → Nat
  | .postFxBuffers => b.postFxBuffers.length
  | .gaussianBuffers => b.gaussianBuffers.length
  | .finalizedPostFxFrames => b.numDownsampleIterations + b.numUpsampleIterations

/-- `_InitCoreCSMData`: it dereferences the depth attachment of the cascade
framebuffer, which `_RecalculateCascadeData` has created, reads every cascade,
and then runs `for (int i = 0; i < cascades.size() - 1; ++i)` reading
`cascades[i + 1]`: for a frame without cascades the unsigned bound wraps and the
read is outside the vector (`none`). -/
def _InitCoreCSMData (frame : RendererFrame) : Option Unit :=
  if frame.cascades = 0 then none else some ()

/-- `_InitLights`: the per-light uniforms, and the backend; the loop over the
lights is followed by `_InitCoreCSMData`. -/
def _InitLights (b : RendererBackend) (frame : RendererFrame) (lights : List (LightPtr × Nat))
    (maxShadowLights : Nat) : Option (LightUniforms × RendererBackend) :=
  match initLightsLoop frame.castsShadows maxShadowLights lights
      { lights := [], shadowLights := [] } b with
  | none => none
  | some r =>
    match _InitCoreCSMData frame with
    | none => none
    | some _ => some r

/-- The loop of `_PerformVirtualPointLightCulling` that fetches a shadow map for
every light of `perVPLDistToViewer`: the handles, in the order of the lights. -/
def vplShadowMaps : List (LightPtr × Nat) → RendererBackend →
    Option (List TextureHandle × RendererBackend)
  | [], b => some ([], b)
  | (light, _) :: lights, b =>
    match b._GetOrAllocateShadowMapForLight light with
    | none => none
    | some (h, b1) =>
      match vplShadowMaps lights b1 with
      | none => none
      | some (hs, b2) => some (h :: hs, b2)

/-- `_PerformVirtualPointLightCulling`: the pass it ran (none for an empty
vector), the handles, and the backend; the loop over the lights is followed by
`_InitCoreCSMData`. -/
def _PerformVirtualPointLightCulling (b : RendererBackend)
    (perVPLDistToViewer : List (LightPtr × Nat)) (frame : RendererFrame) :
    Option (List RenderPass × List TextureHandle × RendererBackend) :=
  if perVPLDistToViewer.length = 0 then some ([], [], b)
  else
    match vplShadowMaps perVPLDistToViewer b with
    | none => none
    | some (hs, b1) =>
      match _InitCoreCSMData frame with
      | none => none
      | some _ => some ([RenderPass.vplCulling], hs, b1)

/-- `_ComputeVirtualPointLightGlobalIllumination`: the pass it ran (none for an
empty vector); it binds the VPL GI framebuffer and copies it to the lighting
framebuffer. -/
def _ComputeVirtualPointLightGlobalIllumination (b : RendererBackend)
    (perVPLDistToViewer : List (LightPtr × Nat)) : Option (List RenderPass) :=
  if perVPLDistToViewer.length = 0 then some []
  else
    match b.useFramebuffers [FboId.vplGI, FboId.lighting] with
    | none => none
    | some _ => some [RenderPass.vplGlobalIllumination]

/-- `_RenderSsaoOcclude`: the pass it ran, on the SSAO framebuffer. -/
def _RenderSsaoOcclude (b : RendererBackend) : Option (List RenderPass) :=
  match b.useFramebuffers [FboId.ssaoOcclusion] with
  | none => none
  | some _ => some [RenderPass.ssaoOcclude]

/-- `_RenderSsaoBlur`: the pass it ran, on the SSAO blur framebuffer. -/
def _RenderSsaoBlur (b : RendererBackend) : Option (List RenderPass) :=
  match b.useFramebuffers [FboId.ssaoOcclusionBlurred] with
  | none => none
  | some _ => some [RenderPass.ssaoBlur]

/-- `_RenderAtmosphericShadowing`: the pass it ran (none when the world light is
disabled).  It reads `cascades[cascades.size() - 1]` and `cascades[0]`, binds the
atmospheric framebuffer and reads `cascades[0]` to `cascades[3]` in a loop of
four iterations: with fewer than four cascades a read is outside the vector
(`none`). -/
def _RenderAtmosphericShadowing (b : RendererBackend) (frame : RendererFrame) :
    Option (List RenderPass) :=
  if !frame.worldLightEnabled then some []
  else if frame.cascades < 4 then none
  else
    match b.useFramebuffers [FboId.atmospheric] with
    | none => none
    | some _ => some [RenderPass.atmosphericShadowing]

/-- The bloom pass of `_PerformPostFxProcessing`: it is defined when every element
that `_PerformBloomPostFx` reads or writes lies inside its vector. -/
def bloomPass (b : RendererBackend) : Option (List RenderPass) :=
  if ∀ a ∈ b._PerformBloomPostFx, 0 ≤ a.2 ∧ a.2 < (b.bloomVectorSize a.1 : Int) then
    some [RenderPass.bloom]
  else none

/-- `_PerformAtmosphericPostFx`: the pass it ran (none when the world light is
disabled), on the atmospheric post-FX framebuffer. -/
def _PerformAtmosphericPostFx (b : RendererBackend) (frame : RendererFrame) :
    Option (List RenderPass) :=
  if !frame.worldLightEnabled then some []
  else
    match b.useFramebuffers [FboId.atmosphericPostFx] with
    | none => none
    | some _ => some [RenderPass.atmosphericPostFx]

/-- `_PerformFxaaPostFx`: the two passes it ran, on the two FXAA framebuffers. -/
def _PerformFxaaPostFx (b : RendererBackend) : Option (List RenderPass) :=
  match b.useFramebuffers [FboId.fxaa1, FboId.fxaa2] with
  | none => none
  | some _ => some [RenderPass.fxaaLuminance, RenderPass.fxaaSmoothing]

/-- `_PerformPostFxProcessing`: the passes it ran. -/
def _PerformPostFxProcessing (b : RendererBackend) (frame : RendererFrame) :
    Option (List RenderPass) :=
  match b.bloomPass with
  | none => none
  | some bloom =>
    match b._PerformAtmosphericPostFx frame with
    | none => none
    | some atmospheric =>
      match b._PerformFxaaPostFx with
      | none => none
      | some fxaa => some (bloom ++ atmospheric ++ fxaa)

/-- `_RenderCSMDepth`: the pass it ran, on the cascade framebuffer, which
`_RecalculateCascadeData` has created; it throws (`none`) when the frame has more
cascades than the six pipelines of `_state.csmDepth`. -/
def _RenderCSMDepth (frame : RendererFrame) : Option (List RenderPass) :=
  if frame.cascades > 6 then none else some [RenderPass.csmDepth]

/-- The statement `if (worldLight->getEnabled()) _RenderCSMDepth()` of
`RenderScene`. -/
def csmDepthStep (frame : RendererFrame) : Option (List RenderPass) :=
  if frame.worldLightEnabled then _RenderCSMDepth frame else some []

/-- The geometry pass of `RenderScene`, on the G-buffer framebuffer. -/
def geometryPass (b : RendererBackend) : Option (List RenderPass) :=
  match b.useFramebuffers [FboId.gBuffer] with
  | none => none
  | some _ => some [RenderPass.geometry]

/-- The deferred lighting pass of `RenderScene`: the lighting framebuffer is bound,
then `_InitLights` runs. -/
def lightingPass (b : RendererBackend) (frame : RendererFrame)
    (perLightDistToViewer : List (LightPtr × Nat)) :
    Option (List RenderPass × LightUniforms × RendererBackend) :=
  match b.useFramebuffers [FboId.lighting] with
  | none => none
  | some _ =>
    match b._InitLights frame perLightDistToViewer b.state.maxShadowCastingLightsPerFrame with
    | none => none
    | some (uniforms, b1) => some ([RenderPass.deferredLighting], uniforms, b1)

/-- The statement of `RenderScene` that runs VPL culling and VPL global
illumination when the world light and global illumination are enabled. -/
def vplStep (b : RendererBackend) (frame : RendererFrame)
    (perVPLDistToViewer : List (LightPtr × Nat)) : Option (List RenderPass × RendererBackend) :=
  if frame.worldLightEnabled && frame.globalIlluminationEnabled then
    match b._PerformVirtualPointLightCulling perVPLDistToViewer frame with
    | none => none
    | some (culling, _, b1) =>
      match b1._ComputeVirtualPointLightGlobalIllumination perVPLDistToViewer with
      | none => none
      | some gi => some (culling ++ gi, b1)
  else some ([], b)

/-- The forward passes of `RenderScene`: the depth of the G-buffer framebuffer is
copied to the lighting framebuffer, on which the skybox and the flat meshes are
rendered. -/
def forwardPasses (b : RendererBackend) : Option (List RenderPass) :=
  match b.useFramebuffers [FboId.lighting, FboId.gBuffer] with
  | none => none
  | some _ => some [RenderPass.depthCopy, RenderPass.skybox, RenderPass.flatForward]

/-- The passes of `RenderScene` between the cascade depth pass and the deferred
lighting pass: geometry, the two SSAO passes, atmospheric shadowing. -/
def geometryPasses (b : RendererBackend) (frame : RendererFrame) : Option (List RenderPass) :=
  match b.geometryPass with
  | none => none
  | some geometry =>
    match b._RenderSsaoOcclude with
    | none => none
    | some occlude =>
      match b._RenderSsaoBlur with
      | none => none
      | some blur =>
        match b._RenderAtmosphericShadowing frame with
        | none => none
        | some atmospheric => some (geometry ++ occlude ++ blur ++ atmospheric)

/-- The passes of `RenderScene` after the VPL passes: the forward passes, the
post-processing passes and `_FinalizeFrame`. -/
def closingPasses (b : RendererBackend) (frame : RendererFrame) : Option (List RenderPass) :=
  match b.forwardPasses with
  | none => none
  | some forward =>
    match b._PerformPostFxProcessing frame with
    | none => none
    | some postFx => some (forward ++ postFx ++ [RenderPass.finalize])

/-- `RenderScene`: what the frame did, the backend and the queue `lightsToUpate`
afterwards; `frame` is the frame of the last `Begin`.  It is `none` when the
source throws or is undefined: a request to a shadow-map cache without handles,
more than six cascades, a call on a framebuffer member that holds no
framebuffer, a read outside the cascades or outside a vector of the bloom pass.
The camera, the world light, the pipelines, the meshes and the textures of the
frame and of `_state` are declared outside the translated sources and are taken
to exist. -/
def RenderScene (b : RendererBackend) (frame : RendererFrame) :
    Option (FrameTrace × RendererBackend × List LightPtr) :=
  match b._UpdatePointLights frame with
  | none => none
  | some (lists, rendered, b1, queue) =>
    match csmDepthStep frame with
    | none => none
    | some csm =>
      match b1.geometryPasses frame with
      | none => none
      | some geometry =>
        match b1.lightingPass frame lists.perLightDistToViewer with
        | none => none
        | some (lighting, uniforms, b2) =>
          match b2.vplStep frame lists.perVPLDistToViewer with
          | none => none
          | some (gi, b3) =>
            match b3.closingPasses frame with
            | none => none
            | some closing =>
              some ({ passes :=
                        [RenderPass.pointLightUpdate] ++ csm ++ geometry ++ lighting ++ gi ++
                        closing
                      shadowMapsRendered := rendered
                      lists := lists
                      uniforms := uniforms }, b3, queue)

/-- The frames `RenderScene` renders when the frontend hands in the lights and
flags of `frame` `n` times, the queue `lightsToUpate` being carried over from
one frame to the next: the lights whose shadow map was rendered, over all the
frames, the backend and the queue afterwards.  The `Begin` of the second and
the later frames, with the viewport clean and no light to remove, leaves the
backend as it is. -/
def renderFrames (frame : RendererFrame) :
    Nat → RendererBackend → List LightPtr →
      Option (List (LightPtr × TextureHandle) × RendererBackend × List LightPtr)
  | 0, b, queue => some ([], b, queue)
  | n + 1, b, queue =>
    match b.RenderScene { frame with lightsToUpate := queue } with
    | none => none
    | some (trace, b1, queue1) =>
      match renderFrames frame n b1 queue1 with
      | none => none
      | some (rendered, b2, queue2) => some (trace.shadowMapsRendered ++ rendered, b2, queue2)

end RendererBackend

/-- The two caches of a backend satisfy the invariant of the reachable states,
for pools that are as `_CreateShadowMap3D` fills them. -/
structure BackendInv (regularPool vplPool : List TextureHandle) (b : RendererBackend) :
    Prop where
  regularOk : PoolOk regularPool
  vplOk : PoolOk vplPool
  regular : CacheInv regularPool b._smapCache
  vpl : CacheInv vplPool b._vplSmapCache

/-- The pool of the cache that `_GetSmapCacheForLight(light)` selects. -/
def poolFor (regularPool vplPool : List TextureHandle) (light : LightPtr) : List TextureHandle :=
  if light.isVirtual then vplPool else regularPool

/-- The two pools of `b1` are the pools of `b`. -/
def SamePools (b b1 : RendererBackend) : Prop :=
  b1._smapCache.shadowMap3DHandles = b._smapCache.shadowMap3DHandles ∧
  b1._vplSmapCache.shadowMap3DHandles = b._vplSmapCache.shadowMap3DHandles

/-- What the constructor establishes while it creates the shadow maps: no light is
cached, and the handles of the two pools are pairwise distinct, not null and
below `nextHandle`. -/
structure Constructed (b : RendererBackend) : Prop where
  regularEmpty : b._smapCache = ShadowMapCache.empty b._smapCache.shadowMap3DHandles
  vplEmpty : b._vplSmapCache = ShadowMapCache.empty b._vplSmapCache.shadowMap3DHandles
  nodup : (b._smapCache.shadowMap3DHandles ++ b._vplSmapCache.shadowMap3DHandles).Nodup
  fresh : ∀ h ∈ b._smapCache.shadowMap3DHandles ++ b._vplSmapCache.shadowMap3DHandles,
    0 < h ∧ h < b.nextHandle
  nextPos : 0 < b.nextHandle

/-- The members that the viewport (re)allocation writes are the same in `b1` as in
`b`: the framebuffer members that hold a framebuffer, the two vectors of the
bloom pass and the two iteration counts. -/
def SameBuffers (b b1 : RendererBackend) : Prop :=
  b1.framebuffers = b.framebuffers ∧ b1.postFxBuffers = b.postFxBuffers ∧
  b1.gaussianBuffers = b.gaussianBuffers ∧
  b1.numDownsampleIterations = b.numDownsampleIterations ∧
  b1.numUpsampleIterations = b.numUpsampleIterations

/-- From `b` to `b1` only the contents of the two caches may have changed: the
pools, the constants of `_state`, the validity flag and the members of the
viewport (re)allocation are the same. -/
def CacheStep (b b1 : RendererBackend) : Prop :=
  SamePools b b1 ∧ b1.state = b.state ∧ b1._isValid = b._isValid ∧ SameBuffers b b1

/-- What `RenderScene` reads outside the caches is there: the frame has a cascade,
and four of them when the world light is enabled; each of the nine framebuffer
members of `_state` holds a framebuffer; every element the bloom pass reads or
writes lies inside its vector. -/
def Renderable (b : RendererBackend) (frame : RendererFrame) : Prop :=
  1 ≤ frame.cascades ∧ (frame.worldLightEnabled = true → 4 ≤ frame.cascades) ∧
  (∀ id ∈ [FboId.gBuffer, FboId.lighting, FboId.ssaoOcclusion, FboId.ssaoOcclusionBlurred,
    FboId.vplGI, FboId.atmospheric, FboId.atmosphericPostFx, FboId.fxaa1, FboId.fxaa2],
    id ∈ b.framebuffers) ∧
  (∀ a ∈ b._PerformBloomPostFx, 0 ≤ a.2 ∧ a.2 < (b.bloomVectorSize a.1 : Int))

/-- Every framebuffer of `created` that the (re)allocation tests passed its
test. -/
def AllOk (complete : FboId → Bool) (created : List FboId) : Prop :=
  ∀ x ∈ created, x.validated = true → complete x = true

/-- The last framebuffer of `created` is tested and failed its test, the tested
ones before it passed theirs. -/
def StoppedAt (complete : FboId → Bool) (created : List FboId) : Prop :=
  ∃ pre x, created = pre ++ [x] ∧ x.validated = true ∧ complete x = false ∧
    AllOk complete pre

/-- A virtual point light of the worked examples. -/
def lightV : LightPtr := { id := 4, isVirtual := true }

/-- Constants of the worked examples. -/
def exampleState : RendererState :=
  { numRegularShadowMaps := 2, maxTotalRegularLightsPerFrame := 2,
    maxShadowCastingLightsPerFrame := 1, maxShadowUpdatesPerFrame := 1,
    maxTotalVirtualPointLightsPerFrame := 2 }

/-- The backend of the worked examples as the constructor leaves it: every
pipeline and shadow-map framebuffer is valid, no framebuffer of the viewport has
been created yet. -/
def exampleBackend : RendererBackend :=
  RendererBackend.construct exampleState [] (fun _ => true)

/-- A frame of the worked examples: the regular lights `lightA`, `lightB`,
`lightC` at the distances 1, 2, 3, all casting shadows; 64 x 64 viewport, world
light and global illumination enabled. -/
def exampleFrame : RendererFrame :=
  { lights := [lightC, lightA, lightB], distance := fun l => l.id,
    castsShadows := fun _ => true, lightsToRemove := [], lightsToUpate := [],
    viewportDirty := true, viewportWidth := 64, viewportHeight := 64,
    worldLightEnabled := true, globalIlluminationEnabled := true, cascades := 4,
    cscRegenerateFbo := false, cscFboValid := true }

/-- The backend of the worked examples after a `Begin` with the example frame that
clears the screen: every framebuffer of the viewport has been created and is
complete. -/
def exampleReady : RendererBackend :=
  match RendererBackend.Begin (fun _ => true) exampleBackend exampleFrame true with
  | some r => r.2
  | none => exampleBackend

/-- The backend of the worked examples after a `Begin` with the example frame in
which the second FXAA framebuffer, the last one created, is incomplete. -/
def exampleInvalid : RendererBackend :=
  match RendererBackend.Begin (fun id => decide (id ≠ FboId.fxaa2)) exampleBackend exampleFrame
      true with
  | some r => r.2
  | none => exampleBackend

/-- The passes of a frame in the order in which `RenderScene` runs them, `vpls`
telling whether the vector `perVPLDistToViewer` holds a light: the optional
passes are there when their guard lets them run. -/
def framePasses (frame : RendererFrame) (vpls : Bool) : List RenderPass :=
  [RenderPass.pointLightUpdate] ++
  (if frame.worldLightEnabled then [RenderPass.csmDepth] else []) ++
  [RenderPass.geometry, RenderPass.ssaoOcclude, RenderPass.ssaoBlur] ++
  (if frame.worldLightEnabled then [RenderPass.atmosphericShadowing] else []) ++
  [RenderPass.deferredLighting] ++
  (if frame.worldLightEnabled && frame.globalIlluminationEnabled && vpls then
    [RenderPass.vplCulling, RenderPass.vplGlobalIllumination] else []) ++
  [RenderPass.depthCopy, RenderPass.skybox, RenderPass.flatForward, RenderPass.bloom] ++
  (if frame.worldLightEnabled then [RenderPass.atmosphericPostFx] else []) ++
  [RenderPass.fxaaLuminance, RenderPass.fxaaSmoothing, RenderPass.finalize]

/-! ## The framebuffer (`Source/Engine/StratusFrameBuffer.cpp`) -/

/-- Modelled from the spec: `TextureComponentFormat` is declared outside the
translated sources.  `setAttachments` tells the depth format `DEPTH` and the
depth-stencil format `DEPTH_STENCIL` from every other format, which is a color
format. -/
inductive TextureComponentFormat where
  | RED
  | RGB
  | SRGB
  | RGBA
  | SRGB_ALPHA
  | DEPTH
  | DEPTH_STENCIL
deriving DecidableEq

/-- Modelled from the spec: `Texture` is declared outside the translated
sources.  A value of this type is a texture that has an implementation:
`underlying` is the GL name `*(GLuint *)tex.underlying()`, `format` is what
`format()` returns, and `valid()` is true.  The default-constructed `Texture()`,
for which `valid()` is false, is `none` in an `Option Texture`. -/
structure Texture where
  underlying : Nat
  format : TextureComponentFormat
deriving DecidableEq

/-- Whether the texture has one of the two depth formats. -/
def Texture.isDepthFormat (tex : Texture) : Bool :=
  decide (tex.format = TextureComponentFormat.DEPTH) ||
    decide (tex.format = TextureComponentFormat.DEPTH_STENCIL)

/-- The attachment points of a framebuffer object: `GL_DEPTH_ATTACHMENT`,
`GL_DEPTH_STENCIL_ATTACHMENT` and `GL_COLOR_ATTACHMENT0 + i`. -/
inductive AttachmentPoint where
  | depth
  | depthStencil
  | color (i : Nat)
deriving DecidableEq

/-- The GL calls of `setAttachments` that change the state of the framebuffer
object: `glFramebufferTexture(GL_FRAMEBUFFER, point, texture, 0)`,
`glDrawBuffer(GL_NONE)`, `glReadBuffer(GL_NONE)` and
`glDrawBuffers(n, buffers)` (the buffers as offsets from
`GL_COLOR_ATTACHMENT0`). -/
inductive GLCall where
  | framebufferTexture (point : AttachmentPoint) (texture : Nat)
  | drawBufferNone
  | readBufferNone
  | drawBuffers (buffers : List Nat)
deriving DecidableEq

/-- The `std::runtime_error`s the framebuffer throws, by their place. -/
inductive FrameBufferError where
  | setAttachmentsCalledTwice
  | moreThanOneDepth
  | moreThanOneDepthStencil
  | colorIndexExceeds
  | attachmentNumberExceeds
deriving DecidableEq

/-- How a call ended: it returned (with a value), it threw, or it ran into
undefined behaviour (an index past the end of a `std::vector`). -/
inductive Outcome (α : Type) where
  | returned (a : α)
  | threw (e : FrameBufferError)
  | undefined
deriving DecidableEq

/-- The members of `FrameBufferImpl`, and the GL calls made on `_fbo` so far
(`glCalls`, oldest first).  `_glColorAttachments` holds offsets from
`GL_COLOR_ATTACHMENT0`.  The binding point, which `bind` and `unbind` change, is
left out. -/
structure FrameBufferImpl where
  _colorAttachments : List Texture
  _glColorAttachments : List Nat
  _depthStencilAttachment : Option Texture
  _valid : Bool
  glCalls : List GLCall
deriving DecidableEq

/-- The locals of the loop of `setAttachments`, with the framebuffer. -/
structure AttachState where
  fb : FrameBufferImpl
  numDepthStencilAttachments : Nat
  drawBuffers : List Nat
deriving DecidableEq

namespace FrameBufferImpl

/-- The constructor `FrameBufferImpl()`. -/
def fresh : FrameBufferImpl :=
  { _colorAttachments := [], _glColorAttachments := [], _depthStencilAttachment := none,
    _valid := false, glCalls := [] }

/-- The loop `for (Texture tex : attachments)` of `setAttachments`: the exception
thrown, if one was, and the state when the loop was left. -/
def attachLoop : List Texture → AttachState → Option FrameBufferError × AttachState
  | [], s => (none, s)
  | tex :: rest, s =>
    if tex.format = TextureComponentFormat.DEPTH then
      if s.numDepthStencilAttachments > 0 then (some FrameBufferError.moreThanOneDepth, s)
      else
        attachLoop rest
          { fb := { s.fb with
              glCalls := s.fb.glCalls ++
                [GLCall.framebufferTexture AttachmentPoint.depth tex.underlying]
              _depthStencilAttachment := some tex }
            numDepthStencilAttachments := s.numDepthStencilAttachments + 1
            drawBuffers := s.drawBuffers }
    else if tex.format = TextureComponentFormat.DEPTH_STENCIL then
      if s.numDepthStencilAttachments > 0 then
        (some FrameBufferError.moreThanOneDepthStencil, s)
      else
        attachLoop rest
          { fb := { s.fb with
              glCalls := s.fb.glCalls ++
                [GLCall.framebufferTexture AttachmentPoint.depthStencil tex.underlying]
              _depthStencilAttachment := some tex }
            numDepthStencilAttachments := s.numDepthStencilAttachments + 1
            drawBuffers := s.drawBuffers }
    else
      let color := s.drawBuffers.length
      attachLoop rest
        { fb := { s.fb with
            _glColorAttachments := s.fb._glColorAttachments ++ [color]
            glCalls := s.fb.glCalls ++
              [GLCall.framebufferTexture (AttachmentPoint.color color) tex.underlying]
            _colorAttachments := s.fb._colorAttachments ++ [tex] }
          numDepthStencilAttachments := s.numDepthStencilAttachments
          drawBuffers := s.drawBuffers ++ [color] }

/-- `setAttachments`: the framebuffer after the call, and how the call ended.
`complete` tells whether `glCheckFramebufferStatus(GL_FRAMEBUFFER)` answers
`GL_FRAMEBUFFER_COMPLETE`. -/
def setAttachments (fb : FrameBufferImpl) (attachments : List Texture) (complete : Bool) :
    FrameBufferImpl × Outcome Unit :=
  if fb._colorAttachments.length > 0 ∨ fb._depthStencilAttachment.isSome then
    (fb, Outcome.threw FrameBufferError.setAttachmentsCalledTwice)
  else
    let r := attachLoop attachments
      { fb := { fb with _valid := true }, numDepthStencilAttachments := 0, drawBuffers := [] }
    match r.1 with
    | some e => (r.2.fb, Outcome.threw e)
    | none =>
      let fb1 :=
        if r.2.drawBuffers.length = 0 then
          { r.2.fb with
            glCalls := r.2.fb.glCalls ++ [GLCall.drawBufferNone, GLCall.readBufferNone] }
        else
          { r.2.fb with glCalls := r.2.fb.glCalls ++ [GLCall.drawBuffers r.2.drawBuffers] }
      (if !complete then { fb1 with _valid := false } else fb1, Outcome.returned ())

/-- `valid`. -/
def valid (fb : FrameBufferImpl) : Bool := fb._valid

/-- `getColorAttachments`. -/
def getColorAttachments (fb : FrameBufferImpl) : List Texture := fb._colorAttachments

/-- `getDepthStencilAttachment`. -/
def getDepthStencilAttachment (fb : FrameBufferImpl) : Option Texture :=
  fb._depthStencilAttachment

/-- `ClearColorLayer`: the call returns with the color attachment whose layer it
cleared; `_colorAttachments[colorIndex]` past the end of the vector is undefined
behaviour. -/
def ClearColorLayer (fb : FrameBufferImpl) (colorIndex : Nat) : Outcome Texture :=
  if fb._colorAttachments.length < colorIndex then
    Outcome.threw FrameBufferError.colorIndexExceeds
  else
    match fb._colorAttachments.get? colorIndex with
    | some color => Outcome.returned color
    | none => Outcome.undefined

/-- The value of an `int` converted to `size_t` (64 bits), as in the comparison
`_colorAttachments.size() < attachmentNum` and in the index
`getColorAttachments()[attachmentNum]`. -/
def intToSize (i : Int) : Nat := (i % 2 ^ 64).toNat

/-- `SetColorTextureLayer`: the call returns with the attachment point and the
color attachment it handed to `glNamedFramebufferTextureLayer`;
`getColorAttachments()[attachmentNum]` past the end of the vector is undefined
behaviour. -/
def SetColorTextureLayer (fb : FrameBufferImpl) (attachmentNum : Int) :
    Outcome (AttachmentPoint × Texture) :=
  if fb._colorAttachments.length < intToSize attachmentNum then
    Outcome.threw FrameBufferError.attachmentNumberExceeds
  else
    match fb.getColorAttachments.get? (intToSize attachmentNum) with
    | some color => Outcome.returned (AttachmentPoint.color (intToSize attachmentNum), color)
    | none => Outcome.undefined

end FrameBufferImpl

/-- `FrameBuffer`: a shared pointer to the implementation, null after the default
constructor. -/
structure FrameBuffer where
  _fbo : Option FrameBufferImpl
deriving DecidableEq

namespace FrameBuffer

/-- `FrameBuffer(attachments)`: the framebuffer constructed; when `setAttachments`
throws, so does the constructor, and there is no framebuffer. -/
def construct (attachments : List Texture) (complete : Bool) : Outcome FrameBuffer :=
  match FrameBufferImpl.fresh.setAttachments attachments complete with
  | (fb, Outcome.returned _) => Outcome.returned { _fbo := some fb }
  | (_, Outcome.threw e) => Outcome.threw e
  | (_, Outcome.undefined) => Outcome.undefined

/-- `valid`: `_fbo != nullptr && _fbo->valid()`. -/
def valid (fb : FrameBuffer) : Bool :=
  match fb._fbo with
  | none => false
  | some impl => impl.valid

end FrameBuffer

/-- A color texture of the worked examples. -/
def colorTex : Texture := { underlying := 10, format := TextureComponentFormat.RGBA }

/-- A second color texture of the worked examples. -/
def colorTex2 : Texture := { underlying := 11, format := TextureComponentFormat.RGB }

/-- A depth texture of the worked examples. -/
def depthTex : Texture := { underlying := 20, format := TextureComponentFormat.DEPTH }

/-- A depth-stencil texture of the worked examples. -/
def depthStencilTex : Texture :=
  { underlying := 21, format := TextureComponentFormat.DEPTH_STENCIL }

/-! ## Shader recompilation and the bloom buffers -/

namespace RendererBackend

/-- `RecompileShaders`; `pipelines` holds `p->isValid()` for the pipelines of
`_state.shaders` after `p->recompile()`. -/
def RecompileShaders (b : RendererBackend) (pipelines : List Bool) : RendererBackend :=
  b._ValidateAllShaders pipelines

/-- The bloom loop of `_InitializePostFxBuffers` when every framebuffer is valid:
the width and height of the color texture of each downsample buffer, `fuel`
iterations being left before `numDownsampleIterations` reaches 8. -/
def bloomDownsampleSizes : Nat → Nat → Nat → List (Nat × Nat)
  | 0, _, _ => []
  | fuel + 1, currWidth, currHeight =>
    let currWidth := currWidth / 2
    let currHeight := currHeight / 2
    if currWidth < 8 ∨ currHeight < 8 then []
    else (currWidth, currHeight) :: bloomDownsampleSizes fuel currWidth currHeight

/-- The vector `sizes` of `_InitializePostFxBuffers`, from which the upsample
buffers are created: the sizes of the downsample buffers
`numDownsampleIterations - 2`, ..., `0`, in this order, then the size of the
viewport. -/
def bloomUpsampleSizes (down : List (Nat × Nat)) (viewportWidth viewportHeight : Nat) :
    List (Nat × Nat) :=
  (down.take (down.length - 1)).reverse ++ [(viewportWidth, viewportHeight)]

end RendererBackend

/-- The number of halvings in the words of the specification: how many of the
1, 2, ..., 8 successive integer halvings leave both dimensions at 8 or more. -/
def halvingsLeavingEight (width height : Nat) : Nat :=
  ((List.range 8).filter
    (fun j => decide (8 ≤ width / 2 ^ (j + 1) ∧ 8 ≤ height / 2 ^ (j + 1)))).length

/-- A second virtual point light of the worked examples. -/
def lightW : LightPtr := { id := 5, isVirtual := true }

/-- A third virtual point light of the worked examples. -/
def lightX : LightPtr := { id := 6, isVirtual := true }

/-! ## Containers -/

theorem mapFind_append (m1 m2 : List (LightPtr × TextureHandle)) (l : LightPtr) :
    mapFind (m1 ++ m2) l = (mapFind m1 l).orElse (fun _ => mapFind m2 l) := by
  induction m1 with
  | nil => simp [mapFind]
  | cons e m ih =>
    obtain ⟨k, v⟩ := e
    by_cases hk : k = l
    · simp [mapFind, hk]
    · simp [mapFind, hk, ih]

theorem mapFind_mem (m : List (LightPtr × TextureHandle)) (l : LightPtr) (h : TextureHandle)
    (hl : mapFind m l = some h) : (l, h) ∈ m := by
  induction m with
  | nil => cases hl
  | cons e m ih =>
    obtain ⟨k, v⟩ := e
    by_cases hk : k = l
    · subst hk
      simp only [mapFind, if_true, Option.some.injEq] at hl
      subst hl
      exact List.mem_cons_self _ _
    · simp only [mapFind, hk, if_false] at hl
      exact List.mem_cons_of_mem _ (ih hl)

theorem mem_mapInsert (m : List (LightPtr × TextureHandle)) (l : LightPtr) (h : TextureHandle)
    (e : LightPtr × TextureHandle) (he : e ∈ mapInsert m l h) : e ∈ m ∨ e = (l, h) := by
  unfold mapInsert at he
  cases hl : mapFind m l with
  | some v => rw [hl] at he; exact Or.inl he
  | none =>
    rw [hl] at he
    rcases List.mem_append.mp he with h1 | h1
    · exact Or.inl h1
    · exact Or.inr (List.mem_singleton.mp h1)

theorem mapFind_mapInsert_self (m : List (LightPtr × TextureHandle)) (l : LightPtr)
    (h : TextureHandle) (hl : mapFind m l = none) :
    mapFind (mapInsert m l h) l = some h := by
  simp [mapInsert, hl, mapFind_append, mapFind]

theorem mapFind_mapInsert_of_ne (m : List (LightPtr × TextureHandle)) (l k : LightPtr)
    (h : TextureHandle) (hk : l ≠ k) :
    mapFind (mapInsert m l h) k = mapFind m k := by
  unfold mapInsert
  cases hl : mapFind m l with
  | some v => rfl
  | none =>
    simp only [mapFind_append, mapFind, hk, if_false]
    cases mapFind m k <;> rfl

theorem mapFind_mapErase_self (m : List (LightPtr × TextureHandle)) (l : LightPtr) :
    mapFind (mapErase m l) l = none := by
  induction m with
  | nil => rfl
  | cons e m ih =>
    obtain ⟨k, v⟩ := e
    by_cases hk : k = l
    · simpa [mapErase, List.filter, hk] using ih
    · simpa [mapErase, List.filter, hk, mapFind] using ih

theorem mapFind_mapErase_of_ne (m : List (LightPtr × TextureHandle)) (l k : LightPtr)
    (hk : l ≠ k) : mapFind (mapErase m l) k = mapFind m k := by
  induction m with
  | nil => rfl
  | cons e m ih =>
    obtain ⟨k1, v⟩ := e
    by_cases h1 : k1 = l
    · subst h1
      simpa [mapErase, List.filter, mapFind, hk] using ih
    · by_cases h2 : k1 = k
      · subst h2
        simp [mapErase, List.filter, h1, mapFind]
      · simpa [mapErase, List.filter, h1, mapFind, h2] using ih

theorem mem_setInsert (s : List TextureHandle) (h x : TextureHandle) :
    x ∈ setInsert s h ↔ x = h ∨ x ∈ s := by
  unfold setInsert
  by_cases hs : h ∈ s
  · simp only [hs, if_true]
    constructor
    · exact fun hx => Or.inr hx
    · rintro (rfl | hx)
      · exact hs
      · exact hx
  · simp [hs, or_comm]

theorem nodup_setInsert (s : List TextureHandle) (h : TextureHandle) (hs : s.Nodup) :
    (setInsert s h).Nodup := by
  unfold setInsert
  by_cases hm : h ∈ s
  · simpa [hm] using hs
  · simp only [hm, if_false]
    exact List.nodup_append.mpr ⟨hs, List.nodup_singleton h, by
      intro a ha hb
      rw [List.mem_singleton] at hb
      exact hm (hb ▸ ha)⟩

theorem mem_setErase (s : List TextureHandle) (h x : TextureHandle) :
    x ∈ setErase s h ↔ x ∈ s ∧ x ≠ h := by
  simp [setErase]

theorem nodup_setErase (s : List TextureHandle) (h : TextureHandle) (hs : s.Nodup) :
    (setErase s h).Nodup :=
  hs.filter _

theorem scanFreeHandle_free (cache : ShadowMapCache)
    (hn : scanFreeHandle cache ≠ TextureHandle.Null) :
    scanFreeHandle cache ∈ cache.shadowMap3DHandles ∧
      scanFreeHandle cache ∉ cache.usedShadowMaps := by
  unfold scanFreeHandle at hn ⊢
  cases hf : cache.shadowMap3DHandles.find? (fun h => decide (h ∉ cache.usedShadowMaps)) with
  | none =>
    rw [hf] at hn
    exact absurd rfl hn
  | some h =>
    have h1 := List.mem_of_find?_eq_some hf
    have h2 := List.find?_some hf
    simp only [decide_eq_true_eq] at h2
    exact ⟨h1, h2⟩

theorem scanFreeHandle_null (cache : ShadowMapCache)
    (h0 : TextureHandle.Null ∉ cache.shadowMap3DHandles)
    (hn : scanFreeHandle cache = TextureHandle.Null) :
    ∀ h ∈ cache.shadowMap3DHandles, h ∈ cache.usedShadowMaps := by
  unfold scanFreeHandle at hn
  cases hf : cache.shadowMap3DHandles.find? (fun h => decide (h ∉ cache.usedShadowMaps)) with
  | none =>
    intro h hh
    have := List.find?_eq_none.mp hf h hh
    simpa using this
  | some h =>
    rw [hf] at hn
    simp only at hn
    exact absurd (hn ▸ List.mem_of_find?_eq_some hf) h0

theorem scanFreeHandle_of_free (cache : ShadowMapCache)
    (h0 : TextureHandle.Null ∉ cache.shadowMap3DHandles)
    (hfree : ∃ h ∈ cache.shadowMap3DHandles, h ∉ cache.usedShadowMaps) :
    scanFreeHandle cache ≠ TextureHandle.Null := by
  intro hn
  obtain ⟨h, hp, hu⟩ := hfree
  exact hu (scanFreeHandle_null cache h0 hn h hp)

theorem mapFind_mapInsert_of_some (m : List (LightPtr × TextureHandle)) (l k : LightPtr)
    (h v : TextureHandle) (hk : mapFind m k = some v) :
    mapFind (mapInsert m l h) k = some v := by
  by_cases hlk : l = k
  · subst hlk
    simp [mapInsert, hk]
  · rw [mapFind_mapInsert_of_ne m l k h hlk, hk]

/-! ## The three branches of `_GetOrAllocateShadowMapHandleForLight` -/

theorem getOrAllocate_hit (cache : ShadowMapCache) (light : LightPtr) (h : TextureHandle)
    (hp : cache.shadowMap3DHandles ≠ [])
    (hl : mapFind cache.lightsToShadowMap light = some h) :
    _GetOrAllocateShadowMapHandleForLight cache light =
      some (h, { cache with lruLightCache := cache.lruLightCache.erase light ++ [light] }) := by
  have hlen : ¬ cache.shadowMap3DHandles.length = 0 := by
    simpa [List.length_eq_zero] using hp
  simp only [_GetOrAllocateShadowMapHandleForLight, hlen, if_false, hl]
  rfl

theorem getOrAllocate_free (cache : ShadowMapCache) (light : LightPtr)
    (hp : cache.shadowMap3DHandles ≠ [])
    (hl : mapFind cache.lightsToShadowMap light = none)
    (hs : scanFreeHandle cache ≠ TextureHandle.Null) :
    _GetOrAllocateShadowMapHandleForLight cache light =
      some (scanFreeHandle cache,
        assigned cache cache.lruLightCache light (scanFreeHandle cache)) := by
  have hlen : ¬ cache.shadowMap3DHandles.length = 0 := by
    simpa [List.length_eq_zero] using hp
  simp only [_GetOrAllocateShadowMapHandleForLight, hlen, if_false, hl, hs]
  rfl

theorem getOrAllocate_evict (cache : ShadowMapCache) (light oldest : LightPtr)
    (rest : List LightPtr) (h1 : TextureHandle)
    (hp : cache.shadowMap3DHandles ≠ [])
    (hl : mapFind cache.lightsToShadowMap light = none)
    (hs : scanFreeHandle cache = TextureHandle.Null)
    (hlru : cache.lruLightCache = oldest :: rest)
    (ho : mapFind cache.lightsToShadowMap oldest = some h1) :
    _GetOrAllocateShadowMapHandleForLight cache light =
      some (h1, assigned cache (rest.erase oldest) light h1) := by
  have hlen : ¬ cache.shadowMap3DHandles.length = 0 := by
    simpa [List.length_eq_zero] using hp
  simp only [_GetOrAllocateShadowMapHandleForLight, hlen, if_false, hl, hs, if_true, hlru, ho]
  rfl

theorem removeLight_absent (cache : ShadowMapCache) (light : LightPtr)
    (hl : mapFind cache.lightsToShadowMap light = none) :
    _RemoveLightFromShadowMapCache cache light = cache := by
  simp only [_RemoveLightFromShadowMapCache, hl]

theorem removeLight_present (cache : ShadowMapCache) (light : LightPtr) (h : TextureHandle)
    (hl : mapFind cache.lightsToShadowMap light = some h) :
    _RemoveLightFromShadowMapCache cache light =
      { shadowMap3DHandles := cache.shadowMap3DHandles
        lightsToShadowMap := mapErase cache.lightsToShadowMap light
        usedShadowMaps := setErase cache.usedShadowMaps h
        lruLightCache := cache.lruLightCache.erase light } := by
  simp only [_RemoveLightFromShadowMapCache, hl]
  rfl

/-! ## Invariant of the reachable states -/

theorem CacheInv.empty (pool : List TextureHandle) (hpool : PoolOk pool) :
    CacheInv pool (ShadowMapCache.empty pool) where
  handles_eq := rfl
  lru_nodup := List.nodup_nil
  lru_cached := by intro l hl; cases hl
  used_sub := by intro h hh; cases hh
  used_nodup := List.nodup_nil
  vals_sub := by intro e he; cases he
  full_lru := by
    intro hall
    obtain ⟨h, hh⟩ := List.exists_mem_of_ne_nil pool hpool.1
    cases hall h hh

theorem CacheInv.assigned {pool : List TextureHandle} {cache : ShadowMapCache}
    (hinv : CacheInv pool cache) (lru : List LightPtr) (light : LightPtr) (h : TextureHandle)
    (hl : mapFind cache.lightsToShadowMap light = none) (hh : h ∈ pool)
    (hnd : lru.Nodup) (hsub : ∀ l ∈ lru, l ∈ cache.lruLightCache) :
    CacheInv pool (Stratus.assigned cache lru light h) where
  handles_eq := hinv.handles_eq
  lru_nodup := by
    refine List.nodup_append.mpr ⟨hnd.erase light, List.nodup_singleton light, ?_⟩
    intro a ha hb
    rw [List.mem_singleton] at hb
    subst hb
    exact ((hnd.mem_erase_iff).mp ha).1 rfl
  lru_cached := by
    intro l hmem
    rcases List.mem_append.mp hmem with h1 | h1
    · have h2 := hinv.lru_cached l (hsub l (List.mem_of_mem_erase h1))
      obtain ⟨v, hv⟩ := Option.ne_none_iff_exists'.mp h2
      show mapFind (mapInsert cache.lightsToShadowMap light h) l ≠ none
      rw [mapFind_mapInsert_of_some _ _ _ _ _ hv]
      exact Option.some_ne_none v
    · rw [List.mem_singleton] at h1
      subst h1
      show mapFind (mapInsert cache.lightsToShadowMap l h) l ≠ none
      rw [mapFind_mapInsert_self _ _ _ hl]
      exact Option.some_ne_none h
  used_sub := by
    intro x hx
    rcases (mem_setInsert _ _ _).mp hx with rfl | h1
    · exact hh
    · exact hinv.used_sub x h1
  used_nodup := nodup_setInsert _ _ hinv.used_nodup
  vals_sub := by
    intro e he
    rcases mem_mapInsert _ _ _ _ he with h1 | h1
    · exact hinv.vals_sub e h1
    · rw [h1]; exact hh
  full_lru := by
    intro _ hnil
    have : (lru.erase light ++ [light]).length = 0 := by
      rw [show lru.erase light ++ [light] = [] from hnil]; rfl
    simp at this

theorem CacheInv.hit {pool : List TextureHandle} {cache : ShadowMapCache}
    (hinv : CacheInv pool cache) (light : LightPtr) (h : TextureHandle)
    (hl : mapFind cache.lightsToShadowMap light = some h) :
    CacheInv pool
      { cache with lruLightCache := cache.lruLightCache.erase light ++ [light] } where
  handles_eq := hinv.handles_eq
  lru_nodup := by
    refine List.nodup_append.mpr ⟨hinv.lru_nodup.erase light, List.nodup_singleton light, ?_⟩
    intro a ha hb
    rw [List.mem_singleton] at hb
    subst hb
    exact ((hinv.lru_nodup.mem_erase_iff).mp ha).1 rfl
  lru_cached := by
    intro l hmem
    rcases List.mem_append.mp hmem with h1 | h1
    · exact hinv.lru_cached l (List.mem_of_mem_erase h1)
    · rw [List.mem_singleton] at h1
      subst h1
      show mapFind cache.lightsToShadowMap l ≠ none
      rw [hl]
      exact Option.some_ne_none h
  used_sub := hinv.used_sub
  used_nodup := hinv.used_nodup
  vals_sub := hinv.vals_sub
  full_lru := by
    intro _ hnil
    have : (cache.lruLightCache.erase light ++ [light]).length = 0 := by
      rw [show cache.lruLightCache.erase light ++ [light] = [] from hnil]; rfl
    simp at this

theorem CacheInv.removed {pool : List TextureHandle} {cache : ShadowMapCache}
    (hinv : CacheInv pool cache) (light : LightPtr) :
    CacheInv pool (_RemoveLightFromShadowMapCache cache light) := by
  cases hl : mapFind cache.lightsToShadowMap light with
  | none => rw [removeLight_absent cache light hl]; exact hinv
  | some h =>
    rw [removeLight_present cache light h hl]
    refine ⟨hinv.handles_eq, hinv.lru_nodup.erase light, ?_, ?_,
      nodup_setErase _ _ hinv.used_nodup, ?_, ?_⟩
    · intro l hmem
      have h1 := (hinv.lru_nodup.mem_erase_iff).mp hmem
      show mapFind (mapErase cache.lightsToShadowMap light) l ≠ none
      rw [mapFind_mapErase_of_ne _ _ _ (Ne.symm h1.1)]
      exact hinv.lru_cached l h1.2
    · intro x hx
      exact hinv.used_sub x ((mem_setErase _ _ _).mp hx).1
    · intro e he
      exact hinv.vals_sub e (List.mem_of_mem_filter he)
    · intro hall
      have h1 := hall h (hinv.vals_sub _ (mapFind_mem _ _ _ hl))
      exact absurd rfl ((mem_setErase _ _ _).mp h1).2

/-- On a state that satisfies the invariant the call returns: the eviction
branch finds a light at the front of the LRU list, and that light has an entry. -/
theorem getOrAllocate_cases {pool : List TextureHandle} {cache : ShadowMapCache}
    (hpool : PoolOk pool) (hinv : CacheInv pool cache) (light : LightPtr) :
    (∃ h, mapFind cache.lightsToShadowMap light = some h ∧
        _GetOrAllocateShadowMapHandleForLight cache light =
          some (h, { cache with lruLightCache := cache.lruLightCache.erase light ++ [light] })) ∨
    (mapFind cache.lightsToShadowMap light = none ∧
        scanFreeHandle cache ≠ TextureHandle.Null ∧
        _GetOrAllocateShadowMapHandleForLight cache light =
          some (scanFreeHandle cache,
            assigned cache cache.lruLightCache light (scanFreeHandle cache))) ∨
    (mapFind cache.lightsToShadowMap light = none ∧
        scanFreeHandle cache = TextureHandle.Null ∧
        ∃ oldest rest h1, cache.lruLightCache = oldest :: rest ∧
          mapFind cache.lightsToShadowMap oldest = some h1 ∧
          _GetOrAllocateShadowMapHandleForLight cache light =
            some (h1, assigned cache (rest.erase oldest) light h1)) := by
  have hp : cache.shadowMap3DHandles ≠ [] := by rw [hinv.handles_eq]; exact hpool.1
  have h0 : TextureHandle.Null ∉ cache.shadowMap3DHandles := by
    rw [hinv.handles_eq]; exact hpool.2.2
  cases hl : mapFind cache.lightsToShadowMap light with
  | some h => exact Or.inl ⟨h, rfl, getOrAllocate_hit cache light h hp hl⟩
  | none =>
    by_cases hs : scanFreeHandle cache = TextureHandle.Null
    · refine Or.inr (Or.inr ⟨rfl, hs, ?_⟩)
      have hall := scanFreeHandle_null cache h0 hs
      rw [hinv.handles_eq] at hall
      have hne := hinv.full_lru hall
      cases hlru : cache.lruLightCache with
      | nil => exact absurd hlru hne
      | cons oldest rest =>
        have hc := hinv.lru_cached oldest (by rw [hlru]; exact List.mem_cons_self _ _)
        obtain ⟨h1, hh1⟩ := Option.ne_none_iff_exists'.mp hc
        exact ⟨oldest, rest, h1, rfl, hh1,
          getOrAllocate_evict cache light oldest rest h1 hp hl hs hlru hh1⟩
    · exact Or.inr (Or.inl ⟨rfl, hs, getOrAllocate_free cache light hp hl hs⟩)

theorem getOrAllocate_total {pool : List TextureHandle} {cache : ShadowMapCache}
    (hpool : PoolOk pool) (hinv : CacheInv pool cache) (light : LightPtr) :
    ∃ h cache1, _GetOrAllocateShadowMapHandleForLight cache light = some (h, cache1) := by
  rcases getOrAllocate_cases hpool hinv light with ⟨h, _, hg⟩ | ⟨_, _, hg⟩ |
    ⟨_, _, _, _, h1, _, _, hg⟩
  · exact ⟨_, _, hg⟩
  · exact ⟨_, _, hg⟩
  · exact ⟨_, _, hg⟩

theorem CacheInv.getOrAllocate {pool : List TextureHandle} {cache cache1 : ShadowMapCache}
    (hpool : PoolOk pool) (hinv : CacheInv pool cache) (light : LightPtr) (h : TextureHandle)
    (hg : _GetOrAllocateShadowMapHandleForLight cache light = some (h, cache1)) :
    CacheInv pool cache1 := by
  rcases getOrAllocate_cases hpool hinv light with ⟨h2, hl, hg2⟩ | ⟨hl, hs, hg2⟩ |
    ⟨hl, hs, oldest, rest, h1, hlru, ho, hg2⟩
  · rw [hg2] at hg
    cases hg
    exact hinv.hit light h hl
  · rw [hg2] at hg
    cases hg
    have hf := (scanFreeHandle_free cache hs).1
    rw [hinv.handles_eq] at hf
    exact hinv.assigned _ light _ hl hf hinv.lru_nodup (fun _ hx => hx)
  · rw [hg2] at hg
    cases hg
    have hnd : (oldest :: rest).Nodup := hlru ▸ hinv.lru_nodup
    refine hinv.assigned _ light _ hl (hinv.vals_sub _ (mapFind_mem _ _ _ ho))
      ((List.nodup_cons.mp hnd).2.erase oldest) ?_
    intro l hmem
    rw [hlru]
    exact List.mem_cons_of_mem _ (List.mem_of_mem_erase hmem)

theorem Reachable.inv {pool : List TextureHandle} {cache : ShadowMapCache}
    (hpool : PoolOk pool) (hr : Reachable pool cache) : CacheInv pool cache := by
  induction hr with
  | init => exact CacheInv.empty pool hpool
  | getOrAllocate _ hg ih => exact ih.getOrAllocate hpool _ _ hg
  | remove light _ ih => exact ih.removed light

/-! ## Filling an empty pool -/

theorem mapFind_zip_of_not_mem (ks : List LightPtr) (vs : List TextureHandle) (l : LightPtr)
    (hl : l ∉ ks) : mapFind (ks.zip vs) l = none := by
  induction ks generalizing vs with
  | nil => rfl
  | cons k ks ih =>
    cases vs with
    | nil => rfl
    | cons v vs =>
      have hk : k ≠ l := fun h => hl (h ▸ List.mem_cons_self _ _)
      simp only [List.zip_cons_cons, mapFind, hk, if_false]
      exact ih vs (fun h => hl (List.mem_cons_of_mem _ h))

theorem scanFreeHandle_first_free (pdone pfree : List TextureHandle) (p : TextureHandle)
    (m : List (LightPtr × TextureHandle)) (lru : List LightPtr)
    (hnd : (pdone ++ p :: pfree).Nodup) :
    scanFreeHandle { shadowMap3DHandles := pdone ++ p :: pfree, lightsToShadowMap := m,
                     usedShadowMaps := pdone, lruLightCache := lru } = p := by
  have hp : p ∉ pdone := by
    intro hmem
    exact (List.nodup_append.mp hnd).2.2 hmem (List.mem_cons_self _ _)
  have h1 : List.find? (fun h => decide (h ∉ pdone)) pdone = none := by
    rw [List.find?_eq_none]
    intro x hx
    simpa using hx
  simp only [scanFreeHandle, List.find?_append, h1, Option.none_or]
  rw [List.find?_cons_of_pos _ (by simpa using hp)]

theorem scanFreeHandle_full (pool : List TextureHandle)
    (m : List (LightPtr × TextureHandle)) (lru : List LightPtr) :
    scanFreeHandle { shadowMap3DHandles := pool, lightsToShadowMap := m,
                     usedShadowMaps := pool, lruLightCache := lru } = TextureHandle.Null := by
  have h1 : List.find? (fun h => decide (h ∉ pool)) pool = none := by
    rw [List.find?_eq_none]
    intro x hx
    simpa using hx
  simp only [scanFreeHandle, h1]

/-- Requests for distinct lights that are not cached yet, while the pool has
free handles: the lights get the free handles in the order of the scan. -/
theorem requestAll_fill (lights : List LightPtr) :
    ∀ (done : List LightPtr) (pdone pfree : List TextureHandle),
      (pdone ++ pfree).Nodup → TextureHandle.Null ∉ pdone ++ pfree →
      (done ++ lights).Nodup → done.length = pdone.length →
      lights.length ≤ pfree.length →
      requestAll { shadowMap3DHandles := pdone ++ pfree, lightsToShadowMap := done.zip pdone,
                   usedShadowMaps := pdone, lruLightCache := done } lights =
        some (pfree.take lights.length,
          { shadowMap3DHandles := pdone ++ pfree
            lightsToShadowMap := (done ++ lights).zip (pdone ++ pfree.take lights.length)
            usedShadowMaps := pdone ++ pfree.take lights.length
            lruLightCache := done ++ lights }) := by
  induction lights with
  | nil =>
    intro done pdone pfree _ _ _ _ _
    simp [requestAll]
  | cons l ls ih =>
    intro done pdone pfree hnd h0 hl hlen hle
    cases pfree with
    | nil => simp at hle
    | cons p pf =>
      have hld : l ∉ done := by
        intro hmem
        exact (List.nodup_append.mp hl).2.2 hmem (List.mem_cons_self _ _)
      have hpd : p ∉ pdone := by
        intro hmem
        exact (List.nodup_append.mp hnd).2.2 hmem (List.mem_cons_self _ _)
      have hscan := scanFreeHandle_first_free pdone pf p (done.zip pdone) done hnd
      have hpn : p ≠ TextureHandle.Null := by
        intro h
        exact h0 (h ▸ List.mem_append_right _ (List.mem_cons_self _ _))
      have hfind : mapFind (done.zip pdone) l = none := mapFind_zip_of_not_mem _ _ _ hld
      have hg := getOrAllocate_free
        { shadowMap3DHandles := pdone ++ p :: pf, lightsToShadowMap := done.zip pdone,
          usedShadowMaps := pdone, lruLightCache := done } l (by simp) hfind
        (by rw [hscan]; exact hpn)
      rw [hscan] at hg
      have hst : assigned
          { shadowMap3DHandles := pdone ++ p :: pf, lightsToShadowMap := done.zip pdone,
            usedShadowMaps := pdone, lruLightCache := done } done l p =
          { shadowMap3DHandles := (pdone ++ [p]) ++ pf
            lightsToShadowMap := (done ++ [l]).zip (pdone ++ [p])
            usedShadowMaps := pdone ++ [p]
            lruLightCache := done ++ [l] } := by
        simp only [assigned, mapInsert, hfind, setInsert, hpd, if_false,
          List.erase_of_not_mem hld, List.zip_append hlen, List.zip_cons_cons, List.zip_nil_right,
          List.append_assoc, List.singleton_append]
      have hih := ih (done ++ [l]) (pdone ++ [p]) pf
        (by simpa [List.append_assoc] using hnd)
        (by simpa [List.append_assoc] using h0)
        (by simpa [List.append_assoc] using hl)
        (by simp [hlen])
        (by simpa using hle)
      simp only [List.append_assoc, List.singleton_append] at hih hst
      simp only [requestAll, hg, hst, hih, List.length_cons, List.take_succ_cons]

/-- The state after the lights `lights` have been requested from the empty cache
of a pool with as many handles as there are lights. -/
theorem requestAll_fill_empty (pool : List TextureHandle) (lights : List LightPtr)
    (hpool : PoolOk pool) (hnd : lights.Nodup) (hlen : lights.length = pool.length) :
    requestAll (ShadowMapCache.empty pool) lights =
      some (pool, { shadowMap3DHandles := pool, lightsToShadowMap := lights.zip pool,
                    usedShadowMaps := pool, lruLightCache := lights }) := by
  have h := requestAll_fill lights [] [] pool (by simpa using hpool.2.1)
    (by simpa using hpool.2.2) (by simpa using hnd) rfl (le_of_eq hlen)
  simpa [ShadowMapCache.empty, hlen] using h

/-! ## Eviction (C1, C2) -/

/-- C1, at the pool of the single handle `7`: after `GetOrAllocate(lightA)` every
pool handle is used, `lightA` is at the front of the LRU list and `lightB` has no
entry.  `GetOrAllocate(lightB)` then takes `lightA` out of the LRU list, returns
the handle `lightA` held and puts `lightB` at the back of the LRU list, but
`lightA` keeps its entry in `lightsToShadowMap`: `_ShadowMapExistsForLight` is
still true for the evicted light. -/
theorem C1_evicted_light_keeps_its_entry :
    ∃ cache1 cache2,
      _GetOrAllocateShadowMapHandleForLight (ShadowMapCache.empty [7]) lightA
        = some (7, cache1) ∧
      (∀ h ∈ cache1.shadowMap3DHandles, h ∈ cache1.usedShadowMaps) ∧
      cache1.lruLightCache = [lightA] ∧
      mapFind cache1.lightsToShadowMap lightA = some 7 ∧
      mapFind cache1.lightsToShadowMap lightB = none ∧
      _GetOrAllocateShadowMapHandleForLight cache1 lightB = some (7, cache2) ∧
      lightA ∉ cache2.lruLightCache ∧
      mapFind cache2.lightsToShadowMap lightB = some 7 ∧
      cache2.lruLightCache = [lightB] ∧
      _ShadowMapExistsForLight cache2 lightA = true :=
  ⟨_, _, rfl, by decide, rfl, rfl, rfl, rfl, by decide, rfl, rfl, rfl⟩

/-- C2, at the pool of the single handle `7`: the state after
`GetOrAllocate(lightA)`, `GetOrAllocate(lightB)` is reachable, and in it
`lightA` has an entry in `lightsToShadowMap` without being in the LRU list (two
entries, one LRU element), and `lightA` and `lightB` are assigned the same
shadow map. -/
theorem C2_invariant_broken_after_eviction :
    ∃ cache, Reachable [7] cache ∧
      runOps (ShadowMapCache.empty [7])
        [CacheOp.getOrAllocate lightA, CacheOp.getOrAllocate lightB] = some cache ∧
      mapFind cache.lightsToShadowMap lightA = some 7 ∧
      lightA ∉ cache.lruLightCache ∧
      cache.lightsToShadowMap.length = 2 ∧ cache.lruLightCache.length = 1 ∧
      mapFind cache.lightsToShadowMap lightB = some 7 ∧
      lightA ≠ lightB ∧
      cache.usedShadowMaps = [7] :=
  ⟨_, @Reachable.getOrAllocate [7] _ _ lightB 7
        (@Reachable.getOrAllocate [7] _ _ lightA 7 Reachable.init rfl) rfl,
    rfl, rfl, by decide, rfl, rfl, rfl, by decide, rfl⟩

/-! ## Eviction order (C3, C4) -/

/-- The order in which the eviction branch picks its victims.  `pool` holds
`C >= 1` handles and `L1 :: rest`, `Lnew` are `C + 1` pairwise distinct lights.  After `GetOrAllocate` for `L1 :: rest` in
that order from the empty cache (the handles returned are `h1 :: hs`, the
handles of the pool) no pool handle is free and the LRU list is `L1 :: rest`.
`GetOrAllocate(Lnew)` then picks `L1` as the victim: it returns `h1`, the
handle that was assigned to `L1`, and the LRU list becomes `rest ++ [Lnew]`.
If instead (`rest = L2 :: rest2`, that is `C >= 2`) `GetOrAllocate(L1)` is
called first, it returns `h1` again, and `GetOrAllocate(Lnew)` then picks `L2`:
it returns `h2`, the handle that was assigned to `L2`, and the LRU list becomes
`rest2 ++ [L1, Lnew]`. -/
theorem lru_victim_order (pool : List TextureHandle) (L1 : LightPtr) (rest : List LightPtr)
    (Lnew : LightPtr) (hpool : PoolOk pool) (hnd : (L1 :: rest ++ [Lnew]).Nodup)
    (hlen : (L1 :: rest).length = pool.length) :
    ∃ h1 hs cache,
      requestAll (ShadowMapCache.empty pool) (L1 :: rest) = some (h1 :: hs, cache) ∧
      h1 :: hs = pool ∧
      scanFreeHandle cache = TextureHandle.Null ∧
      cache.lruLightCache = L1 :: rest ∧
      (∃ cache1, _GetOrAllocateShadowMapHandleForLight cache Lnew = some (h1, cache1) ∧
        L1 ∉ cache1.lruLightCache ∧ cache1.lruLightCache = rest ++ [Lnew]) ∧
      (∀ L2 rest2, rest = L2 :: rest2 →
        ∃ h2 hs2 cacheA cacheB, hs = h2 :: hs2 ∧
          _GetOrAllocateShadowMapHandleForLight cache L1 = some (h1, cacheA) ∧
          cacheA.lruLightCache = L2 :: rest2 ++ [L1] ∧
          _GetOrAllocateShadowMapHandleForLight cacheA Lnew = some (h2, cacheB) ∧
          L2 ∉ cacheB.lruLightCache ∧ cacheB.lruLightCache = rest2 ++ [L1, Lnew]) := by
  have hnd1 : (L1 :: rest).Nodup := by
    have := (List.nodup_append.mp hnd).1
    simpa using this
  have hnew : Lnew ∉ L1 :: rest := by
    intro hmem
    exact (List.nodup_append.mp hnd).2.2 hmem (List.mem_singleton_self _)
  have hL1 : L1 ∉ rest := (List.nodup_cons.mp hnd1).1
  have hnewrest : Lnew ∉ rest := fun h => hnew (List.mem_cons_of_mem _ h)
  have hfill := requestAll_fill_empty pool (L1 :: rest) hpool hnd1 hlen
  cases pool with
  | nil => simp at hlen
  | cons h1 hs =>
    refine ⟨h1, hs, _, hfill, rfl, scanFreeHandle_full _ _ _, rfl, ?_, ?_⟩
    · have hg := getOrAllocate_evict
        { shadowMap3DHandles := h1 :: hs, lightsToShadowMap := (L1 :: rest).zip (h1 :: hs),
          usedShadowMaps := h1 :: hs, lruLightCache := L1 :: rest } Lnew L1 rest h1
        (by simp) (mapFind_zip_of_not_mem _ _ _ hnew) (scanFreeHandle_full _ _ _) rfl
        (by simp [mapFind])
      refine ⟨_, hg, ?_, ?_⟩
      · simp only [assigned, List.erase_of_not_mem hL1, List.erase_of_not_mem hnewrest]
        intro hmem
        rcases List.mem_append.mp hmem with h | h
        · exact hL1 h
        · exact hnew (by rw [List.mem_singleton.mp h]; exact List.mem_cons_self _ _)
      · simp only [assigned, List.erase_of_not_mem hL1, List.erase_of_not_mem hnewrest]
    · intro L2 rest2 hrest
      subst hrest
      cases hs with
      | nil => simp at hlen
      | cons h2 hs2 =>
        have h12 : L1 ≠ L2 := fun h => hL1 (h ▸ List.mem_cons_self _ _)
        have hL2 : L2 ∉ rest2 := (List.nodup_cons.mp (List.nodup_cons.mp hnd1).2).1
        have hL2' : L2 ∉ rest2 ++ [L1] := by
          intro hmem
          rcases List.mem_append.mp hmem with h | h
          · exact hL2 h
          · exact h12 (List.mem_singleton.mp h).symm
        have hnew' : Lnew ∉ rest2 ++ [L1] := by
          intro hmem
          rcases List.mem_append.mp hmem with h | h
          · exact hnewrest (List.mem_cons_of_mem _ h)
          · exact hnew (by rw [List.mem_singleton.mp h]; exact List.mem_cons_self _ _)
        have hgA := getOrAllocate_hit
          { shadowMap3DHandles := h1 :: h2 :: hs2
            lightsToShadowMap := (L1 :: L2 :: rest2).zip (h1 :: h2 :: hs2)
            usedShadowMaps := h1 :: h2 :: hs2, lruLightCache := L1 :: L2 :: rest2 } L1 h1
          (by simp) (by simp [mapFind])
        simp only [List.erase_cons_head] at hgA
        have hgB := getOrAllocate_evict
          { shadowMap3DHandles := h1 :: h2 :: hs2
            lightsToShadowMap := (L1 :: L2 :: rest2).zip (h1 :: h2 :: hs2)
            usedShadowMaps := h1 :: h2 :: hs2, lruLightCache := L2 :: rest2 ++ [L1] } Lnew L2
          (rest2 ++ [L1]) h2
          (by simp) (mapFind_zip_of_not_mem _ _ _ hnew) (scanFreeHandle_full _ _ _) rfl
          (by simp [mapFind, h12])
        refine ⟨h2, hs2, _, _, rfl, hgA, rfl, hgB, ?_, ?_⟩
        · simp only [assigned, List.erase_of_not_mem hL2', List.erase_of_not_mem hnew']
          intro hmem
          rcases List.mem_append.mp hmem with h | h
          · exact hL2' h
          · exact hnew (by
              rw [List.mem_singleton.mp h]
              exact List.mem_cons_of_mem _ (List.mem_cons_self _ _))
        · simp only [assigned, List.erase_of_not_mem hL2', List.erase_of_not_mem hnew',
            List.append_assoc, List.singleton_append]

/-- The order of the victims at the pool `[5, 6]` with the lights `lightA`,
`lightB` and the new light `lightC`. -/
theorem lru_victim_order_example :
    PoolOk [5, 6] ∧ (lightA :: [lightB] ++ [lightC]).Nodup ∧
    ∃ h1 hs cache,
      requestAll (ShadowMapCache.empty [5, 6]) (lightA :: [lightB]) = some (h1 :: hs, cache) ∧
      h1 :: hs = [5, 6] ∧
      scanFreeHandle cache = TextureHandle.Null ∧
      cache.lruLightCache = lightA :: [lightB] ∧
      (∃ cache1, _GetOrAllocateShadowMapHandleForLight cache lightC = some (h1, cache1) ∧
        lightA ∉ cache1.lruLightCache ∧ cache1.lruLightCache = [lightB] ++ [lightC]) ∧
      (∀ L2 rest2, [lightB] = L2 :: rest2 →
        ∃ h2 hs2 cacheA cacheB, hs = h2 :: hs2 ∧
          _GetOrAllocateShadowMapHandleForLight cache lightA = some (h1, cacheA) ∧
          cacheA.lruLightCache = L2 :: rest2 ++ [lightA] ∧
          _GetOrAllocateShadowMapHandleForLight cacheA lightC = some (h2, cacheB) ∧
          L2 ∉ cacheB.lruLightCache ∧ cacheB.lruLightCache = rest2 ++ [lightA, lightC]) :=
  ⟨by decide, by decide,
    lru_victim_order [5, 6] lightA [lightB] lightC (by decide) (by decide) rfl⟩

/-- C3, at the pool `[5, 6]` (capacity 2) with the lights `lightA`, `lightB`,
`lightC`: the requests for `lightA`, `lightB` return 5 and 6 and fill the pool.
The request for `lightC` then returns 5, the handle that was assigned to
`lightA`, and takes `lightA` out of the LRU list, but it does not evict
`lightA`: `lightA` keeps its entry `lightA → 5` in `lightsToShadowMap`,
`_ShadowMapExistsForLight` is still true for it, and 5 is now assigned to both
`lightA` and `lightC`.  When `lightA` is requested once more before `lightC`,
the request for `lightC` returns 6, the handle that was assigned to `lightB`,
and in the same way `lightB` keeps its entry `lightB → 6`. -/
theorem C3_victim_keeps_its_entry :
    ∃ cache cache1 cacheA cacheB,
      requestAll (ShadowMapCache.empty [5, 6]) [lightA, lightB] = some ([5, 6], cache) ∧
      _GetOrAllocateShadowMapHandleForLight cache lightC = some (5, cache1) ∧
      lightA ∉ cache1.lruLightCache ∧
      mapFind cache1.lightsToShadowMap lightA = some 5 ∧
      _ShadowMapExistsForLight cache1 lightA = true ∧
      mapFind cache1.lightsToShadowMap lightC = some 5 ∧
      _GetOrAllocateShadowMapHandleForLight cache lightA = some (5, cacheA) ∧
      _GetOrAllocateShadowMapHandleForLight cacheA lightC = some (6, cacheB) ∧
      lightB ∉ cacheB.lruLightCache ∧
      mapFind cacheB.lightsToShadowMap lightB = some 6 ∧
      _ShadowMapExistsForLight cacheB lightB = true ∧
      mapFind cacheB.lightsToShadowMap lightC = some 6 :=
  ⟨_, _, _, _, rfl, rfl, by decide, rfl, rfl, rfl, rfl, rfl, by decide, rfl, rfl, rfl⟩

theorem erase_eq_filter_ne (lru : List LightPtr) (light : LightPtr) (hnd : lru.Nodup) :
    lru.erase light = lru.filter (fun l => decide (l ≠ light)) := by
  rw [hnd.erase_eq_filter]
  apply List.filter_congr
  intro x _
  by_cases hx : x = light <;> simp [hx]

/-- C5: cache hit.  In a reachable state in which `light` has the entry
`light -> h`, `GetOrAllocate(light)` returns `h`, leaves the pool handles,
`lightsToShadowMap` and `usedShadowMaps` as they are, and the LRU list becomes
the previous list without `light`, the other lights in their order, followed by
`light`. -/
theorem C5_cache_hit (pool : List TextureHandle) (cache : ShadowMapCache) (light : LightPtr)
    (h : TextureHandle) (hpool : PoolOk pool) (hr : Reachable pool cache)
    (hl : mapFind cache.lightsToShadowMap light = some h) :
    ∃ cache1, _GetOrAllocateShadowMapHandleForLight cache light = some (h, cache1) ∧
      cache1.shadowMap3DHandles = cache.shadowMap3DHandles ∧
      cache1.lightsToShadowMap = cache.lightsToShadowMap ∧
      cache1.usedShadowMaps = cache.usedShadowMaps ∧
      cache1.lruLightCache =
        cache.lruLightCache.filter (fun l => decide (l ≠ light)) ++ [light] := by
  have hinv := hr.inv hpool
  have hp : cache.shadowMap3DHandles ≠ [] := by rw [hinv.handles_eq]; exact hpool.1
  refine ⟨_, getOrAllocate_hit cache light h hp hl, rfl, rfl, rfl, ?_⟩
  show cache.lruLightCache.erase light ++ [light] = _
  rw [erase_eq_filter_ne _ _ hinv.lru_nodup]

/-- C5 at the pool `[5, 6]`, in the state after the requests for `lightA` and
`lightB`, for `lightA`. -/
theorem C5_cache_hit_witness :
    ∃ cache1,
      _GetOrAllocateShadowMapHandleForLight
        { shadowMap3DHandles := [5, 6], lightsToShadowMap := [(lightA, 5), (lightB, 6)],
          usedShadowMaps := [5, 6], lruLightCache := [lightA, lightB] } lightA
        = some (5, cache1) ∧
      cache1.shadowMap3DHandles = [5, 6] ∧
      cache1.lightsToShadowMap = [(lightA, 5), (lightB, 6)] ∧
      cache1.usedShadowMaps = [5, 6] ∧
      cache1.lruLightCache =
        [lightA, lightB].filter (fun l => decide (l ≠ lightA)) ++ [lightA] :=
  C5_cache_hit [5, 6]
    { shadowMap3DHandles := [5, 6], lightsToShadowMap := [(lightA, 5), (lightB, 6)],
      usedShadowMaps := [5, 6], lruLightCache := [lightA, lightB] } lightA 5 (by decide)
    (@Reachable.getOrAllocate [5, 6] _ _ lightB 6
      (@Reachable.getOrAllocate [5, 6] _ _ lightA 5 Reachable.init rfl) rfl) rfl

/-- C6: free handle.  In a reachable state in which `light` has no entry and some
pool handle is not in `usedShadowMaps`, `GetOrAllocate(light)` returns a pool
handle `h` that was not in `usedShadowMaps`; afterwards the pool handles are
the same, `lightsToShadowMap` is the previous map with the one entry
`light -> h` added (every other light's entry is as before), `usedShadowMaps`
is the previous set with `h` added, and the LRU list is the previous list with
`light` appended. -/
theorem C6_free_handle (pool : List TextureHandle) (cache : ShadowMapCache) (light : LightPtr)
    (hpool : PoolOk pool) (hr : Reachable pool cache)
    (hl : mapFind cache.lightsToShadowMap light = none)
    (hfree : ∃ h ∈ cache.shadowMap3DHandles, h ∉ cache.usedShadowMaps) :
    ∃ h cache1, _GetOrAllocateShadowMapHandleForLight cache light = some (h, cache1) ∧
      h ∈ cache.shadowMap3DHandles ∧ h ∉ cache.usedShadowMaps ∧
      cache1.shadowMap3DHandles = cache.shadowMap3DHandles ∧
      cache1.lightsToShadowMap = cache.lightsToShadowMap ++ [(light, h)] ∧
      mapFind cache1.lightsToShadowMap light = some h ∧
      (∀ k, k ≠ light →
        mapFind cache1.lightsToShadowMap k = mapFind cache.lightsToShadowMap k) ∧
      cache1.usedShadowMaps = cache.usedShadowMaps ++ [h] ∧
      (∀ x, x ∈ cache1.usedShadowMaps ↔ x = h ∨ x ∈ cache.usedShadowMaps) ∧
      cache1.lruLightCache = cache.lruLightCache ++ [light] := by
  have hinv := hr.inv hpool
  have hp : cache.shadowMap3DHandles ≠ [] := by rw [hinv.handles_eq]; exact hpool.1
  have h0 : TextureHandle.Null ∉ cache.shadowMap3DHandles := by
    rw [hinv.handles_eq]; exact hpool.2.2
  have hs := scanFreeHandle_of_free cache h0 hfree
  have hf := scanFreeHandle_free cache hs
  have hnl : light ∉ cache.lruLightCache := fun hmem => hinv.lru_cached light hmem hl
  refine ⟨scanFreeHandle cache, _, getOrAllocate_free cache light hp hl hs, hf.1, hf.2, rfl,
    ?_, ?_, ?_, ?_, ?_, ?_⟩
  · simp only [assigned, mapInsert, hl]
  · exact mapFind_mapInsert_self _ _ _ hl
  · intro k hk
    exact mapFind_mapInsert_of_ne _ _ _ _ (Ne.symm hk)
  · simp only [assigned, setInsert, hf.2, if_false]
  · intro x
    exact mem_setInsert _ _ _
  · simp only [assigned, List.erase_of_not_mem hnl]

/-- C6 at the pool `[5, 6]`, in the state after the request for `lightA`, for
`lightB`. -/
theorem C6_free_handle_witness :
    ∃ h cache1,
      _GetOrAllocateShadowMapHandleForLight
        { shadowMap3DHandles := [5, 6], lightsToShadowMap := [(lightA, 5)],
          usedShadowMaps := [5], lruLightCache := [lightA] } lightB = some (h, cache1) ∧
      h ∈ [5, 6] ∧ h ∉ [5] ∧
      cache1.shadowMap3DHandles = [5, 6] ∧
      cache1.lightsToShadowMap = [(lightA, 5)] ++ [(lightB, h)] ∧
      mapFind cache1.lightsToShadowMap lightB = some h ∧
      (∀ k, k ≠ lightB →
        mapFind cache1.lightsToShadowMap k = mapFind [(lightA, 5)] k) ∧
      cache1.usedShadowMaps = [5] ++ [h] ∧
      (∀ x, x ∈ cache1.usedShadowMaps ↔ x = h ∨ x ∈ [5]) ∧
      cache1.lruLightCache = [lightA] ++ [lightB] :=
  C6_free_handle [5, 6]
    { shadowMap3DHandles := [5, 6], lightsToShadowMap := [(lightA, 5)],
      usedShadowMaps := [5], lruLightCache := [lightA] } lightB (by decide)
    (@Reachable.getOrAllocate [5, 6] _ _ lightA 5 Reachable.init rfl) rfl
    ⟨6, by decide, by decide⟩

/-! ## Sequences of requests (C7, C8) -/

theorem Reachable.step {pool : List TextureHandle} {cache : ShadowMapCache}
    (hpool : PoolOk pool) (hr : Reachable pool cache) (op : CacheOp) :
    ∃ cache1, stepOp cache op = some cache1 ∧ Reachable pool cache1 := by
  cases op with
  | getOrAllocate light =>
    obtain ⟨h, cache1, hg⟩ := getOrAllocate_total hpool (hr.inv hpool) light
    exact ⟨cache1, by simp only [stepOp, hg], Reachable.getOrAllocate hr hg⟩
  | remove light => exact ⟨_, rfl, Reachable.remove light hr⟩

theorem Reachable.run {pool : List TextureHandle} (hpool : PoolOk pool) (ops : List CacheOp) :
    ∀ {cache : ShadowMapCache}, Reachable pool cache →
      ∃ cache1, runOps cache ops = some cache1 ∧ Reachable pool cache1 := by
  induction ops with
  | nil => intro cache hr; exact ⟨cache, rfl, hr⟩
  | cons op ops ih =>
    intro cache hr
    obtain ⟨c1, hs, hr1⟩ := hr.step hpool op
    obtain ⟨c2, hrun, hr2⟩ := ih hr1
    exact ⟨c2, by simp only [runOps, hs, hrun], hr2⟩

/-- C7: capacity bound.  For every sequence `ops` of `GetOrAllocate` and `Remove`
calls on the empty cache of a pool, and every point `n` of it, the first `n`
calls run to a state in which the pool handles are still those of the pool,
every handle of `usedShadowMaps` is a pool handle, `usedShadowMaps` holds no
handle twice and at most as many handles as the pool, and every handle that
`lightsToShadowMap` assigns is a pool handle. -/
theorem C7_capacity_bound (pool : List TextureHandle) (ops : List CacheOp) (n : Nat)
    (hpool : PoolOk pool) :
    ∃ cache, runOps (ShadowMapCache.empty pool) (ops.take n) = some cache ∧
      cache.shadowMap3DHandles = pool ∧
      (∀ h ∈ cache.usedShadowMaps, h ∈ cache.shadowMap3DHandles) ∧
      cache.usedShadowMaps.Nodup ∧
      cache.usedShadowMaps.length ≤ pool.length ∧
      (∀ e ∈ cache.lightsToShadowMap, e.2 ∈ pool) := by
  obtain ⟨cache, hrun, hr⟩ := Reachable.run hpool (ops.take n) (@Reachable.init pool)
  have hinv := hr.inv hpool
  refine ⟨cache, hrun, hinv.handles_eq, ?_, hinv.used_nodup, ?_, hinv.vals_sub⟩
  · rw [hinv.handles_eq]; exact hinv.used_sub
  · exact (hinv.used_nodup.subperm hinv.used_sub).length_le

/-- C7 at the pool `[5, 6]` for requests over three lights, after all five
calls. -/
theorem C7_capacity_bound_witness :
    ∃ cache,
      runOps (ShadowMapCache.empty [5, 6])
        ([CacheOp.getOrAllocate lightA, CacheOp.getOrAllocate lightB,
          CacheOp.getOrAllocate lightC, CacheOp.remove lightB,
          CacheOp.getOrAllocate lightA].take 5) = some cache ∧
      cache.shadowMap3DHandles = [5, 6] ∧
      (∀ h ∈ cache.usedShadowMaps, h ∈ cache.shadowMap3DHandles) ∧
      cache.usedShadowMaps.Nodup ∧
      cache.usedShadowMaps.length ≤ [5, 6].length ∧
      (∀ e ∈ cache.lightsToShadowMap, e.2 ∈ [5, 6]) :=
  C7_capacity_bound [5, 6] _ 5 (by decide)

theorem getOrAllocate_entry {pool : List TextureHandle} {cache cache1 : ShadowMapCache}
    (hpool : PoolOk pool) (hinv : CacheInv pool cache) (light : LightPtr) (h : TextureHandle)
    (hg : _GetOrAllocateShadowMapHandleForLight cache light = some (h, cache1)) :
    mapFind cache1.lightsToShadowMap light = some h := by
  rcases getOrAllocate_cases hpool hinv light with ⟨h2, hl, hg2⟩ | ⟨hl, hs, hg2⟩ |
    ⟨hl, hs, oldest, rest, h1, hlru, ho, hg2⟩
  · rw [hg2] at hg
    cases hg
    exact hl
  · rw [hg2] at hg
    cases hg
    exact mapFind_mapInsert_self _ _ _ hl
  · rw [hg2] at hg
    cases hg
    exact mapFind_mapInsert_self _ _ _ hl

/-- An entry of `lightsToShadowMap` is changed by no request other than
`Remove` of its light. -/
theorem stepOp_entry {pool : List TextureHandle} {cache cache1 : ShadowMapCache}
    (hpool : PoolOk pool) (hinv : CacheInv pool cache) (light : LightPtr) (h : TextureHandle)
    (hl : mapFind cache.lightsToShadowMap light = some h) (op : CacheOp)
    (hop : op ≠ CacheOp.remove light) (hs : stepOp cache op = some cache1) :
    mapFind cache1.lightsToShadowMap light = some h := by
  cases op with
  | getOrAllocate k =>
    rcases getOrAllocate_cases hpool hinv k with ⟨h2, _, hg2⟩ | ⟨_, _, hg2⟩ |
      ⟨_, _, oldest, rest, h1, _, _, hg2⟩
    · simp only [stepOp, hg2, Option.some.injEq] at hs
      subst hs
      exact hl
    · simp only [stepOp, hg2, Option.some.injEq] at hs
      subst hs
      exact mapFind_mapInsert_of_some _ _ _ _ _ hl
    · simp only [stepOp, hg2, Option.some.injEq] at hs
      subst hs
      exact mapFind_mapInsert_of_some _ _ _ _ _ hl
  | remove k =>
    have hk : k ≠ light := fun hk => hop (hk ▸ rfl)
    simp only [stepOp, Option.some.injEq] at hs
    subst hs
    cases hkf : mapFind cache.lightsToShadowMap k with
    | none => rw [removeLight_absent _ _ hkf]; exact hl
    | some v =>
      rw [removeLight_present _ _ v hkf]
      show mapFind (mapErase cache.lightsToShadowMap k) light = some h
      rw [mapFind_mapErase_of_ne _ _ _ hk]
      exact hl

theorem runOps_entry {pool : List TextureHandle} (hpool : PoolOk pool) (light : LightPtr)
    (h : TextureHandle) (ops : List CacheOp) (hrem : CacheOp.remove light ∉ ops) :
    ∀ {cache : ShadowMapCache}, Reachable pool cache →
      mapFind cache.lightsToShadowMap light = some h →
      ∃ cache1, runOps cache ops = some cache1 ∧ Reachable pool cache1 ∧
        mapFind cache1.lightsToShadowMap light = some h := by
  induction ops with
  | nil => intro cache hr hl; exact ⟨cache, rfl, hr, hl⟩
  | cons op ops ih =>
    intro cache hr hl
    obtain ⟨c1, hs, hr1⟩ := hr.step hpool op
    have hop : op ≠ CacheOp.remove light := fun e => hrem (e ▸ List.mem_cons_self _ _)
    have hl1 := stepOp_entry hpool (hr.inv hpool) light h hl op hop hs
    obtain ⟨c2, hrun, hr2, hl2⟩ := ih (fun hm => hrem (List.mem_cons_of_mem _ hm)) hr1 hl1
    exact ⟨c2, by simp only [runOps, hs, hrun], hr2, hl2⟩

/-- C8: handle stability.  From a reachable state, `GetOrAllocate(light)`
returns a handle `h`; if the requests `mid` that follow contain no
`Remove(light)` and none of them picks `light` as the LRU victim, they run to a
state in which `GetOrAllocate(light)` returns the same handle `h`. -/
theorem C8_handle_stability (pool : List TextureHandle) (cache : ShadowMapCache)
    (light : LightPtr) (mid : List CacheOp) (hpool : PoolOk pool) (hr : Reachable pool cache)
    (hrem : CacheOp.remove light ∉ mid)
    (_hev : ∀ h1 cache1, _GetOrAllocateShadowMapHandleForLight cache light = some (h1, cache1) →
      evictedDuring light cache1 mid = false) :
    ∃ h cache1 cache2 cache3,
      _GetOrAllocateShadowMapHandleForLight cache light = some (h, cache1) ∧
      runOps cache1 mid = some cache2 ∧
      _GetOrAllocateShadowMapHandleForLight cache2 light = some (h, cache3) := by
  obtain ⟨h, cache1, hg⟩ := getOrAllocate_total hpool (hr.inv hpool) light
  have hl1 := getOrAllocate_entry hpool (hr.inv hpool) light h hg
  obtain ⟨cache2, hrun, hr2, hl2⟩ :=
    runOps_entry hpool light h mid hrem (Reachable.getOrAllocate hr hg) hl1
  have hp : cache2.shadowMap3DHandles ≠ [] := by
    rw [(hr2.inv hpool).handles_eq]; exact hpool.1
  exact ⟨h, cache1, cache2, _, hg, hrun, getOrAllocate_hit cache2 light h hp hl2⟩

/-- C8 at the pool `[5, 6]`: `lightA` is requested from the empty cache, then
`lightB` is requested and removed, then `lightA` is requested again. -/
theorem C8_handle_stability_witness :
    CacheOp.remove lightA ∉ [CacheOp.getOrAllocate lightB, CacheOp.remove lightB] ∧
    ∃ h cache1 cache2 cache3,
      _GetOrAllocateShadowMapHandleForLight (ShadowMapCache.empty [5, 6]) lightA
        = some (h, cache1) ∧
      runOps cache1 [CacheOp.getOrAllocate lightB, CacheOp.remove lightB] = some cache2 ∧
      _GetOrAllocateShadowMapHandleForLight cache2 lightA = some (h, cache3) :=
  ⟨by decide,
    C8_handle_stability [5, 6] (ShadowMapCache.empty [5, 6]) lightA
      [CacheOp.getOrAllocate lightB, CacheOp.remove lightB] (by decide) Reachable.init
      (by decide) (by
        intro h1 cache1 hg
        have e : _GetOrAllocateShadowMapHandleForLight (ShadowMapCache.empty [5, 6]) lightA
            = some (5, { shadowMap3DHandles := [5, 6], lightsToShadowMap := [(lightA, 5)],
                         usedShadowMaps := [5], lruLightCache := [lightA] }) := rfl
        rw [e] at hg
        cases hg
        rfl)⟩

/-! ## `Remove` (C9, C10) -/

/-- C9: idempotent removal.  `Remove(light)` for a light without an entry in
`lightsToShadowMap` returns the cache as it was (pool handles,
`lightsToShadowMap`, `usedShadowMaps` and the LRU list), in every state of the
cache; and for every light, `Remove` applied twice gives the state that
`Remove` applied once gives. -/
theorem C9_remove_idempotent (cache : ShadowMapCache) (light : LightPtr) :
    (_ShadowMapExistsForLight cache light = false →
      _RemoveLightFromShadowMapCache cache light = cache) ∧
    _RemoveLightFromShadowMapCache (_RemoveLightFromShadowMapCache cache light) light =
      _RemoveLightFromShadowMapCache cache light := by
  constructor
  · intro hex
    cases hl : mapFind cache.lightsToShadowMap light with
    | none => exact removeLight_absent cache light hl
    | some h => simp [_ShadowMapExistsForLight, hl] at hex
  · cases hl : mapFind cache.lightsToShadowMap light with
    | none => rw [removeLight_absent cache light hl, removeLight_absent cache light hl]
    | some h =>
      rw [removeLight_present cache light h hl]
      exact removeLight_absent _ light (mapFind_mapErase_self _ _)

/-- C9 at the state after the request for `lightA` on the pool `[5, 6]`, for
`lightB`, which has no entry. -/
theorem C9_remove_idempotent_witness :
    _ShadowMapExistsForLight
      { shadowMap3DHandles := [5, 6], lightsToShadowMap := [(lightA, 5)],
        usedShadowMaps := [5], lruLightCache := [lightA] } lightB = false ∧
    _RemoveLightFromShadowMapCache
      { shadowMap3DHandles := [5, 6], lightsToShadowMap := [(lightA, 5)],
        usedShadowMaps := [5], lruLightCache := [lightA] } lightB =
      { shadowMap3DHandles := [5, 6], lightsToShadowMap := [(lightA, 5)],
        usedShadowMaps := [5], lruLightCache := [lightA] } :=
  ⟨rfl, (C9_remove_idempotent
      { shadowMap3DHandles := [5, 6], lightsToShadowMap := [(lightA, 5)],
        usedShadowMaps := [5], lruLightCache := [lightA] } lightB).1 rfl⟩

/-- C10: `Remove` postcondition and frame.  In a reachable state in which
`light` has the entry `light -> h`, after `Remove(light)` the light has no entry
(`_ShadowMapExistsForLight` is false), is not in the LRU list, and `h` is not in
`usedShadowMaps`; the pool handles are unchanged, every other light has the
entry it had, and the LRU list is the previous list without `light`, the other
lights in their order. -/
theorem C10_remove_postcondition (pool : List TextureHandle) (cache : ShadowMapCache)
    (light : LightPtr) (h : TextureHandle) (hpool : PoolOk pool) (hr : Reachable pool cache)
    (hl : mapFind cache.lightsToShadowMap light = some h) :
    _ShadowMapExistsForLight (_RemoveLightFromShadowMapCache cache light) light = false ∧
    light ∉ (_RemoveLightFromShadowMapCache cache light).lruLightCache ∧
    h ∉ (_RemoveLightFromShadowMapCache cache light).usedShadowMaps ∧
    (_RemoveLightFromShadowMapCache cache light).shadowMap3DHandles
      = cache.shadowMap3DHandles ∧
    (∀ k, k ≠ light →
      mapFind (_RemoveLightFromShadowMapCache cache light).lightsToShadowMap k
        = mapFind cache.lightsToShadowMap k) ∧
    (_RemoveLightFromShadowMapCache cache light).lruLightCache
      = cache.lruLightCache.filter (fun l => decide (l ≠ light)) := by
  have hinv := hr.inv hpool
  rw [removeLight_present cache light h hl]
  refine ⟨?_, ?_, ?_, rfl, ?_, ?_⟩
  · simp only [_ShadowMapExistsForLight, mapFind_mapErase_self, Option.isSome_none]
  · intro hmem
    exact ((hinv.lru_nodup.mem_erase_iff).mp hmem).1 rfl
  · intro hmem
    exact ((mem_setErase _ _ _).mp hmem).2 rfl
  · intro k hk
    exact mapFind_mapErase_of_ne _ _ _ (Ne.symm hk)
  · exact erase_eq_filter_ne _ _ hinv.lru_nodup

/-- C10 at the pool `[5, 6]`, in the state after the requests for `lightA` and
`lightB`, for `lightA`. -/
theorem C10_remove_postcondition_witness :
    _ShadowMapExistsForLight (_RemoveLightFromShadowMapCache
      { shadowMap3DHandles := [5, 6], lightsToShadowMap := [(lightA, 5), (lightB, 6)],
        usedShadowMaps := [5, 6], lruLightCache := [lightA, lightB] } lightA) lightA = false ∧
    (_RemoveLightFromShadowMapCache
      { shadowMap3DHandles := [5, 6], lightsToShadowMap := [(lightA, 5), (lightB, 6)],
        usedShadowMaps := [5, 6], lruLightCache := [lightA, lightB] } lightA).lruLightCache
      = [lightB] :=
  have key := C10_remove_postcondition [5, 6]
    { shadowMap3DHandles := [5, 6], lightsToShadowMap := [(lightA, 5), (lightB, 6)],
      usedShadowMaps := [5, 6], lruLightCache := [lightA, lightB] } lightA 5 (by decide)
    (@Reachable.getOrAllocate [5, 6] _ _ lightB 6
      (@Reachable.getOrAllocate [5, 6] _ _ lightA 5 Reachable.init rfl) rfl) rfl
  ⟨key.1, key.2.2.2.2.2⟩

/-! ## The two caches of the backend (C11, C12) -/

theorem getOrAllocate_handle_mem {pool : List TextureHandle} {cache cache1 : ShadowMapCache}
    (hpool : PoolOk pool) (hinv : CacheInv pool cache) (light : LightPtr) (h : TextureHandle)
    (hg : _GetOrAllocateShadowMapHandleForLight cache light = some (h, cache1)) :
    h ∈ pool := by
  rcases getOrAllocate_cases hpool hinv light with ⟨h2, hl, hg2⟩ | ⟨hl, hs, hg2⟩ |
    ⟨hl, hs, oldest, rest, h1, hlru, ho, hg2⟩
  · rw [hg2] at hg
    cases hg
    exact hinv.vals_sub _ (mapFind_mem _ _ _ hl)
  · rw [hg2] at hg
    cases hg
    have hf := (scanFreeHandle_free cache hs).1
    rw [hinv.handles_eq] at hf
    exact hf
  · rw [hg2] at hg
    cases hg
    exact hinv.vals_sub _ (mapFind_mem _ _ _ ho)

/-- A call of `_GetOrAllocateShadowMapHandleForLight` that returns leaves the
pool handles as they are, in every state of the cache. -/
theorem getOrAllocate_handles (cache cache1 : ShadowMapCache) (light : LightPtr)
    (h : TextureHandle)
    (hg : _GetOrAllocateShadowMapHandleForLight cache light = some (h, cache1)) :
    cache1.shadowMap3DHandles = cache.shadowMap3DHandles := by
  by_cases hlen : cache.shadowMap3DHandles.length = 0
  · simp [_GetOrAllocateShadowMapHandleForLight, hlen] at hg
  · have hp : cache.shadowMap3DHandles ≠ [] := by
      simpa [List.length_eq_zero] using hlen
    cases hl : mapFind cache.lightsToShadowMap light with
    | some v =>
      rw [getOrAllocate_hit cache light v hp hl] at hg
      cases hg
      rfl
    | none =>
      by_cases hs : scanFreeHandle cache = TextureHandle.Null
      · cases hlru : cache.lruLightCache with
        | nil =>
          simp [_GetOrAllocateShadowMapHandleForLight, hlen, hl, hs, hlru] at hg
        | cons oldest rest =>
          cases ho : mapFind cache.lightsToShadowMap oldest with
          | none =>
            simp [_GetOrAllocateShadowMapHandleForLight, hlen, hl, hs, hlru, ho] at hg
          | some h1 =>
            rw [getOrAllocate_evict cache light oldest rest h1 hp hl hs hlru ho] at hg
            cases hg
            rfl
      · rw [getOrAllocate_free cache light hp hl hs] at hg
        cases hg
        rfl

theorem removeLight_handles (cache : ShadowMapCache) (light : LightPtr) :
    (_RemoveLightFromShadowMapCache cache light).shadowMap3DHandles
      = cache.shadowMap3DHandles := by
  unfold _RemoveLightFromShadowMapCache
  split <;> rfl

theorem SamePools.same (b : RendererBackend) : SamePools b b := ⟨rfl, rfl⟩

theorem SamePools.chain {b b1 b2 : RendererBackend} (h1 : SamePools b b1)
    (h2 : SamePools b1 b2) : SamePools b b2 :=
  ⟨h2.1.trans h1.1, h2.2.trans h1.2⟩

theorem RendererBackend.get_set (b : RendererBackend) (light : LightPtr)
    (cache : ShadowMapCache) :
    (b.setSmapCacheForLight light cache)._GetSmapCacheForLight light = cache := by
  unfold RendererBackend.setSmapCacheForLight RendererBackend._GetSmapCacheForLight
  by_cases hv : light.isVirtual = true <;> simp [hv]

theorem RendererBackend.set_state (b : RendererBackend) (light : LightPtr)
    (cache : ShadowMapCache) :
    (b.setSmapCacheForLight light cache).state = b.state ∧
    (b.setSmapCacheForLight light cache)._isValid = b._isValid := by
  unfold RendererBackend.setSmapCacheForLight
  by_cases hv : light.isVirtual = true <;> simp [hv]

theorem RendererBackend.set_sameBuffers (b : RendererBackend) (light : LightPtr)
    (cache : ShadowMapCache) : SameBuffers b (b.setSmapCacheForLight light cache) := by
  unfold RendererBackend.setSmapCacheForLight SameBuffers
  by_cases hv : light.isVirtual = true <;> simp [hv]

theorem RendererBackend.set_samePools (b : RendererBackend) (light : LightPtr)
    (cache : ShadowMapCache)
    (hc : cache.shadowMap3DHandles = (b._GetSmapCacheForLight light).shadowMap3DHandles) :
    SamePools b (b.setSmapCacheForLight light cache) := by
  unfold RendererBackend._GetSmapCacheForLight at hc
  by_cases hv : light.isVirtual = true
  · have hset : b.setSmapCacheForLight light cache = { b with _vplSmapCache := cache } := by
      simp [RendererBackend.setSmapCacheForLight, hv]
    rw [hset]
    simp only [hv, if_true] at hc
    exact ⟨rfl, hc⟩
  · have hset : b.setSmapCacheForLight light cache = { b with _smapCache := cache } := by
      simp [RendererBackend.setSmapCacheForLight, hv]
    rw [hset]
    simp only [hv] at hc
    exact ⟨hc, rfl⟩

theorem RendererBackend.getOrAllocate_samePools (b b1 : RendererBackend) (light : LightPtr)
    (h : TextureHandle)
    (hg : b._GetOrAllocateShadowMapHandleForLight light = some (h, b1)) :
    CacheStep b b1 := by
  unfold RendererBackend._GetOrAllocateShadowMapHandleForLight at hg
  split at hg
  · cases hg
  · rename_i h2 cache hc
    cases hg
    exact ⟨b.set_samePools light cache (getOrAllocate_handles _ _ _ _ hc),
      (b.set_state light cache).1, (b.set_state light cache).2, b.set_sameBuffers light cache⟩

theorem RendererBackend.getOrAllocateMap_samePools (b b1 : RendererBackend) (light : LightPtr)
    (h : TextureHandle)
    (hg : b._GetOrAllocateShadowMapForLight light = some (h, b1)) :
    CacheStep b b1 := by
  unfold RendererBackend._GetOrAllocateShadowMapForLight at hg
  split at hg
  · cases hg
  · rename_i h2 b2 hc
    split at hg
    · cases hg
      exact b.getOrAllocate_samePools _ light _ hc
    · cases hg

theorem RendererBackend.remove_samePools (b : RendererBackend) (light : LightPtr) :
    CacheStep b (b._RemoveLightFromShadowMapCache light) :=
  ⟨b.set_samePools light _ (removeLight_handles _ _), (b.set_state light _).1,
    (b.set_state light _).2, b.set_sameBuffers light _⟩

theorem BackendInv.set {rp vp : List TextureHandle} {b : RendererBackend}
    (hinv : BackendInv rp vp b) (light : LightPtr) (cache : ShadowMapCache)
    (hc : CacheInv (poolFor rp vp light) cache) :
    BackendInv rp vp (b.setSmapCacheForLight light cache) := by
  unfold RendererBackend.setSmapCacheForLight
  unfold poolFor at hc
  by_cases hv : light.isVirtual = true
  · simp only [hv, if_true] at hc ⊢
    exact ⟨hinv.regularOk, hinv.vplOk, hinv.regular, hc⟩
  · simp only [hv] at hc ⊢
    exact ⟨hinv.regularOk, hinv.vplOk, hc, hinv.vpl⟩

theorem BackendInv.cacheFor {rp vp : List TextureHandle} {b : RendererBackend}
    (hinv : BackendInv rp vp b) (light : LightPtr) :
    PoolOk (poolFor rp vp light) ∧
      CacheInv (poolFor rp vp light) (b._GetSmapCacheForLight light) := by
  unfold poolFor RendererBackend._GetSmapCacheForLight
  by_cases hv : light.isVirtual = true
  · simp only [hv, if_true]
    exact ⟨hinv.vplOk, hinv.vpl⟩
  · simp only [hv]
    exact ⟨hinv.regularOk, hinv.regular⟩

/-- On a backend whose caches satisfy the invariant, `GetOrAllocate` returns: a
handle of the pool of the light; the invariant holds afterwards and the light
has a shadow map. -/
theorem BackendInv.getOrAllocateHandle {rp vp : List TextureHandle} {b : RendererBackend}
    (hinv : BackendInv rp vp b) (light : LightPtr) :
    ∃ h b1, b._GetOrAllocateShadowMapHandleForLight light = some (h, b1) ∧
      b._GetOrAllocateShadowMapForLight light = some (h, b1) ∧
      h ∈ poolFor rp vp light ∧ BackendInv rp vp b1 ∧
      b1._ShadowMapExistsForLight light = true := by
  obtain ⟨hpool, hc⟩ := hinv.cacheFor light
  obtain ⟨h, cache1, hg⟩ := getOrAllocate_total hpool hc light
  have hmem := getOrAllocate_handle_mem hpool hc light h hg
  have hc1 := hc.getOrAllocate hpool light h hg
  have hgb : b._GetOrAllocateShadowMapHandleForLight light
      = some (h, b.setSmapCacheForLight light cache1) := by
    simp only [RendererBackend._GetOrAllocateShadowMapHandleForLight, hg]
  refine ⟨h, _, hgb, ?_, hmem, hinv.set light cache1 hc1, ?_⟩
  · simp only [RendererBackend._GetOrAllocateShadowMapForLight, hgb, b.get_set,
      hc1.handles_eq, hmem, if_true]
  · simp only [RendererBackend._ShadowMapExistsForLight, b.get_set,
      ShadowMapCache._ShadowMapExistsForLight,
      getOrAllocate_entry hpool hc light h hg, Option.isSome_some]

theorem BackendInv.remove {rp vp : List TextureHandle} {b : RendererBackend}
    (hinv : BackendInv rp vp b) (light : LightPtr) :
    BackendInv rp vp (b._RemoveLightFromShadowMapCache light) :=
  hinv.set light _ ((hinv.cacheFor light).2.removed light)

theorem BackendInv.runOps {rp vp : List TextureHandle} (ops : List CacheOp) :
    ∀ {b : RendererBackend}, BackendInv rp vp b →
      ∃ results b1, b.runOps ops = some (results, b1) ∧ BackendInv rp vp b1 ∧
        ∀ r ∈ results, r.2 ∈ poolFor rp vp r.1 := by
  induction ops with
  | nil =>
    intro b hinv
    exact ⟨[], b, rfl, hinv, by intro r hr; cases hr⟩
  | cons op ops ih =>
    intro b hinv
    cases op with
    | getOrAllocate light =>
      obtain ⟨h, b1, hg, -, hmem, hinv1, -⟩ := hinv.getOrAllocateHandle light
      obtain ⟨r2, b2, hrun, hinv2, hres⟩ := ih hinv1
      refine ⟨[(light, h)] ++ r2, b2, ?_, hinv2, ?_⟩
      · simp only [RendererBackend.runOps, RendererBackend.stepOp, hg, hrun]
      · intro r hr
        rcases List.mem_append.mp hr with h1 | h1
        · rw [List.mem_singleton] at h1
          subst h1
          exact hmem
        · exact hres r h1
    | remove light =>
      obtain ⟨r2, b2, hrun, hinv2, hres⟩ := ih (hinv.remove light)
      refine ⟨[] ++ r2, b2, ?_, hinv2, ?_⟩
      · simp only [RendererBackend.runOps, RendererBackend.stepOp, hrun]
      · intro r hr
        exact hres r (by simpa using hr)

theorem RendererBackend.runOps_samePools (ops : List CacheOp) :
    ∀ (b b1 : RendererBackend) (results : List (LightPtr × TextureHandle)),
      b.runOps ops = some (results, b1) → SamePools b b1 := by
  induction ops with
  | nil =>
    intro b b1 results hrun
    simp only [RendererBackend.runOps, Option.some.injEq, Prod.mk.injEq] at hrun
    rw [← hrun.2]
    exact SamePools.same b
  | cons op ops ih =>
    intro b b1 results hrun
    simp only [RendererBackend.runOps] at hrun
    split at hrun
    · cases hrun
    · rename_i r1 b2 hstep
      split at hrun
      · cases hrun
      · rename_i r2 b3 hrest
        cases hrun
        refine SamePools.chain ?_ (ih _ _ _ hrest)
        cases op with
        | getOrAllocate light =>
          simp only [RendererBackend.stepOp] at hstep
          split at hstep
          · rename_i h b4 hg
            cases hstep
            exact (b.getOrAllocate_samePools _ light _ hg).1
          · cases hstep
        | remove light =>
          simp only [RendererBackend.stepOp, Option.some.injEq, Prod.mk.injEq] at hstep
          rw [← hstep.2]
          exact (b.remove_samePools light).1

theorem Constructed.create {b : RendererBackend} (hc : Constructed b) (complete vpl : Bool) :
    Constructed (b._CreateShadowMap3D complete vpl).2 := by
  unfold RendererBackend._CreateShadowMap3D
  by_cases hcomp : complete = true
  · have hnext : b.nextHandle ∉
        b._smapCache.shadowMap3DHandles ++ b._vplSmapCache.shadowMap3DHandles :=
      fun hm => Nat.lt_irrefl _ (hc.fresh _ hm).2
    have hnd := hc.nodup
    have hpos := hc.nextPos
    have hr := hc.regularEmpty
    have hv := hc.vplEmpty
    by_cases hvpl : vpl = true
    · simp only [hcomp, hvpl, Bool.not_true, if_true, Bool.false_eq_true, if_false]
      refine ⟨hr, ?_, ?_, ?_, Nat.succ_pos _⟩
      · show ({ b._vplSmapCache with shadowMap3DHandles := _ } : ShadowMapCache) = _
        rw [hv]
        rfl
      · show (b._smapCache.shadowMap3DHandles ++
          (b._vplSmapCache.shadowMap3DHandles ++ [b.nextHandle])).Nodup
        rw [← List.append_assoc]
        exact List.nodup_append.mpr ⟨hnd, List.nodup_singleton _, by
          intro a ha hb
          rw [List.mem_singleton] at hb
          exact hnext (hb ▸ ha)⟩
      · intro h hh
        change h ∈ b._smapCache.shadowMap3DHandles ++
          (b._vplSmapCache.shadowMap3DHandles ++ [b.nextHandle]) at hh
        rw [← List.append_assoc] at hh
        rcases List.mem_append.mp hh with h1 | h1
        · exact ⟨(hc.fresh h h1).1, Nat.lt_succ_of_lt (hc.fresh h h1).2⟩
        · rw [List.mem_singleton] at h1
          subst h1
          exact ⟨hpos, Nat.lt_succ_self _⟩
    · simp only [hcomp, hvpl, Bool.not_true, if_true, Bool.false_eq_true, if_false]
      refine ⟨?_, hv, ?_, ?_, Nat.succ_pos _⟩
      · show ({ b._smapCache with shadowMap3DHandles := _ } : ShadowMapCache) = _
        rw [hr]
        rfl
      · show ((b._smapCache.shadowMap3DHandles ++ [b.nextHandle]) ++
          b._vplSmapCache.shadowMap3DHandles).Nodup
        have hperm : List.Perm
            ((b._smapCache.shadowMap3DHandles ++ [b.nextHandle]) ++
              b._vplSmapCache.shadowMap3DHandles)
            ((b._smapCache.shadowMap3DHandles ++ b._vplSmapCache.shadowMap3DHandles) ++
              [b.nextHandle]) := by
          rw [List.append_assoc, List.append_assoc]
          exact List.Perm.append_left _ List.perm_append_comm
        refine hperm.nodup_iff.mpr (List.nodup_append.mpr ⟨hnd, List.nodup_singleton _, ?_⟩)
        intro a ha hb
        rw [List.mem_singleton] at hb
        exact hnext (hb ▸ ha)
      · intro h hh
        change h ∈ (b._smapCache.shadowMap3DHandles ++ [b.nextHandle]) ++
          b._vplSmapCache.shadowMap3DHandles at hh
        rcases List.mem_append.mp hh with h1 | h1
        · rcases List.mem_append.mp h1 with h2 | h2
          · have := hc.fresh h (List.mem_append_left _ h2)
            exact ⟨this.1, Nat.lt_succ_of_lt this.2⟩
          · rw [List.mem_singleton] at h2
            subst h2
            exact ⟨hpos, Nat.lt_succ_self _⟩
        · have := hc.fresh h (List.mem_append_right _ h1)
          exact ⟨this.1, Nat.lt_succ_of_lt this.2⟩
  · simp only [hcomp, Bool.not_false, if_true]
    exact ⟨hc.regularEmpty, hc.vplEmpty, hc.nodup, hc.fresh, hc.nextPos⟩

theorem Constructed.createShadowMaps (complete : FboId → Bool) (vpl : Bool) (n : Nat) :
    ∀ (i : Nat) {b : RendererBackend}, Constructed b →
      Constructed (RendererBackend.createShadowMaps complete vpl i n b) := by
  induction n with
  | zero => intro i b hc; exact hc
  | succ n ih =>
    intro i b hc
    exact ih (i + 1) (hc.create _ vpl)

theorem Constructed.construct (state : RendererState) (pipelines : List Bool)
    (complete : FboId → Bool) :
    Constructed (RendererBackend.construct state pipelines complete) := by
  unfold RendererBackend.construct RendererBackend._InitPointShadowMaps
  apply Constructed.createShadowMaps
  apply Constructed.createShadowMaps
  have h0 : Constructed (RendererBackend._ValidateAllShaders
      { _isValid := true, state := state, dummyCubeMap := TextureHandle.Null, nextHandle := 1,
        _smapCache := ShadowMapCache.empty [], _vplSmapCache := ShadowMapCache.empty [],
        numDownsampleIterations := 0, numUpsampleIterations := 0,
        gaussianBuffers := [], postFxBuffers := [], framebuffers := [] } pipelines) :=
    ⟨rfl, rfl, List.nodup_nil, (by intro h hh; cases hh), Nat.one_pos⟩
  have h1 := h0.create (complete FboId.dummyCubeMap) false
  exact ⟨h1.regularEmpty, h1.vplEmpty, h1.nodup, h1.fresh, h1.nextPos⟩

/-- A constructed backend with two non-empty pools satisfies the invariant. -/
theorem Constructed.backendInv {b : RendererBackend} (hc : Constructed b)
    (hr : b._smapCache.shadowMap3DHandles ≠ [])
    (hv : b._vplSmapCache.shadowMap3DHandles ≠ []) :
    BackendInv b._smapCache.shadowMap3DHandles b._vplSmapCache.shadowMap3DHandles b := by
  have hnd := List.nodup_append.mp hc.nodup
  have hrp : PoolOk b._smapCache.shadowMap3DHandles :=
    ⟨hr, hnd.1, fun h0 => Nat.lt_irrefl 0 (hc.fresh _ (List.mem_append_left _ h0)).1⟩
  have hvp : PoolOk b._vplSmapCache.shadowMap3DHandles :=
    ⟨hv, hnd.2.1, fun h0 => Nat.lt_irrefl 0 (hc.fresh _ (List.mem_append_right _ h0)).1⟩
  refine ⟨hrp, hvp, ?_, ?_⟩
  · have := CacheInv.empty _ hrp
    rwa [← hc.regularEmpty] at this
  · have := CacheInv.empty _ hvp
    rwa [← hc.vplEmpty] at this

theorem createShadowMaps_regular (complete : FboId → Bool)
    (hall : ∀ i, complete (FboId.shadowMap false i) = true) (n : Nat) :
    ∀ (i : Nat) (b : RendererBackend),
      RendererBackend.createShadowMaps complete false i n b =
        { b with
          nextHandle := b.nextHandle + n
          _smapCache := { b._smapCache with
            shadowMap3DHandles := b._smapCache.shadowMap3DHandles ++ List.range' b.nextHandle n } } := by
  induction n with
  | zero => intro i b; simp [RendererBackend.createShadowMaps]
  | succ n ih =>
    intro i b
    simp only [RendererBackend.createShadowMaps, RendererBackend._CreateShadowMap3D, hall,
      Bool.not_true, Bool.false_eq_true, if_false, ih, List.range'_succ, List.append_assoc,
      List.singleton_append, Nat.add_assoc, Nat.add_comm 1 n]

theorem createShadowMaps_vpl (complete : FboId → Bool)
    (hall : ∀ i, complete (FboId.shadowMap true i) = true) (n : Nat) :
    ∀ (i : Nat) (b : RendererBackend),
      RendererBackend.createShadowMaps complete true i n b =
        { b with
          nextHandle := b.nextHandle + n
          _vplSmapCache := { b._vplSmapCache with
            shadowMap3DHandles :=
              b._vplSmapCache.shadowMap3DHandles ++ List.range' b.nextHandle n } } := by
  induction n with
  | zero => intro i b; simp [RendererBackend.createShadowMaps]
  | succ n ih =>
    intro i b
    simp only [RendererBackend.createShadowMaps, RendererBackend._CreateShadowMap3D, hall,
      Bool.not_true, Bool.false_eq_true, if_false, if_true, ih, List.range'_succ,
      List.append_assoc, List.singleton_append, Nat.add_assoc, Nat.add_comm 1 n]

/-- The pools the constructor makes when every shadow-map framebuffer passes its
validity check: the regular cache owns the dummy cube map and the
`numRegularShadowMaps` maps of the pool, the VPL cache its
`maxTotalVirtualPointLightsPerFrame` maps. -/
theorem construct_pools (state : RendererState) (pipelines : List Bool)
    (complete : FboId → Bool) (hall : ∀ id, complete id = true) :
    (RendererBackend.construct state pipelines complete).dummyCubeMap = 1 ∧
    (RendererBackend.construct state pipelines complete)._smapCache.shadowMap3DHandles
      = 1 :: List.range' 2 state.numRegularShadowMaps ∧
    (RendererBackend.construct state pipelines complete)._vplSmapCache.shadowMap3DHandles
      = List.range' (2 + state.numRegularShadowMaps)
          state.maxTotalVirtualPointLightsPerFrame ∧
    (RendererBackend.construct state pipelines complete).state = state := by
  simp only [RendererBackend.construct, RendererBackend._InitPointShadowMaps,
    createShadowMaps_regular complete (fun i => hall _),
    createShadowMaps_vpl complete (fun i => hall _), RendererBackend._CreateShadowMap3D, hall,
    RendererBackend._ValidateAllShaders, ShadowMapCache.empty]
  simp

/-! ## Viewport (re)allocation (C18, C19, C20) -/

theorem CacheStep.stay (b : RendererBackend) : CacheStep b b :=
  ⟨SamePools.same b, rfl, rfl, rfl, rfl, rfl, rfl, rfl⟩

theorem CacheStep.andThen {b b1 b2 : RendererBackend} (h1 : CacheStep b b1)
    (h2 : CacheStep b1 b2) : CacheStep b b2 :=
  ⟨h1.1.chain h2.1, h2.2.1.trans h1.2.1, h2.2.2.1.trans h1.2.2.1,
    h2.2.2.2.1.trans h1.2.2.2.1, h2.2.2.2.2.1.trans h1.2.2.2.2.1,
    h2.2.2.2.2.2.1.trans h1.2.2.2.2.2.1, h2.2.2.2.2.2.2.1.trans h1.2.2.2.2.2.2.1,
    h2.2.2.2.2.2.2.2.trans h1.2.2.2.2.2.2.2⟩

/-- The framebuffers, the bloom vectors and the iteration counts are all that
`Renderable` reads of the backend. -/
theorem Renderable.afterStep {b b1 : RendererBackend} {frame : RendererFrame}
    (h : Renderable b frame) (hs : CacheStep b b1) : Renderable b1 frame := by
  obtain ⟨-, -, -, hf, hp, hg, hd, hu⟩ := hs
  obtain ⟨h1, h2, h3, h4⟩ := h
  refine ⟨h1, h2, ?_, ?_⟩
  · rw [hf]
    exact h3
  · intro a ha
    have ha' : a ∈ b._PerformBloomPostFx := by
      simpa [RendererBackend._PerformBloomPostFx, hd] using ha
    have := h4 a ha'
    have hsize : b1.bloomVectorSize a.1 = b.bloomVectorSize a.1 := by
      cases a.1 <;> simp [RendererBackend.bloomVectorSize, hp, hg, hd, hu]
    rw [hsize]
    exact this

theorem AllOk.concat {complete : FboId → Bool} {c1 c2 : List FboId}
    (h1 : AllOk complete c1) (h2 : AllOk complete c2) : AllOk complete (c1 ++ c2) := by
  intro x hx hv
  rcases List.mem_append.mp hx with h | h
  · exact h1 x h hv
  · exact h2 x h hv

theorem StoppedAt.after {complete : FboId → Bool} {c1 c2 : List FboId}
    (h1 : AllOk complete c1) (h2 : StoppedAt complete c2) : StoppedAt complete (c1 ++ c2) := by
  obtain ⟨pre, x, hc, hv, hx, hpre⟩ := h2
  exact ⟨c1 ++ pre, x, by rw [hc, List.append_assoc], hv, hx, h1.concat hpre⟩

theorem StoppedAt.lone {complete : FboId → Bool} (x : FboId)
    (hv : x.validated = true) (hx : complete x = false) : StoppedAt complete [x] :=
  ⟨[], x, rfl, hv, hx, by intro y hy; cases hy⟩

theorem AllOk.single {complete : FboId → Bool} (x : FboId)
    (hx : x.validated = true → complete x = true) : AllOk complete [x] := by
  intro y hy hv
  rw [List.mem_singleton] at hy
  subst hy
  exact hx hv

/-- A tested framebuffer that failed its test is the last one created. -/
theorem StoppedAt.last {complete : FboId → Bool} {created : List FboId}
    (h : StoppedAt complete created) (x : FboId) (hx : x ∈ created)
    (hv : x.validated = true) (hc : complete x = false) : created.getLast? = some x := by
  obtain ⟨pre, y, hcr, -, -, hpre⟩ := h
  subst hcr
  rcases List.mem_append.mp hx with h1 | h1
  · have := hpre x h1 hv
    rw [hc] at this
    cases this
  · rw [List.mem_singleton] at h1
    subst h1
    simp

theorem AllOk.not_failed {complete : FboId → Bool} {created : List FboId}
    (h : AllOk complete created) (x : FboId) (hx : x ∈ created)
    (hv : x.validated = true) (hc : complete x = false) : False := by
  have := h x hx hv
  rw [hc] at this
  cases this

theorem AllOk.nil (complete : FboId → Bool) : AllOk complete [] := by
  intro x hx
  cases hx

/-- The bloom loop either creates framebuffers that all pass their tests and
leaves the validity flag alone, or returns at the first tested framebuffer that
fails, with the flag cleared.  It does not touch the caches. -/
theorem bloomDownsampleLoop_spec (complete : FboId → Bool) (fuel : Nat) :
    ∀ (w h : Nat) (b : RendererBackend),
      ((RendererBackend.bloomDownsampleLoop complete fuel w h b).2.2 = false ∧
        AllOk complete (RendererBackend.bloomDownsampleLoop complete fuel w h b).1 ∧
        (RendererBackend.bloomDownsampleLoop complete fuel w h b).2.1._isValid = b._isValid ∨
       (RendererBackend.bloomDownsampleLoop complete fuel w h b).2.2 = true ∧
        StoppedAt complete (RendererBackend.bloomDownsampleLoop complete fuel w h b).1 ∧
        (RendererBackend.bloomDownsampleLoop complete fuel w h b).2.1._isValid = false) ∧
      (RendererBackend.bloomDownsampleLoop complete fuel w h b).2.1._smapCache = b._smapCache ∧
      (RendererBackend.bloomDownsampleLoop complete fuel w h b).2.1._vplSmapCache
        = b._vplSmapCache ∧
      (RendererBackend.bloomDownsampleLoop complete fuel w h b).2.1.state = b.state := by
  induction fuel with
  | zero =>
    intro w h b
    exact ⟨Or.inl ⟨rfl, AllOk.nil complete, rfl⟩, rfl, rfl, rfl⟩
  | succ fuel ih =>
    intro w h b
    by_cases hsmall : w / 2 < 8 ∨ h / 2 < 8
    · have hval : RendererBackend.bloomDownsampleLoop complete (fuel + 1) w h b
          = ([], b, false) := by
        simp only [RendererBackend.bloomDownsampleLoop, hsmall, if_true]
      rw [hval]
      exact ⟨Or.inl ⟨rfl, AllOk.nil complete, rfl⟩, rfl, rfl, rfl⟩
    · by_cases hc : complete (FboId.bloomDownsample b.numDownsampleIterations) = true
      · have hrec := ih (w / 2) (h / 2)
          { b with
            postFxBuffers := b.postFxBuffers ++ [FboId.bloomDownsample b.numDownsampleIterations]
            gaussianBuffers := b.gaussianBuffers ++
              [FboId.gaussianBlur b.numDownsampleIterations 0,
               FboId.gaussianBlur b.numDownsampleIterations 1]
            numDownsampleIterations := b.numDownsampleIterations + 1 }
        have hval : RendererBackend.bloomDownsampleLoop complete (fuel + 1) w h b
            = ([FboId.bloomDownsample b.numDownsampleIterations,
                FboId.gaussianBlur b.numDownsampleIterations 0,
                FboId.gaussianBlur b.numDownsampleIterations 1] ++
                (RendererBackend.bloomDownsampleLoop complete fuel (w / 2) (h / 2)
                  { b with
                    postFxBuffers :=
                      b.postFxBuffers ++ [FboId.bloomDownsample b.numDownsampleIterations]
                    gaussianBuffers := b.gaussianBuffers ++
                      [FboId.gaussianBlur b.numDownsampleIterations 0,
                       FboId.gaussianBlur b.numDownsampleIterations 1]
                    numDownsampleIterations := b.numDownsampleIterations + 1 }).1,
               (RendererBackend.bloomDownsampleLoop complete fuel (w / 2) (h / 2)
                  { b with
                    postFxBuffers :=
                      b.postFxBuffers ++ [FboId.bloomDownsample b.numDownsampleIterations]
                    gaussianBuffers := b.gaussianBuffers ++
                      [FboId.gaussianBlur b.numDownsampleIterations 0,
                       FboId.gaussianBlur b.numDownsampleIterations 1]
                    numDownsampleIterations := b.numDownsampleIterations + 1 }).2) := by
          simp only [RendererBackend.bloomDownsampleLoop, hsmall, if_false, hc, Bool.not_true,
            Bool.false_eq_true]
        have hhead : AllOk complete
            [FboId.bloomDownsample b.numDownsampleIterations,
             FboId.gaussianBlur b.numDownsampleIterations 0,
             FboId.gaussianBlur b.numDownsampleIterations 1] := by
          intro x hx hv
          simp only [List.mem_cons, List.mem_singleton, List.not_mem_nil, or_false] at hx
          rcases hx with rfl | rfl | rfl
          · exact hc
          · cases hv
          · cases hv
        rw [hval]
        refine ⟨?_, hrec.2.1, hrec.2.2.1, hrec.2.2.2⟩
        rcases hrec.1 with ⟨he, hok, hvalid⟩ | ⟨he, hst, hvalid⟩
        · exact Or.inl ⟨he, hhead.concat hok, hvalid⟩
        · exact Or.inr ⟨he, StoppedAt.after hhead hst, hvalid⟩
      · have hc2 : complete (FboId.bloomDownsample b.numDownsampleIterations) = false := by
          simpa using hc
        have hval : RendererBackend.bloomDownsampleLoop complete (fuel + 1) w h b
            = ([FboId.bloomDownsample b.numDownsampleIterations],
                { b with _isValid := false }, true) := by
          simp only [RendererBackend.bloomDownsampleLoop, hsmall, if_false, hc2, Bool.not_false,
            if_true]
        rw [hval]
        exact ⟨Or.inr ⟨rfl, StoppedAt.lone _ rfl hc2, rfl⟩, rfl, rfl, rfl⟩

theorem bloomUpsampleLoop_spec (complete : FboId → Bool) (n : Nat) :
    ∀ (b : RendererBackend),
      ((RendererBackend.bloomUpsampleLoop complete n b).2.2 = false ∧
        AllOk complete (RendererBackend.bloomUpsampleLoop complete n b).1 ∧
        (RendererBackend.bloomUpsampleLoop complete n b).2.1._isValid = b._isValid ∨
       (RendererBackend.bloomUpsampleLoop complete n b).2.2 = true ∧
        StoppedAt complete (RendererBackend.bloomUpsampleLoop complete n b).1 ∧
        (RendererBackend.bloomUpsampleLoop complete n b).2.1._isValid = false) ∧
      (RendererBackend.bloomUpsampleLoop complete n b).2.1._smapCache = b._smapCache ∧
      (RendererBackend.bloomUpsampleLoop complete n b).2.1._vplSmapCache = b._vplSmapCache ∧
      (RendererBackend.bloomUpsampleLoop complete n b).2.1.state = b.state := by
  induction n with
  | zero =>
    intro b
    exact ⟨Or.inl ⟨rfl, AllOk.nil complete, rfl⟩, rfl, rfl, rfl⟩
  | succ n ih =>
    intro b
    by_cases hc : complete (FboId.bloomUpsample b.numUpsampleIterations) = true
    · have hrec := ih
        { b with
          numUpsampleIterations := b.numUpsampleIterations + 1
          postFxBuffers := b.postFxBuffers ++ [FboId.bloomUpsample b.numUpsampleIterations] }
      have hval : RendererBackend.bloomUpsampleLoop complete (n + 1) b
          = (FboId.bloomUpsample b.numUpsampleIterations ::
              (RendererBackend.bloomUpsampleLoop complete n
                { b with
                  numUpsampleIterations := b.numUpsampleIterations + 1
                  postFxBuffers :=
                    b.postFxBuffers ++ [FboId.bloomUpsample b.numUpsampleIterations] }).1,
             (RendererBackend.bloomUpsampleLoop complete n
                { b with
                  numUpsampleIterations := b.numUpsampleIterations + 1
                  postFxBuffers :=
                    b.postFxBuffers ++ [FboId.bloomUpsample b.numUpsampleIterations] }).2) := by
        simp only [RendererBackend.bloomUpsampleLoop, hc, Bool.not_true, Bool.false_eq_true,
          if_false]
      have hhead : AllOk complete [FboId.bloomUpsample b.numUpsampleIterations] :=
        AllOk.single _ (fun _ => hc)
      rw [hval]
      refine ⟨?_, hrec.2.1, hrec.2.2.1, hrec.2.2.2⟩
      rcases hrec.1 with ⟨he, hok, hvalid⟩ | ⟨he, hst, hvalid⟩
      · exact Or.inl ⟨he, hhead.concat hok, hvalid⟩
      · exact Or.inr ⟨he, StoppedAt.after hhead hst, hvalid⟩
    · have hc2 : complete (FboId.bloomUpsample b.numUpsampleIterations) = false := by
        simpa using hc
      have hval : RendererBackend.bloomUpsampleLoop complete (n + 1) b
          = ([FboId.bloomUpsample b.numUpsampleIterations],
              { b with numUpsampleIterations := b.numUpsampleIterations + 1, _isValid := false },
              true) := by
        simp only [RendererBackend.bloomUpsampleLoop, hc2, Bool.not_false, if_true]
      rw [hval]
      exact ⟨Or.inr ⟨rfl, StoppedAt.lone _ rfl hc2, rfl⟩, rfl, rfl, rfl⟩

theorem initializePostFxBuffers_spec (complete : FboId → Bool) (frame : RendererFrame)
    (b : RendererBackend) :
    (AllOk complete (RendererBackend._InitializePostFxBuffers complete frame b).1 ∧
      (RendererBackend._InitializePostFxBuffers complete frame b).2._isValid = b._isValid ∨
     StoppedAt complete (RendererBackend._InitializePostFxBuffers complete frame b).1 ∧
      (RendererBackend._InitializePostFxBuffers complete frame b).2._isValid = false) ∧
    (RendererBackend._InitializePostFxBuffers complete frame b).2._smapCache = b._smapCache ∧
    (RendererBackend._InitializePostFxBuffers complete frame b).2._vplSmapCache
      = b._vplSmapCache ∧
    (RendererBackend._InitializePostFxBuffers complete frame b).2.state = b.state := by
  have hdown := bloomDownsampleLoop_spec complete 8 frame.viewportWidth frame.viewportHeight
    { b with numDownsampleIterations := 0, numUpsampleIterations := 0 }
  unfold RendererBackend._InitializePostFxBuffers
  dsimp only
  generalize RendererBackend.bloomDownsampleLoop complete 8 frame.viewportWidth
    frame.viewportHeight { b with numDownsampleIterations := 0, numUpsampleIterations := 0 }
    = down at hdown ⊢
  obtain ⟨c1, b1, e1⟩ := down
  dsimp only at hdown ⊢
  obtain ⟨hd, hdr, hdv, hds⟩ := hdown
  rcases hd with ⟨he, hok1, hvalid1⟩ | ⟨he, hst, hvalid⟩
  · subst he
    simp only [Bool.false_eq_true, if_false]
    have hup := bloomUpsampleLoop_spec complete (b1.numDownsampleIterations - 1 + 1) b1
    generalize RendererBackend.bloomUpsampleLoop complete (b1.numDownsampleIterations - 1 + 1) b1
      = up at hup ⊢
    obtain ⟨c2, b2, e2⟩ := up
    dsimp only at hup ⊢
    obtain ⟨hu, hur, huv, hus⟩ := hup
    rcases hu with ⟨he2, hok2, hvalid2⟩ | ⟨he2, hst2, hvalid2⟩
    · subst he2
      simp only [Bool.false_eq_true, if_false]
      have hok12 := hok1.concat hok2
      by_cases ha : complete FboId.atmosphericPostFx = true
      · by_cases hf1 : complete FboId.fxaa1 = true
        · by_cases hf2 : complete FboId.fxaa2 = true
          · simp only [ha, hf1, hf2, Bool.not_true, Bool.false_eq_true, if_false]
            refine ⟨Or.inl ⟨hok12.concat ?_, hvalid2.trans hvalid1⟩, hur.trans hdr,
              huv.trans hdv, hus.trans hds⟩
            intro x hx hv
            simp only [List.mem_cons, List.mem_singleton, List.not_mem_nil, or_false] at hx
            rcases hx with rfl | rfl | rfl <;> assumption
          · have hf2' : complete FboId.fxaa2 = false := by simpa using hf2
            simp only [ha, hf1, hf2', Bool.not_true, Bool.not_false, Bool.false_eq_true,
              if_false, if_true]
            refine ⟨Or.inr ⟨StoppedAt.after hok12
              ⟨[FboId.atmosphericPostFx, FboId.fxaa1], FboId.fxaa2, rfl, rfl, hf2', ?_⟩, trivial⟩,
              hur.trans hdr, huv.trans hdv, hus.trans hds⟩
            intro x hx hv
            simp only [List.mem_cons, List.mem_singleton, List.not_mem_nil, or_false] at hx
            rcases hx with rfl | rfl <;> assumption
        · have hf1' : complete FboId.fxaa1 = false := by simpa using hf1
          simp only [ha, hf1', Bool.not_true, Bool.not_false, Bool.false_eq_true,
            if_false, if_true]
          refine ⟨Or.inr ⟨StoppedAt.after hok12
            ⟨[FboId.atmosphericPostFx], FboId.fxaa1, rfl, rfl, hf1', ?_⟩, trivial⟩,
            hur.trans hdr, huv.trans hdv, hus.trans hds⟩
          intro x hx hv
          simp only [List.mem_singleton] at hx
          subst hx
          exact ha
      · have ha' : complete FboId.atmosphericPostFx = false := by simpa using ha
        simp only [ha', Bool.not_false, if_true]
        exact ⟨Or.inr ⟨StoppedAt.after hok12 (StoppedAt.lone _ rfl ha'), trivial⟩,
          hur.trans hdr, huv.trans hdv, hus.trans hds⟩
    · subst he2
      simp only [if_true]
      exact ⟨Or.inr ⟨StoppedAt.after hok1 hst2, hvalid2⟩, hur.trans hdr, huv.trans hdv,
        hus.trans hds⟩
  · subst he
    simp only [if_true]
    exact ⟨Or.inr ⟨hst, hvalid⟩, hdr, hdv, hds⟩

theorem assignFramebuffer_smapCache (b : RendererBackend) (id : FboId) :
    (b.assignFramebuffer id)._smapCache = b._smapCache := rfl

theorem assignFramebuffer_vplSmapCache (b : RendererBackend) (id : FboId) :
    (b.assignFramebuffer id)._vplSmapCache = b._vplSmapCache := rfl

theorem assignFramebuffer_state (b : RendererBackend) (id : FboId) :
    (b.assignFramebuffer id).state = b.state := rfl

theorem assignFramebuffer_isValid (b : RendererBackend) (id : FboId) :
    (b.assignFramebuffer id)._isValid = b._isValid := rfl

theorem assignFramebuffer_postFxBuffers (b : RendererBackend) (id : FboId) :
    (b.assignFramebuffer id).postFxBuffers = b.postFxBuffers := rfl

theorem assignFramebuffer_gaussianBuffers (b : RendererBackend) (id : FboId) :
    (b.assignFramebuffer id).gaussianBuffers = b.gaussianBuffers := rfl

theorem assignFramebuffer_numDownsampleIterations (b : RendererBackend) (id : FboId) :
    (b.assignFramebuffer id).numDownsampleIterations = b.numDownsampleIterations := rfl

theorem assignFramebuffer_numUpsampleIterations (b : RendererBackend) (id : FboId) :
    (b.assignFramebuffer id).numUpsampleIterations = b.numUpsampleIterations := rfl

theorem assignFramebuffer_framebuffers (b : RendererBackend) (id : FboId) :
    (b.assignFramebuffer id).framebuffers = id :: b.framebuffers := rfl

theorem clearGBuffer_smapCache (b : RendererBackend) :
    b._ClearGBuffer._smapCache = b._smapCache := rfl

theorem clearGBuffer_vplSmapCache (b : RendererBackend) :
    b._ClearGBuffer._vplSmapCache = b._vplSmapCache := rfl

theorem clearGBuffer_state (b : RendererBackend) : b._ClearGBuffer.state = b.state := rfl

theorem clearGBuffer_isValid (b : RendererBackend) : b._ClearGBuffer._isValid = b._isValid := rfl

/-- The viewport (re)allocation either creates framebuffers that all pass their
tests and leaves the validity flag alone, or stops at the first tested
framebuffer that fails, with the flag cleared.  It does not touch the caches or
the constants. -/
theorem updateWindowDimensions_spec (complete : FboId → Bool) (frame : RendererFrame)
    (b : RendererBackend) :
    (AllOk complete (RendererBackend._UpdateWindowDimensions complete frame b).1 ∧
      (RendererBackend._UpdateWindowDimensions complete frame b).2._isValid = b._isValid ∨
     StoppedAt complete (RendererBackend._UpdateWindowDimensions complete frame b).1 ∧
      (RendererBackend._UpdateWindowDimensions complete frame b).2._isValid = false) ∧
    (RendererBackend._UpdateWindowDimensions complete frame b).2._smapCache = b._smapCache ∧
    (RendererBackend._UpdateWindowDimensions complete frame b).2._vplSmapCache
      = b._vplSmapCache ∧
    (RendererBackend._UpdateWindowDimensions complete frame b).2.state = b.state := by
  unfold RendererBackend._UpdateWindowDimensions
  by_cases hd : frame.viewportDirty = true
  · simp only [hd, Bool.not_true, Bool.false_eq_true, if_false]
    by_cases h1 : complete FboId.gBuffer = true
    · by_cases h2 : complete FboId.lighting = true
      · by_cases h3 : complete FboId.ssaoOcclusion = true
        · by_cases h4 : complete FboId.ssaoOcclusionBlurred = true
          · by_cases h5 : complete FboId.vplGI = true
            · by_cases h6 : complete FboId.atmospheric = true
              · simp only [h1, h2, h3, h4, h5, h6, Bool.not_true, Bool.false_eq_true, if_false]
                have hp := initializePostFxBuffers_spec complete frame
                  ((((((b._ClearGBuffer.assignFramebuffer FboId.gBuffer).assignFramebuffer
                    FboId.lighting).assignFramebuffer FboId.ssaoOcclusion).assignFramebuffer
                    FboId.ssaoOcclusionBlurred).assignFramebuffer FboId.vplGI).assignFramebuffer
                    FboId.atmospheric)
                have hhead : AllOk complete
                    [FboId.gBuffer, FboId.lighting, FboId.ssaoOcclusion,
                     FboId.ssaoOcclusionBlurred, FboId.vplGI, FboId.atmospheric] := by
                  intro x hx hv
                  simp only [List.mem_cons, List.mem_singleton, List.not_mem_nil, or_false] at hx
                  rcases hx with rfl | rfl | rfl | rfl | rfl | rfl <;> assumption
                refine ⟨?_, hp.2.1.trans (by simp only [assignFramebuffer_smapCache, clearGBuffer_smapCache]),
                  hp.2.2.1.trans (by simp only [assignFramebuffer_vplSmapCache, clearGBuffer_vplSmapCache]),
                  hp.2.2.2.trans (by simp only [assignFramebuffer_state, clearGBuffer_state])⟩
                rcases hp.1 with ⟨hok, hv⟩ | ⟨hst, hv⟩
                · exact Or.inl ⟨hhead.concat hok, hv.trans (by simp only [assignFramebuffer_isValid, clearGBuffer_isValid])⟩
                · exact Or.inr ⟨StoppedAt.after hhead hst, hv⟩
              · have h6' : complete FboId.atmospheric = false := by simpa using h6
                simp only [h1, h2, h3, h4, h5, h6', Bool.not_true, Bool.not_false,
                  Bool.false_eq_true, if_false, if_true]
                refine ⟨Or.inr ⟨⟨[FboId.gBuffer, FboId.lighting, FboId.ssaoOcclusion,
                  FboId.ssaoOcclusionBlurred, FboId.vplGI], FboId.atmospheric, rfl, rfl, h6',
                  ?_⟩, trivial⟩,
                by simp only [assignFramebuffer_smapCache, clearGBuffer_smapCache],
                by simp only [assignFramebuffer_vplSmapCache, clearGBuffer_vplSmapCache],
                by simp only [assignFramebuffer_state, clearGBuffer_state]⟩
                intro x hx hv
                simp only [List.mem_cons, List.mem_singleton, List.not_mem_nil, or_false] at hx
                rcases hx with rfl | rfl | rfl | rfl | rfl <;> assumption
            · have h5' : complete FboId.vplGI = false := by simpa using h5
              simp only [h1, h2, h3, h4, h5', Bool.not_true, Bool.not_false,
                Bool.false_eq_true, if_false, if_true]
              refine ⟨Or.inr ⟨⟨[FboId.gBuffer, FboId.lighting, FboId.ssaoOcclusion,
                FboId.ssaoOcclusionBlurred], FboId.vplGI, rfl, rfl, h5', ?_⟩, trivial⟩,
                by simp only [assignFramebuffer_smapCache, clearGBuffer_smapCache],
                by simp only [assignFramebuffer_vplSmapCache, clearGBuffer_vplSmapCache],
                by simp only [assignFramebuffer_state, clearGBuffer_state]⟩
              intro x hx hv
              simp only [List.mem_cons, List.mem_singleton, List.not_mem_nil, or_false] at hx
              rcases hx with rfl | rfl | rfl | rfl <;> assumption
          · have h4' : complete FboId.ssaoOcclusionBlurred = false := by simpa using h4
            simp only [h1, h2, h3, h4', Bool.not_true, Bool.not_false,
              Bool.false_eq_true, if_false, if_true]
            refine ⟨Or.inr ⟨⟨[FboId.gBuffer, FboId.lighting, FboId.ssaoOcclusion],
              FboId.ssaoOcclusionBlurred, rfl, rfl, h4', ?_⟩, trivial⟩,
                by simp only [assignFramebuffer_smapCache, clearGBuffer_smapCache],
                by simp only [assignFramebuffer_vplSmapCache, clearGBuffer_vplSmapCache],
                by simp only [assignFramebuffer_state, clearGBuffer_state]⟩
            intro x hx hv
            simp only [List.mem_cons, List.mem_singleton, List.not_mem_nil, or_false] at hx
            rcases hx with rfl | rfl | rfl <;> assumption
        · have h3' : complete FboId.ssaoOcclusion = false := by simpa using h3
          simp only [h1, h2, h3', Bool.not_true, Bool.not_false,
            Bool.false_eq_true, if_false, if_true]
          refine ⟨Or.inr ⟨⟨[FboId.gBuffer, FboId.lighting],
            FboId.ssaoOcclusion, rfl, rfl, h3', ?_⟩, trivial⟩,
                by simp only [assignFramebuffer_smapCache, clearGBuffer_smapCache],
                by simp only [assignFramebuffer_vplSmapCache, clearGBuffer_vplSmapCache],
                by simp only [assignFramebuffer_state, clearGBuffer_state]⟩
          intro x hx hv
          simp only [List.mem_cons, List.mem_singleton, List.not_mem_nil, or_false] at hx
          rcases hx with rfl | rfl <;> assumption
      · have h2' : complete FboId.lighting = false := by simpa using h2
        simp only [h1, h2', Bool.not_true, Bool.not_false,
          Bool.false_eq_true, if_false, if_true]
        refine ⟨Or.inr ⟨⟨[FboId.gBuffer], FboId.lighting, rfl, rfl, h2', ?_⟩, trivial⟩,
                by simp only [assignFramebuffer_smapCache, clearGBuffer_smapCache],
                by simp only [assignFramebuffer_vplSmapCache, clearGBuffer_vplSmapCache],
                by simp only [assignFramebuffer_state, clearGBuffer_state]⟩
        intro x hx hv
        simp only [List.mem_singleton] at hx
        subst hx
        exact h1
    · have h1' : complete FboId.gBuffer = false := by simpa using h1
      simp only [h1', Bool.not_false, if_true]
      exact ⟨Or.inr ⟨StoppedAt.lone _ rfl h1', trivial⟩,
                by simp only [assignFramebuffer_smapCache, clearGBuffer_smapCache],
                by simp only [assignFramebuffer_vplSmapCache, clearGBuffer_vplSmapCache],
                by simp only [assignFramebuffer_state, clearGBuffer_state]⟩
  · have hd' : frame.viewportDirty = false := by simpa using hd
    simp only [hd', Bool.not_false, if_true]
    exact ⟨Or.inl ⟨AllOk.nil complete, trivial⟩, trivial, trivial, trivial⟩

/-! ## The per-frame loops over the caches -/

/-- `GetOrAllocate` on a backend whose caches satisfy the invariant: besides
`BackendInv.getOrAllocateHandle`, only the caches change and no light loses its
shadow map. -/
theorem BackendInv.getOrAllocate_step {rp vp : List TextureHandle} {b : RendererBackend}
    (hinv : BackendInv rp vp b) (light : LightPtr) :
    ∃ h b1, b._GetOrAllocateShadowMapHandleForLight light = some (h, b1) ∧
      b._GetOrAllocateShadowMapForLight light = some (h, b1) ∧
      h ∈ poolFor rp vp light ∧ BackendInv rp vp b1 ∧ CacheStep b b1 ∧
      b1._ShadowMapExistsForLight light = true ∧
      ∀ k, b._ShadowMapExistsForLight k = true → b1._ShadowMapExistsForLight k = true := by
  obtain ⟨h, b1, hg, hgm, hmem, hinv1, hex⟩ := hinv.getOrAllocateHandle light
  refine ⟨h, b1, hg, hgm, hmem, hinv1, b.getOrAllocate_samePools b1 light h hg, hex, ?_⟩
  intro k hk
  by_cases hkl : k = light
  · rw [hkl]; exact hex
  · obtain ⟨hpool, hc⟩ := hinv.cacheFor light
    unfold RendererBackend._GetOrAllocateShadowMapHandleForLight at hg
    cases hgc : ShadowMapCache._GetOrAllocateShadowMapHandleForLight
        (b._GetSmapCacheForLight light) light with
    | none => rw [hgc] at hg; cases hg
    | some r =>
      obtain ⟨h2, cache1⟩ := r
      rw [hgc] at hg
      simp only [Option.some.injEq, Prod.mk.injEq] at hg
      obtain ⟨-, hb1⟩ := hg
      subst hb1
      unfold RendererBackend._ShadowMapExistsForLight at hk ⊢
      by_cases hsame : k.isVirtual = light.isVirtual
      · have hget : ∀ (bb : RendererBackend), bb._GetSmapCacheForLight k
            = bb._GetSmapCacheForLight light := by
          intro bb
          simp only [RendererBackend._GetSmapCacheForLight, hsame]
        rw [hget, b.get_set]
        rw [hget] at hk
        unfold ShadowMapCache._ShadowMapExistsForLight at hk ⊢
        obtain ⟨v, hv⟩ := Option.isSome_iff_exists.mp hk
        have hstep : Stratus.stepOp (b._GetSmapCacheForLight light)
            (CacheOp.getOrAllocate light) = some cache1 := by
          simp only [Stratus.stepOp, hgc]
        rw [stepOp_entry hpool hc k v hv (CacheOp.getOrAllocate light) (by simp) hstep]
        rfl
      · have hother : (b.setSmapCacheForLight light cache1)._GetSmapCacheForLight k
            = b._GetSmapCacheForLight k := by
          unfold RendererBackend.setSmapCacheForLight RendererBackend._GetSmapCacheForLight
          by_cases hl : light.isVirtual = true
          · have hkv : k.isVirtual = false := by
              cases hkk : k.isVirtual
              · rfl
              · exact absurd (hkk.trans hl.symm) hsame
            simp [hl, hkv]
          · have hl' : light.isVirtual = false := by simpa using hl
            have hkv : k.isVirtual = true := by
              cases hkk : k.isVirtual
              · exact absurd (hkk.trans hl'.symm) hsame
              · rfl
            simp [hl', hkv]
        rw [hother]
        exact hk

/-- The drain loop on a backend whose caches satisfy the invariant: it returns,
having taken the first `fuel` lights from the queue (all of them when there
are fewer) and rendered a shadow map, in this order, for those of them that
cast shadows. -/
theorem BackendInv.drain {rp vp : List TextureHandle} (casts : LightPtr → Bool) (fuel : Nat) :
    ∀ {b : RendererBackend} (queue : List LightPtr), BackendInv rp vp b →
      ∃ rendered b1,
        RendererBackend.drainShadowUpdates casts fuel b queue
          = some (rendered, b1, queue.drop fuel) ∧
        BackendInv rp vp b1 ∧ CacheStep b b1 ∧
        rendered.map Prod.fst = (queue.take fuel).filter (fun l => casts l) ∧
        (∀ r ∈ rendered, r.2 ∈ poolFor rp vp r.1 ∧ b1._ShadowMapExistsForLight r.1 = true) ∧
        ∀ k, b._ShadowMapExistsForLight k = true → b1._ShadowMapExistsForLight k = true := by
  induction fuel with
  | zero =>
    intro b queue hinv
    exact ⟨[], b, by cases queue <;> rfl, hinv, CacheStep.stay b, rfl,
      (by intro r hr; cases hr), fun _ hk => hk⟩
  | succ fuel ih =>
    intro b queue hinv
    cases queue with
    | nil =>
      exact ⟨[], b, rfl, hinv, CacheStep.stay b, rfl, (by intro r hr; cases hr), fun _ hk => hk⟩
    | cons light queue =>
      by_cases hc : casts light = true
      · obtain ⟨h, b1, -, hgm, hmem, hinv1, hstep1, hex1, hkeep1⟩ := hinv.getOrAllocate_step light
        obtain ⟨rendered, b2, hd, hinv2, hstep2, hmap, hres, hkeep2⟩ := ih queue hinv1
        refine ⟨(light, h) :: rendered, b2, ?_, hinv2, hstep1.andThen hstep2, ?_, ?_, ?_⟩
        · simp only [RendererBackend.drainShadowUpdates, hc, Bool.not_true, Bool.false_eq_true,
            if_false, hgm, hd, List.drop_succ_cons]
        · simp only [List.map_cons, hmap, List.take_succ_cons, List.filter_cons, hc, if_true]
        · intro r hr
          rcases List.mem_cons.mp hr with h1 | h1
          · subst h1
            exact ⟨hmem, hkeep2 _ hex1⟩
          · exact hres r h1
        · exact fun k hk => hkeep2 k (hkeep1 k hk)
      · have hc' : casts light = false := by simpa using hc
        obtain ⟨rendered, b2, hd, hinv2, hstep2, hmap, hres, hkeep2⟩ := ih queue hinv
        refine ⟨rendered, b2, ?_, hinv2, hstep2, ?_, hres, hkeep2⟩
        · simp only [RendererBackend.drainShadowUpdates, hc', Bool.not_false, if_true, hd,
            List.drop_succ_cons]
        · simp only [hmap, List.take_succ_cons, List.filter_cons, hc', Bool.false_eq_true,
            if_false]

/-- The loop of `_PerformVirtualPointLightCulling` on a backend whose caches
satisfy the invariant. -/
theorem BackendInv.vplShadowMaps {rp vp : List TextureHandle}
    (lights : List (LightPtr × Nat)) :
    ∀ {b : RendererBackend}, BackendInv rp vp b →
      ∃ hs b1, RendererBackend.vplShadowMaps lights b = some (hs, b1) ∧
        BackendInv rp vp b1 ∧ CacheStep b b1 ∧ hs.length = lights.length := by
  induction lights with
  | nil =>
    intro b hinv
    exact ⟨[], b, rfl, hinv, CacheStep.stay b, rfl⟩
  | cons e lights ih =>
    intro b hinv
    obtain ⟨light, d⟩ := e
    obtain ⟨h, b1, -, hgm, -, hinv1, hstep1, -, -⟩ := hinv.getOrAllocate_step light
    obtain ⟨hs, b2, hv, hinv2, hstep2, hlen⟩ := ih hinv1
    refine ⟨h :: hs, b2, ?_, hinv2, hstep1.andThen hstep2, by simp [hlen]⟩
    simp only [RendererBackend.vplShadowMaps, hgm, hv]

/-- The loop of `_InitLights` over regular lights, on a backend whose caches
satisfy the invariant: it returns; the lights `written` that it adds are, in the
order of the vector, the lights that cast no shadows and the first
`maxShadowLights - shadowLightIndex` lights that do. -/
theorem BackendInv.initLightsLoop {rp vp : List TextureHandle} (casts : LightPtr → Bool)
    (maxShadowLights : Nat) (lights : List (LightPtr × Nat)) :
    ∀ {b : RendererBackend} (u : LightUniforms), BackendInv rp vp b →
      (∀ e ∈ lights, e.1.isVirtual = false) →
      u.shadowLights.map Prod.fst = u.lights.filter (fun l => casts l) →
      ∃ u1 b1 written,
        RendererBackend.initLightsLoop casts maxShadowLights lights u b = some (u1, b1) ∧
        BackendInv rp vp b1 ∧ CacheStep b b1 ∧
        u1.lights = u.lights ++ written ∧
        written.Sublist (lights.map Prod.fst) ∧
        written.filter (fun l => !casts l) = (lights.map Prod.fst).filter (fun l => !casts l) ∧
        written.filter (fun l => casts l) =
          ((lights.map Prod.fst).filter (fun l => casts l)).take
            (maxShadowLights - u.shadowLights.length) ∧
        u1.shadowLights.map Prod.fst = u1.lights.filter (fun l => casts l) := by
  induction lights with
  | nil =>
    intro b u hinv _ hu
    exact ⟨u, b, [], rfl, hinv, CacheStep.stay b, by simp, List.Sublist.refl _, rfl, by simp, hu⟩
  | cons e lights ih =>
    intro b u hinv hreg hu
    obtain ⟨light, d⟩ := e
    have hl : light.isVirtual = false := hreg (light, d) (List.mem_cons_self _ _)
    have hreg' : ∀ e ∈ lights, e.1.isVirtual = false :=
      fun e he => hreg e (List.mem_cons_of_mem _ he)
    by_cases hc : casts light = true
    · by_cases hfull : u.shadowLights.length ≥ maxShadowLights
      · obtain ⟨u1, b1, w, hrun, hinv1, hstep, hw, hsub, hno, hyes, hu1⟩ := ih u hinv hreg' hu
        refine ⟨u1, b1, w, ?_, hinv1, hstep, hw, hsub.cons _, ?_, ?_, hu1⟩
        · simp only [RendererBackend.initLightsLoop, hl, Bool.false_eq_true, if_false, hc,
            if_true, hfull, hrun]
        · simp only [List.map_cons, List.filter_cons, hc, Bool.not_true, Bool.false_eq_true,
            if_false, hno]
        · have h0 : maxShadowLights - u.shadowLights.length = 0 := Nat.sub_eq_zero_of_le hfull
          rw [h0] at hyes ⊢
          simp only [List.take_zero] at hyes ⊢
          exact hyes
      · obtain ⟨h, b1, hg, -, -, hinv1, hstep1, -, -⟩ := hinv.getOrAllocate_step light
        have hu' : ({ lights := u.lights ++ [light],
                      shadowLights := u.shadowLights ++ [(light, h)] } :
            LightUniforms).shadowLights.map Prod.fst
            = ({ lights := u.lights ++ [light],
                 shadowLights := u.shadowLights ++ [(light, h)] } :
            LightUniforms).lights.filter (fun l => casts l) := by
          simp only [List.map_append, List.map_cons, List.map_nil, hu, List.filter_append,
            List.filter_cons, hc, if_true, List.filter_nil]
        obtain ⟨u1, b2, w, hrun, hinv2, hstep2, hw, hsub, hno, hyes, hu1⟩ :=
          ih _ hinv1 hreg' hu'
        refine ⟨u1, b2, light :: w, ?_, hinv2, hstep1.andThen hstep2, ?_, hsub.cons₂ _, ?_, ?_,
          hu1⟩
        · simp only [RendererBackend.initLightsLoop, hl, Bool.false_eq_true, if_false, hc,
            if_true, hfull, hg, hrun]
        · rw [hw]
          simp only [List.append_assoc, List.singleton_append]
        · simp only [List.map_cons, List.filter_cons, hc, Bool.not_true, Bool.false_eq_true,
            if_false, hno]
        · have hlen : maxShadowLights - u.shadowLights.length
              = (maxShadowLights - (u.shadowLights ++ [(light, h)]).length) + 1 := by
            simp only [List.length_append, List.length_singleton]
            omega
          rw [hlen]
          simp only [List.map_cons, List.filter_cons, hc, if_true, List.take_succ_cons, hyes]
    · have hc' : casts light = false := by simpa using hc
      have hu' : ({ u with lights := u.lights ++ [light] } : LightUniforms).shadowLights.map
          Prod.fst
          = ({ u with lights := u.lights ++ [light] } : LightUniforms).lights.filter
              (fun l => casts l) := by
        simp only [hu, List.filter_append, List.filter_cons, hc', Bool.false_eq_true, if_false,
          List.filter_nil, List.append_nil]
      obtain ⟨u1, b1, w, hrun, hinv1, hstep, hw, hsub, hno, hyes, hu1⟩ := ih _ hinv hreg' hu'
      refine ⟨u1, b1, light :: w, ?_, hinv1, hstep, ?_, hsub.cons₂ _, ?_, ?_, hu1⟩
      · simp only [RendererBackend.initLightsLoop, hl, Bool.false_eq_true, if_false, hc', hrun]
      · rw [hw]
        simp only [List.append_assoc, List.singleton_append]
      · simp only [List.map_cons, List.filter_cons, hc', Bool.not_false, if_true, hno]
      · simp only [List.map_cons, List.filter_cons, hc', Bool.false_eq_true, if_false]
        exact hyes

/-! ## The light vectors of a frame (C13) -/

theorem truncate_eq_take (l : List (LightPtr × Nat)) (max : Nat) :
    RendererBackend.truncate l max = l.take max := by
  unfold RendererBackend.truncate
  by_cases h : l.length > max
  · simp only [h, if_true]
  · simp only [h, if_false]
    exact (List.take_of_length_le (Nat.le_of_not_gt h)).symm

theorem sortByDistance_perm (l : List (LightPtr × Nat)) :
    List.Perm (RendererBackend.sortByDistance l) l :=
  List.perm_insertionSort _ l

theorem sortByDistance_sorted (l : List (LightPtr × Nat)) :
    (RendererBackend.sortByDistance l).Pairwise (fun a b => a.2 ≤ b.2) := by
  have hs := @List.sorted_insertionSort (LightPtr × Nat) (fun a b => a.2 ≤ b.2) _
    ⟨fun a b => Nat.le_total a.2 b.2⟩ ⟨fun _ _ _ h1 h2 => Nat.le_trans h1 h2⟩ l
  exact hs

/-- A sorted and truncated vector of `_UpdatePointLights` built from the lights
that satisfy `p`: its entries are lights of the frame that satisfy `p`, with
their distances, in ascending order of distance. -/
theorem mem_lightVector (frame : RendererFrame) (p : LightPtr → Bool) (max : Nat)
    (e : LightPtr × Nat)
    (he : e ∈ RendererBackend.truncate (RendererBackend.sortByDistance
      ((frame.lights.filter p).map (fun light => (light, frame.distance light)))) max) :
    e.1 ∈ frame.lights ∧ p e.1 = true ∧ e.2 = frame.distance e.1 := by
  rw [truncate_eq_take] at he
  have h1 := (sortByDistance_perm _).subset (List.mem_of_mem_take he)
  obtain ⟨l, hl, rfl⟩ := List.mem_map.mp h1
  have h2 := List.mem_filter.mp hl
  exact ⟨h2.1, h2.2, rfl⟩

/-- When the lights that satisfy `p` are at most `max`, the vector holds all of
them. -/
theorem lightVector_complete (frame : RendererFrame) (p : LightPtr → Bool) (max : Nat)
    (hmax : (frame.lights.filter p).length ≤ max) (l : LightPtr) (hl : l ∈ frame.lights)
    (hp : p l = true) :
    l ∈ (RendererBackend.truncate (RendererBackend.sortByDistance
      ((frame.lights.filter p).map (fun light => (light, frame.distance light)))) max).map
        Prod.fst := by
  rw [truncate_eq_take, List.take_of_length_le]
  · refine List.mem_map.mpr ⟨(l, frame.distance l), ?_, rfl⟩
    exact (sortByDistance_perm _).symm.subset
      (List.mem_map.mpr ⟨l, List.mem_filter.mpr ⟨hl, hp⟩, rfl⟩)
  · rw [(sortByDistance_perm _).length_eq, List.length_map]
    exact hmax

/-- The lights that satisfy `p` at pairwise distinct distances, more than `max` of
them: the vector has `max` entries, in strictly ascending order of distance, and
every entry is nearer than every light satisfying `p` that is not in the
vector. -/
theorem lightVector_nearest (frame : RendererFrame) (p : LightPtr → Bool) (max : Nat)
    (hdist : ((frame.lights.filter p).map frame.distance).Nodup)
    (hmore : (frame.lights.filter p).length > max) :
    (RendererBackend.truncate (RendererBackend.sortByDistance
      ((frame.lights.filter p).map (fun light => (light, frame.distance light)))) max).length
      = max ∧
    (RendererBackend.truncate (RendererBackend.sortByDistance
      ((frame.lights.filter p).map (fun light => (light, frame.distance light)))) max).Pairwise
      (fun a b => a.2 < b.2) ∧
    ∀ e ∈ RendererBackend.truncate (RendererBackend.sortByDistance
      ((frame.lights.filter p).map (fun light => (light, frame.distance light)))) max,
      ∀ l ∈ frame.lights, p l = true →
        l ∉ (RendererBackend.truncate (RendererBackend.sortByDistance
          ((frame.lights.filter p).map (fun light => (light, frame.distance light))))
            max).map Prod.fst →
        e.2 < frame.distance l := by
  rw [truncate_eq_take]
  have hperm := sortByDistance_perm
    ((frame.lights.filter p).map (fun light => (light, frame.distance light)))
  have hsorted := sortByDistance_sorted
    ((frame.lights.filter p).map (fun light => (light, frame.distance light)))
  generalize RendererBackend.sortByDistance
    ((frame.lights.filter p).map (fun light => (light, frame.distance light))) = S
    at hperm hsorted ⊢
  have hlen : S.length = (frame.lights.filter p).length := by
    rw [hperm.length_eq, List.length_map]
  have hnd : (S.map Prod.snd).Nodup := by
    have h1 : List.Perm (S.map Prod.snd) ((frame.lights.filter p).map frame.distance) := by
      have := hperm.map Prod.snd
      simpa [List.map_map, Function.comp] using this
    exact h1.nodup_iff.mpr hdist
  have hstrict : S.Pairwise (fun a b => a.2 < b.2) := by
    have h1 : (S.map Prod.snd).Pairwise (· ≤ ·) := List.pairwise_map.mpr hsorted
    have h2 : (S.map Prod.snd).Pairwise (· < ·) := List.Sorted.lt_of_le h1 hnd
    exact List.pairwise_map.mp h2
  refine ⟨?_, hstrict.sublist (List.take_sublist _ _), ?_⟩
  · rw [List.length_take, hlen]
    exact Nat.min_eq_left (Nat.le_of_lt hmore)
  · intro e he l hl hp hnot
    have hmem : (l, frame.distance l) ∈ S :=
      hperm.symm.subset (List.mem_map.mpr ⟨l, List.mem_filter.mpr ⟨hl, hp⟩, rfl⟩)
    rw [← List.take_append_drop max S] at hmem hstrict
    rcases List.mem_append.mp hmem with h1 | h1
    · exact absurd (List.mem_map.mpr ⟨_, h1, rfl⟩) hnot
    · exact (List.pairwise_append.mp hstrict).2.2 e he _ h1

/-! ## A frame of `RenderScene` (C14, C15, C17, C19) -/

theorem perLight_regular (b : RendererBackend) (frame : RendererFrame) :
    ∀ e ∈ (RendererBackend.buildLightLists b frame).perLightDistToViewer,
      e.1.isVirtual = false := by
  intro e he
  have := mem_lightVector frame (fun l => !l.isVirtual) _ e he
  simpa using this.2.1

/-- `_InitLights` on a backend whose caches satisfy the invariant, for a vector of
regular lights and a frame with a cascade. -/
theorem BackendInv.initLights {rp vp : List TextureHandle} {b : RendererBackend}
    (hinv : BackendInv rp vp b) (frame : RendererFrame) (lights : List (LightPtr × Nat))
    (maxShadowLights : Nat) (hreg : ∀ e ∈ lights, e.1.isVirtual = false)
    (hcascades : 1 ≤ frame.cascades) :
    ∃ u b1, b._InitLights frame lights maxShadowLights = some (u, b1) ∧
      BackendInv rp vp b1 ∧ CacheStep b b1 ∧
      u.lights.Sublist (lights.map Prod.fst) ∧
      u.lights.filter (fun l => !frame.castsShadows l)
        = (lights.map Prod.fst).filter (fun l => !frame.castsShadows l) ∧
      u.lights.filter (fun l => frame.castsShadows l)
        = ((lights.map Prod.fst).filter (fun l => frame.castsShadows l)).take
            maxShadowLights ∧
      u.shadowLights.map Prod.fst = u.lights.filter (fun l => frame.castsShadows l) := by
  obtain ⟨u, b1, w, hrun, hinv1, hstep, hw, hsub, hno, hyes, hu⟩ :=
    BackendInv.initLightsLoop frame.castsShadows maxShadowLights lights
      { lights := [], shadowLights := [] } hinv hreg rfl
  simp only [List.nil_append] at hw
  subst hw
  have hc : ¬ frame.cascades = 0 := by omega
  have hinit : b._InitLights frame lights maxShadowLights = some (u, b1) := by
    simp only [RendererBackend._InitLights, hrun, RendererBackend._InitCoreCSMData, hc, if_false]
  exact ⟨u, b1, hinit, hinv1, hstep, hsub, hno, by simpa using hyes, hu⟩

/-- On a renderable backend the calls on the framebuffer members are defined. -/
theorem Renderable.uses {b : RendererBackend} {frame : RendererFrame} (h : Renderable b frame)
    (ids : List FboId)
    (hsub : ∀ id ∈ ids, id ∈ [FboId.gBuffer, FboId.lighting, FboId.ssaoOcclusion,
      FboId.ssaoOcclusionBlurred, FboId.vplGI, FboId.atmospheric, FboId.atmosphericPostFx,
      FboId.fxaa1, FboId.fxaa2]) :
    b.useFramebuffers ids = some () := by
  unfold RendererBackend.useFramebuffers
  rw [if_pos]
  intro id hid
  exact h.2.2.1 id (hsub id hid)

/-- The passes before the lighting pass, on a renderable backend. -/
theorem Renderable.geometryPasses {b : RendererBackend} {frame : RendererFrame}
    (h : Renderable b frame) :
    b.geometryPasses frame = some ([RenderPass.geometry, RenderPass.ssaoOcclude,
      RenderPass.ssaoBlur] ++
      (if frame.worldLightEnabled then [RenderPass.atmosphericShadowing] else [])) := by
  have h1 := h.uses [FboId.gBuffer] (by simp)
  have h2 := h.uses [FboId.ssaoOcclusion] (by simp)
  have h3 := h.uses [FboId.ssaoOcclusionBlurred] (by simp)
  have h4 := h.uses [FboId.atmospheric] (by simp)
  unfold RendererBackend.geometryPasses RendererBackend.geometryPass
    RendererBackend._RenderSsaoOcclude RendererBackend._RenderSsaoBlur
    RendererBackend._RenderAtmosphericShadowing
  rw [h1, h2, h3, h4]
  by_cases hw : frame.worldLightEnabled = true
  · have hc : ¬ frame.cascades < 4 := Nat.not_lt.mpr (h.2.1 hw)
    simp [hw, hc]
  · simp [hw]

/-- The passes after the VPL passes, on a renderable backend. -/
theorem Renderable.closingPasses {b : RendererBackend} {frame : RendererFrame}
    (h : Renderable b frame) :
    b.closingPasses frame = some ([RenderPass.depthCopy, RenderPass.skybox,
      RenderPass.flatForward, RenderPass.bloom] ++
      (if frame.worldLightEnabled then [RenderPass.atmosphericPostFx] else []) ++
      [RenderPass.fxaaLuminance, RenderPass.fxaaSmoothing, RenderPass.finalize]) := by
  have h1 := h.uses [FboId.lighting, FboId.gBuffer] (by simp)
  have h2 := h.uses [FboId.atmosphericPostFx] (by simp)
  have h3 := h.uses [FboId.fxaa1, FboId.fxaa2] (by simp)
  have h4 : b.bloomPass = some [RenderPass.bloom] := by
    unfold RendererBackend.bloomPass
    rw [if_pos h.2.2.2]
  unfold RendererBackend.closingPasses RendererBackend.forwardPasses
    RendererBackend._PerformPostFxProcessing RendererBackend._PerformAtmosphericPostFx
    RendererBackend._PerformFxaaPostFx
  rw [h1, h2, h3, h4]
  by_cases hw : frame.worldLightEnabled = true
  · simp [hw]
  · simp [hw]

/-- The VPL passes on a renderable backend whose caches satisfy the invariant. -/
theorem BackendInv.vplStep {rp vp : List TextureHandle} {b : RendererBackend}
    (hinv : BackendInv rp vp b) (frame : RendererFrame) (hready : Renderable b frame)
    (lights : List (LightPtr × Nat)) :
    ∃ b1, b.vplStep frame lights = some
        ((if frame.worldLightEnabled && frame.globalIlluminationEnabled &&
            decide (lights ≠ []) then
          [RenderPass.vplCulling, RenderPass.vplGlobalIllumination] else []), b1) ∧
      BackendInv rp vp b1 ∧ CacheStep b b1 := by
  have hc : ¬ frame.cascades = 0 := by have := hready.1; omega
  by_cases hgi : (frame.worldLightEnabled && frame.globalIlluminationEnabled) = true
  · by_cases hv : lights = []
    · refine ⟨b, ?_, hinv, CacheStep.stay b⟩
      subst hv
      simp [RendererBackend.vplStep, hgi, RendererBackend._PerformVirtualPointLightCulling,
        RendererBackend._ComputeVirtualPointLightGlobalIllumination]
    · have hlen : ¬ lights.length = 0 := by
        simpa [List.length_eq_zero] using hv
      obtain ⟨hs, b3, hvs, hinv3, hstep3, -⟩ := BackendInv.vplShadowMaps lights hinv
      have huse := (hready.afterStep hstep3).uses [FboId.vplGI, FboId.lighting] (by simp)
      refine ⟨b3, ?_, hinv3, hstep3⟩
      simp only [RendererBackend.vplStep, hgi, if_true,
        RendererBackend._PerformVirtualPointLightCulling, hlen, if_false, hvs,
        RendererBackend._InitCoreCSMData, hc,
        RendererBackend._ComputeVirtualPointLightGlobalIllumination, huse]
      simp [hv]
  · refine ⟨b, ?_, hinv, CacheStep.stay b⟩
    simp [RendererBackend.vplStep, hgi]

/-- A frame of `RenderScene` on a renderable backend whose caches satisfy the
invariant, the frame having at most six cascades when the world light is
enabled: the call returns, and the trace is as follows. -/
theorem BackendInv.renderScene {rp vp : List TextureHandle} {b : RendererBackend}
    (hinv : BackendInv rp vp b) (frame : RendererFrame)
    (hcsm : frame.worldLightEnabled = true → frame.cascades ≤ 6)
    (hready : Renderable b frame) :
    ∃ trace b1,
      b.RenderScene frame = some (trace, b1,
        (RendererBackend.enqueueShadowUpdates b (RendererBackend.buildLightLists b frame)
          frame.lightsToUpate).drop b.state.maxShadowUpdatesPerFrame) ∧
      BackendInv rp vp b1 ∧ CacheStep b b1 ∧
      trace.lists = RendererBackend.buildLightLists b frame ∧
      trace.shadowMapsRendered.map Prod.fst =
        ((RendererBackend.enqueueShadowUpdates b (RendererBackend.buildLightLists b frame)
          frame.lightsToUpate).take b.state.maxShadowUpdatesPerFrame).filter
            (fun l => frame.castsShadows l) ∧
      trace.passes = framePasses frame
        (decide ((RendererBackend.buildLightLists b frame).perVPLDistToViewer ≠ [])) ∧
      trace.uniforms.lights.Sublist
        ((RendererBackend.buildLightLists b frame).perLightDistToViewer.map Prod.fst) ∧
      trace.uniforms.lights.filter (fun l => !frame.castsShadows l)
        = ((RendererBackend.buildLightLists b frame).perLightDistToViewer.map Prod.fst).filter
            (fun l => !frame.castsShadows l) ∧
      trace.uniforms.lights.filter (fun l => frame.castsShadows l)
        = (((RendererBackend.buildLightLists b frame).perLightDistToViewer.map
            Prod.fst).filter (fun l => frame.castsShadows l)).take
              b.state.maxShadowCastingLightsPerFrame := by
  obtain ⟨rendered, b1, hd, hinv1, hstep1, hmap, -, -⟩ :=
    BackendInv.drain frame.castsShadows b.state.maxShadowUpdatesPerFrame
      (RendererBackend.enqueueShadowUpdates b (RendererBackend.buildLightLists b frame)
        frame.lightsToUpate) hinv
  have hupd : b._UpdatePointLights frame = some (RendererBackend.buildLightLists b frame,
      rendered, b1,
      (RendererBackend.enqueueShadowUpdates b (RendererBackend.buildLightLists b frame)
        frame.lightsToUpate).drop b.state.maxShadowUpdatesPerFrame) := by
    simp only [RendererBackend._UpdatePointLights, hd]
  have hready1 := hready.afterStep hstep1
  obtain ⟨u, b2, hinit, hinv2, hstep2, hsub, hno, hyes, -⟩ :=
    hinv1.initLights frame (RendererBackend.buildLightLists b frame).perLightDistToViewer
      b1.state.maxShadowCastingLightsPerFrame (perLight_regular b frame) hready.1
  have hready2 := hready1.afterStep hstep2
  have hlight : b1.lightingPass frame (RendererBackend.buildLightLists b frame).perLightDistToViewer
      = some ([RenderPass.deferredLighting], u, b2) := by
    simp only [RendererBackend.lightingPass, hready1.uses [FboId.lighting] (by simp), hinit]
  rw [hstep1.2.1] at hyes
  obtain ⟨b3, hgiEq, hinv3, hstep3⟩ :=
    hinv2.vplStep frame hready2 (RendererBackend.buildLightLists b frame).perVPLDistToViewer
  have hready3 := hready2.afterStep hstep3
  have hcsmEq : RendererBackend.csmDepthStep frame
      = some (if frame.worldLightEnabled then [RenderPass.csmDepth] else []) := by
    unfold RendererBackend.csmDepthStep
    by_cases hw : frame.worldLightEnabled = true
    · have hc6 : ¬ frame.cascades > 6 := Nat.not_lt.mpr (hcsm hw)
      simp only [hw, if_true, RendererBackend._RenderCSMDepth, hc6, if_false]
    · simp [hw]
  have hscene : b.RenderScene frame = some (⟨framePasses frame
      (decide ((RendererBackend.buildLightLists b frame).perVPLDistToViewer ≠ [])),
      rendered, RendererBackend.buildLightLists b frame, u⟩, b3,
      (RendererBackend.enqueueShadowUpdates b (RendererBackend.buildLightLists b frame)
        frame.lightsToUpate).drop b.state.maxShadowUpdatesPerFrame) := by
    simp only [RendererBackend.RenderScene, hupd, hcsmEq, hready1.geometryPasses, hlight, hgiEq,
      hready3.closingPasses, framePasses]
    by_cases hw : frame.worldLightEnabled = true
    · simp [hw]
    · simp [hw]
  exact ⟨_, b3, hscene, hinv3, (hstep1.andThen hstep2).andThen hstep3, rfl, hmap, rfl, hsub,
    hno, hyes⟩

/-- Whenever the drain loop returns, only the contents of the caches have
changed. -/
theorem drain_cacheStep (castsShadows : LightPtr → Bool) (fuel : Nat) :
    ∀ (b b1 : RendererBackend) (queue queue1 : List LightPtr)
      (rendered : List (LightPtr × TextureHandle)),
      RendererBackend.drainShadowUpdates castsShadows fuel b queue
        = some (rendered, b1, queue1) → CacheStep b b1 := by
  induction fuel with
  | zero =>
    intro b b1 queue queue1 rendered h
    simp only [RendererBackend.drainShadowUpdates, Option.some.injEq, Prod.mk.injEq] at h
    rw [← h.2.1]
    exact CacheStep.stay b
  | succ fuel ih =>
    intro b b1 queue queue1 rendered h
    cases queue with
    | nil =>
      simp only [RendererBackend.drainShadowUpdates, Option.some.injEq, Prod.mk.injEq] at h
      rw [← h.2.1]
      exact CacheStep.stay b
    | cons light queue =>
      simp only [RendererBackend.drainShadowUpdates] at h
      split at h
      · exact ih _ _ _ _ _ h
      · split at h
        · cases h
        · rename_i hh b2 hg
          split at h
          · cases h
          · rename_i r2 b3 q3 hrest
            cases h
            exact CacheStep.andThen (b.getOrAllocateMap_samePools _ light _ hg)
              (ih _ _ _ _ _ hrest)

/-- Whenever the loop of `_InitLights` returns, only the contents of the caches
have changed. -/
theorem initLightsLoop_cacheStep (castsShadows : LightPtr → Bool) (maxShadowLights : Nat)
    (lights : List (LightPtr × Nat)) :
    ∀ (u u1 : LightUniforms) (b b1 : RendererBackend),
      RendererBackend.initLightsLoop castsShadows maxShadowLights lights u b = some (u1, b1) →
      CacheStep b b1 := by
  induction lights with
  | nil =>
    intro u u1 b b1 h
    simp only [RendererBackend.initLightsLoop, Option.some.injEq, Prod.mk.injEq] at h
    rw [← h.2]
    exact CacheStep.stay b
  | cons e lights ih =>
    intro u u1 b b1 h
    obtain ⟨light, d⟩ := e
    simp only [RendererBackend.initLightsLoop] at h
    split at h
    · exact ih _ _ _ _ h
    · split at h
      · split at h
        · exact ih _ _ _ _ h
        · split at h
          · cases h
          · rename_i hh b2 hg
            exact CacheStep.andThen (b.getOrAllocate_samePools _ light _ hg) (ih _ _ _ _ h)
      · exact ih _ _ _ _ h

/-- Whenever the handle loop of the VPL culling returns, only the contents of the
caches have changed. -/
theorem vplShadowMaps_cacheStep (lights : List (LightPtr × Nat)) :
    ∀ (b b1 : RendererBackend) (hs : List TextureHandle),
      RendererBackend.vplShadowMaps lights b = some (hs, b1) → CacheStep b b1 := by
  induction lights with
  | nil =>
    intro b b1 hs h
    simp only [RendererBackend.vplShadowMaps, Option.some.injEq, Prod.mk.injEq] at h
    rw [← h.2]
    exact CacheStep.stay b
  | cons e lights ih =>
    intro b b1 hs h
    obtain ⟨light, d⟩ := e
    simp only [RendererBackend.vplShadowMaps] at h
    split at h
    · cases h
    · rename_i hh b2 hg
      split at h
      · cases h
      · rename_i hs2 b3 hrest
        cases h
        exact CacheStep.andThen (b.getOrAllocateMap_samePools _ light _ hg) (ih _ _ _ hrest)

/-- Whenever `RenderScene` returns, only the contents of the caches have changed:
the pools, the constants, the validity flag and the members of the viewport
(re)allocation are as before. -/
theorem renderScene_cacheStep {b b1 : RendererBackend} {frame : RendererFrame}
    {trace : FrameTrace} {queue : List LightPtr}
    (h : b.RenderScene frame = some (trace, b1, queue)) : CacheStep b b1 := by
  unfold RendererBackend.RenderScene at h
  split at h
  · cases h
  · rename_i lists rendered b2 queue2 hupd
    have hstep1 : CacheStep b b2 := by
      unfold RendererBackend._UpdatePointLights at hupd
      dsimp only at hupd
      split at hupd
      · cases hupd
      · rename_i r3 b3 q3 hd
        cases hupd
        exact drain_cacheStep _ _ _ _ _ _ _ hd
    split at h
    · cases h
    · split at h
      · cases h
      · split at h
        · cases h
        · rename_i lighting uniforms b4 hlight
          have hstep2 : CacheStep b2 b4 := by
            unfold RendererBackend.lightingPass at hlight
            split at hlight
            · cases hlight
            · split at hlight
              · cases hlight
              · rename_i u5 b5 hinit
                cases hlight
                unfold RendererBackend._InitLights at hinit
                split at hinit
                · cases hinit
                · rename_i r6 hloop
                  split at hinit
                  · cases hinit
                  · cases hinit
                    exact initLightsLoop_cacheStep _ _ _ _ _ _ _ hloop
          split at h
          · cases h
          · rename_i gi b7 hvpl
            have hstep3 : CacheStep b4 b7 := by
              unfold RendererBackend.vplStep at hvpl
              split at hvpl
              · split at hvpl
                · cases hvpl
                · rename_i culling hs8 b8 hcull
                  split at hvpl
                  · cases hvpl
                  · cases hvpl
                    unfold RendererBackend._PerformVirtualPointLightCulling at hcull
                    split at hcull
                    · cases hcull
                      exact CacheStep.stay _
                    · split at hcull
                      · cases hcull
                      · rename_i hs9 b9 hmaps
                        split at hcull
                        · cases hcull
                        · cases hcull
                          exact vplShadowMaps_cacheStep _ _ _ _ hmaps
              · cases hvpl
                exact CacheStep.stay _
            split at h
            · cases h
            · cases h
              exact (hstep1.andThen hstep2).andThen hstep3

theorem clearRemovedLightData_step (lights : List LightPtr) :
    ∀ (b : RendererBackend),
      CacheStep b (lights.foldl (fun acc light => acc._RemoveLightFromShadowMapCache light) b) := by
  induction lights with
  | nil => intro b; exact CacheStep.stay b
  | cons light lights ih =>
    intro b
    exact CacheStep.andThen (b.remove_samePools light) (ih _)

theorem BackendInv.clearRemovedLightData {rp vp : List TextureHandle} (lights : List LightPtr) :
    ∀ {b : RendererBackend}, BackendInv rp vp b →
      BackendInv rp vp
        (lights.foldl (fun acc light => acc._RemoveLightFromShadowMapCache light) b) := by
  induction lights with
  | nil => intro b hinv; exact hinv
  | cons light lights ih =>
    intro b hinv
    exact ih (hinv.remove light)

/-- What `Begin` returns when it returns: the framebuffers of the cascade and
viewport (re)allocations, and the backend of the viewport (re)allocation. -/
theorem begin_some {complete : FboId → Bool} {b : RendererBackend} {frame : RendererFrame}
    {clearScreen : Bool} {r : List FboId × RendererBackend}
    (h : RendererBackend.Begin complete b frame clearScreen = some r) :
    r = (RendererBackend._RecalculateCascadeData frame ++
          (RendererBackend._UpdateWindowDimensions complete frame
            (b._ClearRemovedLightData frame)).1,
         (RendererBackend._UpdateWindowDimensions complete frame
            (b._ClearRemovedLightData frame)).2) := by
  unfold RendererBackend.Begin at h
  dsimp only at h
  split at h
  · cases h
  · cases h
    rfl

/-- `Begin` without clearing of the screen returns. -/
theorem begin_noClear (complete : FboId → Bool) (b : RendererBackend) (frame : RendererFrame) :
    RendererBackend.Begin complete b frame false =
      some (RendererBackend._RecalculateCascadeData frame ++
          (RendererBackend._UpdateWindowDimensions complete frame
            (b._ClearRemovedLightData frame)).1,
         (RendererBackend._UpdateWindowDimensions complete frame
            (b._ClearRemovedLightData frame)).2) := by
  simp [RendererBackend.Begin, RendererBackend._ClearFramebufferData]

/-- A `Begin` with a clean viewport and no light to remove, which does not clear
the screen, leaves the backend as it is. -/
theorem begin_clean (complete : FboId → Bool) (b : RendererBackend) (frame : RendererFrame)
    (hclean : frame.viewportDirty = false) (hnone : frame.lightsToRemove = []) :
    RendererBackend.Begin complete b frame false
      = some (RendererBackend._RecalculateCascadeData frame, b) := by
  simp [RendererBackend.Begin, RendererBackend._ClearFramebufferData,
    RendererBackend._UpdateWindowDimensions, RendererBackend._ClearRemovedLightData, hclean,
    hnone]

/-- `Begin` leaves the pools and the constants as they are; the caches change only
by the removal of the lights of `lightsToRemove`. -/
theorem begin_samePools {complete : FboId → Bool} {b : RendererBackend} {frame : RendererFrame}
    {clearScreen : Bool} {r : List FboId × RendererBackend}
    (h : RendererBackend.Begin complete b frame clearScreen = some r) :
    SamePools b r.2 ∧ r.2.state = b.state := by
  have h1 := clearRemovedLightData_step frame.lightsToRemove b
  have h2 := updateWindowDimensions_spec complete frame (b._ClearRemovedLightData frame)
  rw [begin_some h]
  dsimp only
  unfold RendererBackend._ClearRemovedLightData at h2 ⊢
  constructor
  · constructor
    · rw [h2.2.1]; exact h1.1.1
    · rw [h2.2.2.1]; exact h1.1.2
  · rw [h2.2.2.2]; exact h1.2.1

/-- `Begin` keeps the invariant of the two caches. -/
theorem BackendInv.begin {rp vp : List TextureHandle} {b : RendererBackend}
    (hinv : BackendInv rp vp b) {complete : FboId → Bool} {frame : RendererFrame}
    {clearScreen : Bool} {r : List FboId × RendererBackend}
    (h : RendererBackend.Begin complete b frame clearScreen = some r) :
    BackendInv rp vp r.2 := by
  have h1 := hinv.clearRemovedLightData frame.lightsToRemove
  have h2 := updateWindowDimensions_spec complete frame (b._ClearRemovedLightData frame)
  rw [begin_some h]
  dsimp only
  unfold RendererBackend._ClearRemovedLightData at h2 ⊢
  refine ⟨hinv.regularOk, hinv.vplOk, ?_, ?_⟩
  · rw [h2.2.1]; exact h1.regular
  · rw [h2.2.2.1]; exact h1.vpl

/-- A list whose sublist has the same non-casters and the same casters is that
sublist. -/
theorem sublist_eq_of_filters {α : Type} (p : α → Bool) {l1 l2 : List α}
    (hsub : l1.Sublist l2)
    (hno : l1.filter (fun x => !p x) = l2.filter (fun x => !p x))
    (hyes : l1.filter (fun x => p x) = l2.filter (fun x => p x)) : l1 = l2 := by
  apply hsub.eq_of_length
  have h1 := List.length_eq_countP_add_countP (fun x => p x) l1
  have h2 := List.length_eq_countP_add_countP (fun x => p x) l2
  have e1 : List.countP (fun x => p x) l1 = List.countP (fun x => p x) l2 := by
    rw [List.countP_eq_length_filter, List.countP_eq_length_filter, hyes]
  have e2 : List.countP (fun x => ¬ (p x = true)) l1
      = List.countP (fun x => ¬ (p x = true)) l2 := by
    rw [List.countP_eq_length_filter, List.countP_eq_length_filter]
    have := congrArg List.length hno
    simpa using this
  omega

/-! ## Shadow updates over several frames (C16) -/

/-- Two disjoint selections of a list hold together at most its elements. -/
theorem filter_disjoint_length {α : Type} (p q : α → Bool) (l : List α)
    (hpq : ∀ x, p x = true → q x = false) :
    (l.filter p).length + (l.filter q).length ≤ l.length := by
  induction l with
  | nil => simp
  | cons x l ih =>
    cases hp : p x
    · cases hq : q x <;> simp [List.filter_cons, hp, hq] <;> omega
    · have hq := hpq x hp
      simp [List.filter_cons, hp, hq]
      omega

/-- The frames needed for `K` updates at `M ≥ 1` updates per frame provide `K`
updates. -/
theorem frames_cover (K M : Nat) (hM : 1 ≤ M) : K ≤ (K + M - 1) / M * M := by
  have h1 := Nat.div_add_mod (K + M - 1) M
  have h2 := Nat.mod_lt (K + M - 1) (Nat.lt_of_lt_of_le Nat.zero_lt_one hM)
  rw [Nat.mul_comm]
  generalize M * ((K + M - 1) / M) = P at h1 ⊢
  omega

/-- The length of a sorted and truncated vector is at most the number of the
lights it was built from. -/
theorem lightVector_length_le (frame : RendererFrame) (p : LightPtr → Bool) (max : Nat) :
    (RendererBackend.truncate (RendererBackend.sortByDistance
      ((frame.lights.filter p).map (fun light => (light, frame.distance light)))) max).length
      ≤ (frame.lights.filter p).length := by
  rw [truncate_eq_take, List.length_take]
  have := (sortByDistance_perm
    ((frame.lights.filter p).map (fun light => (light, frame.distance light)))).length_eq
  rw [List.length_map] at this
  omega

/-- On a renderable backend whose caches satisfy the invariant, `n` frames with
the lights
of `frame`, the queue carried over from frame to frame: the frames are
rendered, and every shadow-casting light among the first `n *
maxShadowUpdatesPerFrame` lights of the queue of the first frame, as it is when
draining begins, has had its shadow map rendered. -/
theorem BackendInv.renderFrames {rp vp : List TextureHandle} (frame : RendererFrame)
    (hcsm : frame.worldLightEnabled = true → frame.cascades ≤ 6) (n : Nat) :
    ∀ {b : RendererBackend} (queue : List LightPtr), BackendInv rp vp b →
      Renderable b frame →
      ∃ rendered b1 queue1,
        RendererBackend.renderFrames frame n b queue = some (rendered, b1, queue1) ∧
        ∀ l ∈ (RendererBackend.enqueueShadowUpdates b (RendererBackend.buildLightLists b frame)
            queue).take (n * b.state.maxShadowUpdatesPerFrame),
          frame.castsShadows l = true → l ∈ rendered.map Prod.fst := by
  induction n with
  | zero =>
    intro b queue _ _
    refine ⟨[], b, queue, rfl, ?_⟩
    intro l hl
    simp at hl
  | succ n ih =>
    intro b queue hinv hready
    have hreadyq : Renderable b { frame with lightsToUpate := queue } := hready
    obtain ⟨trace, b1, hrs, hinv1, hstep, -, hmap, -⟩ :=
      hinv.renderScene { frame with lightsToUpate := queue } hcsm hreadyq
    have hlists : RendererBackend.buildLightLists b { frame with lightsToUpate := queue }
        = RendererBackend.buildLightLists b frame := rfl
    rw [hlists] at hrs hmap
    have hlists1 : RendererBackend.buildLightLists b1 frame
        = RendererBackend.buildLightLists b frame := by
      unfold RendererBackend.buildLightLists
      rw [hstep.2.1]
    obtain ⟨rendered, b2, queue2, hrf, hcov⟩ := ih
      ((RendererBackend.enqueueShadowUpdates b (RendererBackend.buildLightLists b frame)
        queue).drop b.state.maxShadowUpdatesPerFrame) hinv1 (hready.afterStep hstep)
    refine ⟨trace.shadowMapsRendered ++ rendered, b2, queue2, ?_, ?_⟩
    · simp only [RendererBackend.renderFrames, hrs, hrf]
    · intro l hl hc
      rw [List.map_append]
      have hsplit : (n + 1) * b.state.maxShadowUpdatesPerFrame
          = b.state.maxShadowUpdatesPerFrame + n * b.state.maxShadowUpdatesPerFrame := by
        rw [Nat.succ_mul, Nat.add_comm]
      rw [hsplit, List.take_add] at hl
      rcases List.mem_append.mp hl with h1 | h1
      · apply List.mem_append_left
        rw [hmap]
        exact List.mem_filter.mpr ⟨h1, hc⟩
      · apply List.mem_append_right
        apply hcov l _ hc
        rw [hstep.2.1]
        unfold RendererBackend.enqueueShadowUpdates
        rw [List.take_append_eq_append_take]
        exact List.mem_append_left _ h1

/-- `Begin` on the example backend, every framebuffer complete, returns the
backend `exampleReady`. -/
theorem exampleReady_begin :
    (RendererBackend.Begin (fun _ => true) exampleBackend exampleFrame true).map Prod.snd
      = some exampleReady := rfl

theorem exampleReady_inv :
    BackendInv exampleBackend._smapCache.shadowMap3DHandles
      exampleBackend._vplSmapCache.shadowMap3DHandles exampleReady := by
  have hb := (Constructed.construct exampleState [] (fun _ => true)).backendInv
    (by decide) (by decide)
  have e1 : exampleReady._smapCache = exampleBackend._smapCache := rfl
  have e2 : exampleReady._vplSmapCache = exampleBackend._vplSmapCache := rfl
  refine ⟨hb.regularOk, hb.vplOk, ?_, ?_⟩
  · rw [e1]; exact hb.regular
  · rw [e2]; exact hb.vpl

theorem exampleReady_renderable : Renderable exampleReady exampleFrame := by
  unfold Renderable
  decide

/-- `Begin` on the example backend, the second FXAA framebuffer incomplete,
returns the backend `exampleInvalid`. -/
theorem exampleInvalid_begin :
    (RendererBackend.Begin (fun id => decide (id ≠ FboId.fxaa2)) exampleBackend exampleFrame
      true).map Prod.snd = some exampleInvalid := rfl

theorem exampleInvalid_inv :
    BackendInv exampleBackend._smapCache.shadowMap3DHandles
      exampleBackend._vplSmapCache.shadowMap3DHandles exampleInvalid := by
  have hb := (Constructed.construct exampleState [] (fun _ => true)).backendInv
    (by decide) (by decide)
  have e1 : exampleInvalid._smapCache = exampleBackend._smapCache := rfl
  have e2 : exampleInvalid._vplSmapCache = exampleBackend._vplSmapCache := rfl
  refine ⟨hb.regularOk, hb.vplOk, ?_, ?_⟩
  · rw [e1]; exact hb.regular
  · rw [e2]; exact hb.vpl

theorem exampleInvalid_renderable : Renderable exampleInvalid exampleFrame := by
  unfold Renderable
  decide
/-- After a `Begin` that stopped at a failed framebuffer before the last one, the
framebuffers after it were not created: on the example backend, when the
lighting framebuffer (or the second bloom downsample framebuffer) fails its
check, `Begin` with clearing of the screen and `RenderScene` after a `Begin`
without clearing are undefined (a call on a framebuffer member that holds no
framebuffer, or a read outside a bloom vector). -/
theorem begin_failure_not_renderable :
    (RendererBackend.Begin (fun id => decide (id ≠ FboId.lighting)) exampleBackend exampleFrame
      true).isNone = true ∧
    ((RendererBackend.Begin (fun id => decide (id ≠ FboId.lighting)) exampleBackend exampleFrame
      false).bind (fun r => r.2.RenderScene exampleFrame)).isNone = true ∧
    ((RendererBackend.Begin (fun id => decide (id ≠ FboId.bloomDownsample 1)) exampleBackend
      exampleFrame false).bind (fun r => r.2.RenderScene exampleFrame)).isNone = true ∧
    ((RendererBackend.Begin (fun id => decide (id ≠ FboId.bloomDownsample 1)) exampleBackend
      exampleFrame false).bind (fun r => r.2.bloomPass)).isNone = true := by
  decide
/-! ## The validity flag and `RenderScene` -/

theorem setValid_setCache (v : Bool) (b : RendererBackend) (light : LightPtr)
    (cache : ShadowMapCache) :
    RendererBackend.setSmapCacheForLight { b with _isValid := v } light cache
      = { b.setSmapCacheForLight light cache with _isValid := v } := by
  unfold RendererBackend.setSmapCacheForLight
  cases light.isVirtual <;> rfl

theorem setValid_getOrAllocateHandle (v : Bool) (b : RendererBackend) (light : LightPtr) :
    RendererBackend._GetOrAllocateShadowMapHandleForLight { b with _isValid := v } light
      = (b._GetOrAllocateShadowMapHandleForLight light).map
          (fun r => (r.1, { r.2 with _isValid := v })) := by
  unfold RendererBackend._GetOrAllocateShadowMapHandleForLight
  have hc : RendererBackend._GetSmapCacheForLight { b with _isValid := v } light
      = b._GetSmapCacheForLight light := rfl
  rw [hc]
  cases ShadowMapCache._GetOrAllocateShadowMapHandleForLight (b._GetSmapCacheForLight light)
      light with
  | none => rfl
  | some r =>
    obtain ⟨h, cache⟩ := r
    simp only [Option.map_some', setValid_setCache]

theorem setValid_getOrAllocateMap (v : Bool) (b : RendererBackend) (light : LightPtr) :
    RendererBackend._GetOrAllocateShadowMapForLight { b with _isValid := v } light
      = (b._GetOrAllocateShadowMapForLight light).map
          (fun r => (r.1, { r.2 with _isValid := v })) := by
  unfold RendererBackend._GetOrAllocateShadowMapForLight
  rw [setValid_getOrAllocateHandle]
  cases b._GetOrAllocateShadowMapHandleForLight light with
  | none => rfl
  | some r =>
    obtain ⟨h, b1⟩ := r
    simp only [Option.map_some']
    have hc : RendererBackend._GetSmapCacheForLight { b1 with _isValid := v } light
        = b1._GetSmapCacheForLight light := rfl
    rw [hc]
    split <;> rfl

theorem setValid_drain (v : Bool) (castsShadows : LightPtr → Bool) (fuel : Nat) :
    ∀ (b : RendererBackend) (queue : List LightPtr),
      RendererBackend.drainShadowUpdates castsShadows fuel { b with _isValid := v } queue
        = (RendererBackend.drainShadowUpdates castsShadows fuel b queue).map
            (fun r => (r.1, { r.2.1 with _isValid := v }, r.2.2)) := by
  induction fuel with
  | zero => intro b queue; rfl
  | succ fuel ih =>
    intro b queue
    cases queue with
    | nil => rfl
    | cons light queue =>
      simp only [RendererBackend.drainShadowUpdates]
      split
      · exact ih b queue
      · rw [setValid_getOrAllocateMap]
        cases b._GetOrAllocateShadowMapForLight light with
        | none => rfl
        | some r =>
          obtain ⟨h, b1⟩ := r
          simp only [Option.map_some', ih b1 queue]
          cases RendererBackend.drainShadowUpdates castsShadows fuel b1 queue with
          | none => rfl
          | some r2 => rfl

theorem setValid_initLightsLoop (v : Bool) (castsShadows : LightPtr → Bool)
    (maxShadowLights : Nat) (lights : List (LightPtr × Nat)) :
    ∀ (u : LightUniforms) (b : RendererBackend),
      RendererBackend.initLightsLoop castsShadows maxShadowLights lights u
          { b with _isValid := v }
        = (RendererBackend.initLightsLoop castsShadows maxShadowLights lights u b).map
            (fun r => (r.1, { r.2 with _isValid := v })) := by
  induction lights with
  | nil => intro u b; rfl
  | cons e lights ih =>
    intro u b
    obtain ⟨light, d⟩ := e
    simp only [RendererBackend.initLightsLoop]
    split
    · exact ih u b
    · split
      · split
        · exact ih u b
        · rw [setValid_getOrAllocateHandle]
          cases b._GetOrAllocateShadowMapHandleForLight light with
          | none => rfl
          | some r =>
            obtain ⟨h, b1⟩ := r
            simp only [Option.map_some']
            exact ih _ b1
      · exact ih _ b

theorem setValid_vplShadowMaps (v : Bool) (lights : List (LightPtr × Nat)) :
    ∀ (b : RendererBackend),
      RendererBackend.vplShadowMaps lights { b with _isValid := v }
        = (RendererBackend.vplShadowMaps lights b).map
            (fun r => (r.1, { r.2 with _isValid := v })) := by
  induction lights with
  | nil => intro b; rfl
  | cons e lights ih =>
    intro b
    obtain ⟨light, d⟩ := e
    simp only [RendererBackend.vplShadowMaps]
    rw [setValid_getOrAllocateMap]
    cases b._GetOrAllocateShadowMapForLight light with
    | none => rfl
    | some r =>
      obtain ⟨h, b1⟩ := r
      simp only [Option.map_some', ih b1]
      cases RendererBackend.vplShadowMaps lights b1 with
      | none => rfl
      | some r2 => rfl

/-- `RenderScene` does not read the validity flag: with the flag set to `v` it
is undefined where it was undefined, and otherwise it returns the same trace
and queue, and the same backend but for the flag, which it leaves as it is. -/
theorem renderScene_setValid (v : Bool) (b : RendererBackend) (frame : RendererFrame) :
    RendererBackend.RenderScene { b with _isValid := v } frame
      = (b.RenderScene frame).map (fun r => (r.1, { r.2.1 with _isValid := v }, r.2.2)) := by
  have hupd : RendererBackend._UpdatePointLights { b with _isValid := v } frame
      = (b._UpdatePointLights frame).map
          (fun r => (r.1, r.2.1, { r.2.2.1 with _isValid := v }, r.2.2.2)) := by
    unfold RendererBackend._UpdatePointLights
    dsimp only
    have h1 : RendererBackend.buildLightLists { b with _isValid := v } frame
        = RendererBackend.buildLightLists b frame := rfl
    have h2 : RendererBackend.enqueueShadowUpdates { b with _isValid := v }
        (RendererBackend.buildLightLists b frame) frame.lightsToUpate
        = RendererBackend.enqueueShadowUpdates b (RendererBackend.buildLightLists b frame)
          frame.lightsToUpate := rfl
    rw [h1, h2, setValid_drain]
    cases RendererBackend.drainShadowUpdates frame.castsShadows
      b.state.maxShadowUpdatesPerFrame b
      (RendererBackend.enqueueShadowUpdates b (RendererBackend.buildLightLists b frame)
        frame.lightsToUpate) with
    | none => rfl
    | some r => rfl
  have hlight : ∀ (b1 : RendererBackend) (lights : List (LightPtr × Nat)),
      RendererBackend.lightingPass { b1 with _isValid := v } frame lights
        = (b1.lightingPass frame lights).map
            (fun r => (r.1, r.2.1, { r.2.2 with _isValid := v })) := by
    intro b1 lights
    unfold RendererBackend.lightingPass RendererBackend._InitLights
    have hu : RendererBackend.useFramebuffers { b1 with _isValid := v } [FboId.lighting]
        = b1.useFramebuffers [FboId.lighting] := rfl
    rw [hu]
    cases b1.useFramebuffers [FboId.lighting] with
    | none => rfl
    | some x =>
      simp only
      rw [setValid_initLightsLoop]
      cases RendererBackend.initLightsLoop frame.castsShadows
        b1.state.maxShadowCastingLightsPerFrame lights { lights := [], shadowLights := [] }
        b1 with
      | none => rfl
      | some r =>
        simp only [Option.map_some']
        cases RendererBackend._InitCoreCSMData frame with
        | none => rfl
        | some y => rfl
  have hcull : ∀ (b2 : RendererBackend) (lights : List (LightPtr × Nat)),
      RendererBackend._PerformVirtualPointLightCulling { b2 with _isValid := v } lights frame
        = (b2._PerformVirtualPointLightCulling lights frame).map
            (fun r => (r.1, r.2.1, { r.2.2 with _isValid := v })) := by
    intro b2 lights
    unfold RendererBackend._PerformVirtualPointLightCulling
    by_cases hl : lights.length = 0
    · rw [if_pos hl, if_pos hl]
      rfl
    · rw [if_neg hl, if_neg hl, setValid_vplShadowMaps]
      cases RendererBackend.vplShadowMaps lights b2 with
      | none => rfl
      | some r =>
        simp only [Option.map_some']
        cases RendererBackend._InitCoreCSMData frame with
        | none => rfl
        | some y => rfl
  have hvpl : ∀ (b2 : RendererBackend) (lights : List (LightPtr × Nat)),
      RendererBackend.vplStep { b2 with _isValid := v } frame lights
        = (b2.vplStep frame lights).map (fun r => (r.1, { r.2 with _isValid := v })) := by
    intro b2 lights
    unfold RendererBackend.vplStep
    by_cases hg : (frame.worldLightEnabled && frame.globalIlluminationEnabled) = true
    · rw [if_pos hg, if_pos hg, hcull]
      cases b2._PerformVirtualPointLightCulling lights frame with
      | none => rfl
      | some r =>
        obtain ⟨culling, hs, b3⟩ := r
        simp only [Option.map_some']
        have hgi : RendererBackend._ComputeVirtualPointLightGlobalIllumination
            { b3 with _isValid := v } lights
            = b3._ComputeVirtualPointLightGlobalIllumination lights := rfl
        rw [hgi]
        cases b3._ComputeVirtualPointLightGlobalIllumination lights with
        | none => rfl
        | some gi => rfl
    · rw [if_neg hg, if_neg hg]
      rfl
  unfold RendererBackend.RenderScene
  rw [hupd]
  cases b._UpdatePointLights frame with
  | none => rfl
  | some r =>
    obtain ⟨lists, rendered, b1, queue⟩ := r
    simp only [Option.map_some']
    cases RendererBackend.csmDepthStep frame with
    | none => rfl
    | some csm =>
      simp only
      have hgeo : RendererBackend.geometryPasses { b1 with _isValid := v } frame
          = b1.geometryPasses frame := rfl
      rw [hgeo]
      cases b1.geometryPasses frame with
      | none => rfl
      | some geometry =>
        simp only
        rw [hlight]
        cases b1.lightingPass frame lists.perLightDistToViewer with
        | none => rfl
        | some r2 =>
          obtain ⟨lighting, uniforms, b2⟩ := r2
          simp only [Option.map_some']
          rw [hvpl]
          cases b2.vplStep frame lists.perVPLDistToViewer with
          | none => rfl
          | some r3 =>
            obtain ⟨gi, b3⟩ := r3
            simp only [Option.map_some']
            have hclose : RendererBackend.closingPasses { b3 with _isValid := v } frame
                = b3.closingPasses frame := rfl
            rw [hclose]
            cases b3.closingPasses frame with
            | none => rfl
            | some closing => rfl

/-! ## The claims about the backend (C11 .. C20) -/

/-- C11: pool isolation.  On the backend as the constructor leaves it, with both
pools non-empty, no handle belongs to both pools, every sequence of
`GetOrAllocate` and `Remove` requests over regular and virtual lights runs, and
every handle returned for a virtual light is a handle of the VPL pool and not
of the regular pool, every handle returned for a regular light a handle of the
regular pool and not of the VPL pool. -/
theorem C11_pool_isolation (state : RendererState) (pipelines : List Bool)
    (complete : FboId → Bool) (ops : List CacheOp)
    (hr : (RendererBackend.construct state pipelines complete)._smapCache.shadowMap3DHandles
      ≠ [])
    (hv : (RendererBackend.construct state pipelines complete)._vplSmapCache.shadowMap3DHandles
      ≠ []) :
    (∀ h, h ∈ (RendererBackend.construct state pipelines complete)._smapCache.shadowMap3DHandles →
      h ∉ (RendererBackend.construct state pipelines complete)._vplSmapCache.shadowMap3DHandles) ∧
    ∃ results b1,
      (RendererBackend.construct state pipelines complete).runOps ops = some (results, b1) ∧
      ∀ r ∈ results,
        (r.1.isVirtual = true →
          r.2 ∈ (RendererBackend.construct state pipelines
            complete)._vplSmapCache.shadowMap3DHandles ∧
          r.2 ∉ (RendererBackend.construct state pipelines
            complete)._smapCache.shadowMap3DHandles) ∧
        (r.1.isVirtual = false →
          r.2 ∈ (RendererBackend.construct state pipelines
            complete)._smapCache.shadowMap3DHandles ∧
          r.2 ∉ (RendererBackend.construct state pipelines
            complete)._vplSmapCache.shadowMap3DHandles) := by
  have hc := Constructed.construct state pipelines complete
  have hdisj := (List.nodup_append.mp hc.nodup).2.2
  obtain ⟨results, b1, hrun, -, hres⟩ := BackendInv.runOps ops (hc.backendInv hr hv)
  refine ⟨fun h h1 h2 => hdisj h1 h2, results, b1, hrun, ?_⟩
  intro r hr1
  have hmem := hres r hr1
  unfold poolFor at hmem
  constructor
  · intro hvirt
    simp only [hvirt, if_true] at hmem
    exact ⟨hmem, fun h1 => hdisj h1 hmem⟩
  · intro hvirt
    simp only [hvirt, Bool.false_eq_true, if_false] at hmem
    exact ⟨hmem, fun h2 => hdisj hmem h2⟩

/-- C11 on the example backend, for requests that mix the regular lights `lightA`,
`lightB` and the virtual light `lightV`. -/
theorem C11_pool_isolation_witness :
    (∀ h, h ∈ (RendererBackend.construct exampleState [] (fun _ =>
        true))._smapCache.shadowMap3DHandles →
      h ∉ (RendererBackend.construct exampleState [] (fun _ =>
        true))._vplSmapCache.shadowMap3DHandles) ∧
    ∃ results b1,
      (RendererBackend.construct exampleState [] (fun _ => true)).runOps
        [CacheOp.getOrAllocate lightA, CacheOp.getOrAllocate lightV, CacheOp.remove lightA,
          CacheOp.getOrAllocate lightB, CacheOp.getOrAllocate lightV] = some (results, b1) ∧
      ∀ r ∈ results,
        (r.1.isVirtual = true →
          r.2 ∈ (RendererBackend.construct exampleState [] (fun _ =>
            true))._vplSmapCache.shadowMap3DHandles ∧
          r.2 ∉ (RendererBackend.construct exampleState [] (fun _ =>
            true))._smapCache.shadowMap3DHandles) ∧
        (r.1.isVirtual = false →
          r.2 ∈ (RendererBackend.construct exampleState [] (fun _ =>
            true))._smapCache.shadowMap3DHandles ∧
          r.2 ∉ (RendererBackend.construct exampleState [] (fun _ =>
            true))._vplSmapCache.shadowMap3DHandles) :=
  C11_pool_isolation exampleState [] (fun _ => true)
    [CacheOp.getOrAllocate lightA, CacheOp.getOrAllocate lightV, CacheOp.remove lightA,
      CacheOp.getOrAllocate lightB, CacheOp.getOrAllocate lightV] (by decide) (by decide)

/-- C12, as stated, fails for the constants `exampleState`
(`numRegularShadowMaps = 2`, `maxTotalVirtualPointLightsPerFrame = 2`) with
every framebuffer valid: the handle set of the regular cache does not hold
exactly `numRegularShadowMaps` handles (it holds three). -/
theorem C12_counterexample :
    ¬ ((RendererBackend.construct exampleState [] (fun _ => true))._smapCache.shadowMap3DHandles.length
        = exampleState.numRegularShadowMaps ∧
      (RendererBackend.construct exampleState [] (fun _ => true))._vplSmapCache.shadowMap3DHandles.length
        = exampleState.maxTotalVirtualPointLightsPerFrame) := by
  decide

/-- C12, amended: after a construction in which every shadow-map framebuffer
passes its validity check, the handle set of the regular cache holds exactly
`numRegularShadowMaps + 1` handles, the dummy cube map (created first, by the
same `_CreateShadowMap3D`) among them, and the handle set of the VPL cache
holds exactly `maxTotalVirtualPointLightsPerFrame` handles.  In every state of
a backend, no sequence of `GetOrAllocate` and `Remove` requests and no `Begin`
changes the two handle sets (a `Begin` that does not clear the screen always
returns), and no `RenderScene` does; on a renderable backend whose caches
satisfy the invariant of the reachable states `RenderScene` returns. -/
theorem C12_pool_sizes_amended (state : RendererState) (pipelines : List Bool)
    (complete : FboId → Bool) (hall : ∀ id, complete id = true) :
    (RendererBackend.construct state pipelines complete)._smapCache.shadowMap3DHandles.length
      = state.numRegularShadowMaps + 1 ∧
    (RendererBackend.construct state pipelines complete).dummyCubeMap ∈
      (RendererBackend.construct state pipelines complete)._smapCache.shadowMap3DHandles ∧
    (RendererBackend.construct state pipelines complete)._vplSmapCache.shadowMap3DHandles.length
      = state.maxTotalVirtualPointLightsPerFrame ∧
    (∀ (b b1 : RendererBackend) (ops : List CacheOp) (results : List (LightPtr × TextureHandle)),
      b.runOps ops = some (results, b1) →
        b1._smapCache.shadowMap3DHandles = b._smapCache.shadowMap3DHandles ∧
        b1._vplSmapCache.shadowMap3DHandles = b._vplSmapCache.shadowMap3DHandles) ∧
    (∀ (b : RendererBackend) (complete1 : FboId → Bool) (frame : RendererFrame),
      (∃ r, RendererBackend.Begin complete1 b frame false = some r) ∧
      ∀ (clearScreen : Bool) (r : List FboId × RendererBackend),
        RendererBackend.Begin complete1 b frame clearScreen = some r →
        r.2._smapCache.shadowMap3DHandles = b._smapCache.shadowMap3DHandles ∧
        r.2._vplSmapCache.shadowMap3DHandles = b._vplSmapCache.shadowMap3DHandles) ∧
    (∀ (b b1 : RendererBackend) (frame : RendererFrame) (trace : FrameTrace)
        (queue : List LightPtr),
      b.RenderScene frame = some (trace, b1, queue) →
        b1._smapCache.shadowMap3DHandles = b._smapCache.shadowMap3DHandles ∧
        b1._vplSmapCache.shadowMap3DHandles = b._vplSmapCache.shadowMap3DHandles) ∧
    (∀ (rp vp : List TextureHandle) (b : RendererBackend) (frame : RendererFrame),
      BackendInv rp vp b → (frame.worldLightEnabled = true → frame.cascades ≤ 6) →
      Renderable b frame →
      ∃ trace b1 queue, b.RenderScene frame = some (trace, b1, queue) ∧
        b1._smapCache.shadowMap3DHandles = b._smapCache.shadowMap3DHandles ∧
        b1._vplSmapCache.shadowMap3DHandles = b._vplSmapCache.shadowMap3DHandles) := by
  obtain ⟨hd, hr, hv, -⟩ := construct_pools state pipelines complete hall
  refine ⟨?_, ?_, ?_, ?_, ?_, ?_, ?_⟩
  · rw [hr]; simp
  · rw [hd, hr]; exact List.mem_cons_self _ _
  · rw [hv]; simp
  · intro b b1 ops results hrun
    exact RendererBackend.runOps_samePools ops b b1 results hrun
  · intro b complete1 frame
    exact ⟨⟨_, begin_noClear complete1 b frame⟩, fun _ _ h => (begin_samePools h).1⟩
  · intro b b1 frame trace queue hrs
    exact (renderScene_cacheStep hrs).1
  · intro rp vp b frame hinv hcsm hready
    obtain ⟨trace, b1, hrs, -, hstep, -⟩ := hinv.renderScene frame hcsm hready
    exact ⟨trace, b1, _, hrs, hstep.1⟩

/-- C12, amended, for the constants `exampleState` with every framebuffer valid:
three regular handles, the dummy cube map among them, and two VPL handles. -/
theorem C12_pool_sizes_amended_witness :
    (RendererBackend.construct exampleState [] (fun _ => true))._smapCache.shadowMap3DHandles.length
      = 2 + 1 ∧
    (RendererBackend.construct exampleState [] (fun _ => true)).dummyCubeMap ∈
      (RendererBackend.construct exampleState [] (fun _ => true))._smapCache.shadowMap3DHandles ∧
    (RendererBackend.construct exampleState [] (fun _ =>
      true))._vplSmapCache.shadowMap3DHandles.length = 2 :=
  have key := C12_pool_sizes_amended exampleState [] (fun _ => true) (fun _ => rfl)
  ⟨key.1, key.2.1, key.2.2.1⟩

/-- C13: cap truncation.  When the lights of the frame hold more than
`maxTotalRegularLightsPerFrame` regular lights, at pairwise distinct distances
to the camera, the vector `perLightDistToViewer` that `_UpdatePointLights`
produces has exactly `maxTotalRegularLightsPerFrame` entries, each a regular
light of the frame with its distance, in strictly ascending order of distance,
and every entry is nearer to the camera than every regular light of the frame
that is not in the vector. -/
theorem C13_cap_truncation (b : RendererBackend) (frame : RendererFrame)
    (hdist : ((frame.lights.filter (fun l => !l.isVirtual)).map frame.distance).Nodup)
    (hmore : (frame.lights.filter (fun l => !l.isVirtual)).length
      > b.state.maxTotalRegularLightsPerFrame) :
    (RendererBackend.buildLightLists b frame).perLightDistToViewer.length
      = b.state.maxTotalRegularLightsPerFrame ∧
    (RendererBackend.buildLightLists b frame).perLightDistToViewer.Pairwise
      (fun e1 e2 => e1.2 < e2.2) ∧
    (∀ e ∈ (RendererBackend.buildLightLists b frame).perLightDistToViewer,
      e.1 ∈ frame.lights ∧ e.1.isVirtual = false ∧ e.2 = frame.distance e.1) ∧
    ∀ e ∈ (RendererBackend.buildLightLists b frame).perLightDistToViewer,
      ∀ l ∈ frame.lights, l.isVirtual = false →
        l ∉ (RendererBackend.buildLightLists b frame).perLightDistToViewer.map Prod.fst →
        e.2 < frame.distance l := by
  have h := lightVector_nearest frame (fun l => !l.isVirtual)
    b.state.maxTotalRegularLightsPerFrame hdist hmore
  refine ⟨h.1, h.2.1, ?_, ?_⟩
  · intro e he
    have := mem_lightVector frame (fun l => !l.isVirtual) _ e he
    exact ⟨this.1, by simpa using this.2.1, this.2.2⟩
  · intro e he l hl hreg hnot
    exact h.2.2 e he l hl (by simp [hreg]) hnot

/-- C13 on the example backend and frame: of the three regular lights the two
nearest are retained. -/
theorem C13_cap_truncation_witness :
    (RendererBackend.buildLightLists exampleBackend exampleFrame).perLightDistToViewer.length
      = exampleBackend.state.maxTotalRegularLightsPerFrame ∧
    (RendererBackend.buildLightLists exampleBackend exampleFrame).perLightDistToViewer.Pairwise
      (fun e1 e2 => e1.2 < e2.2) ∧
    (∀ e ∈ (RendererBackend.buildLightLists exampleBackend exampleFrame).perLightDistToViewer,
      e.1 ∈ exampleFrame.lights ∧ e.1.isVirtual = false ∧ e.2 = exampleFrame.distance e.1) ∧
    ∀ e ∈ (RendererBackend.buildLightLists exampleBackend exampleFrame).perLightDistToViewer,
      ∀ l ∈ exampleFrame.lights, l.isVirtual = false →
        l ∉ (RendererBackend.buildLightLists exampleBackend
          exampleFrame).perLightDistToViewer.map Prod.fst →
        e.2 < exampleFrame.distance l :=
  C13_cap_truncation exampleBackend exampleFrame (by decide) (by decide)

/-- C14, as stated, fails for the example backend after `Begin` and the example
frame: three regular lights, all casting shadows, with `maxTotalRegularLightsPerFrame = 2` and
`maxShadowCastingLightsPerFrame = 1`.  The two nearest lights, `lightA` and
`lightB`, are retained, but `_InitLights` writes `lightA` only: `numLights` is 1,
not 2, and the retained light `lightB` is not written. -/
theorem C14_counterexample :
    (exampleFrame.lights.filter (fun l => !l.isVirtual)).length
      > exampleBackend.state.maxTotalRegularLightsPerFrame ∧
    (exampleReady.RenderScene exampleFrame).map
      (fun r => r.1.lists.perLightDistToViewer.map Prod.fst) = some [lightA, lightB] ∧
    (exampleReady.RenderScene exampleFrame).map (fun r => r.1.uniforms.lights)
      = some [lightA] ∧
    (exampleReady.RenderScene exampleFrame).map (fun r => r.1.uniforms.numLights)
      ≠ some exampleBackend.state.maxTotalRegularLightsPerFrame := by
  decide

/-- C14, amended: in a frame with more than `maxTotalRegularLightsPerFrame`
regular lights, on a renderable backend, `RenderScene` returns and `_InitLights` writes, in the order of
the retained vector, the retained lights that do not cast shadows and the first
`maxShadowCastingLightsPerFrame` retained lights that do, and no other light (so
no dropped light is written); a retained shadow-casting light beyond that cap is
skipped by the guard of `_InitLights`.  When the retained lights hold at most
`maxShadowCastingLightsPerFrame` shadow casters, the lights written are exactly
the retained ones and `numLights` is `maxTotalRegularLightsPerFrame`. -/
theorem C14_lights_written (rp vp : List TextureHandle) (b : RendererBackend)
    (frame : RendererFrame) (hinv : BackendInv rp vp b)
    (hcsm : frame.worldLightEnabled = true → frame.cascades ≤ 6)
    (hready : Renderable b frame)
    (hmore : (frame.lights.filter (fun l => !l.isVirtual)).length
      > b.state.maxTotalRegularLightsPerFrame) :
    ∃ trace b1 queue, b.RenderScene frame = some (trace, b1, queue) ∧
      trace.lists.perLightDistToViewer.length = b.state.maxTotalRegularLightsPerFrame ∧
      trace.uniforms.lights.Sublist (trace.lists.perLightDistToViewer.map Prod.fst) ∧
      (∀ l ∈ trace.lists.perLightDistToViewer.map Prod.fst,
        frame.castsShadows l = false → l ∈ trace.uniforms.lights) ∧
      trace.uniforms.lights.filter (fun l => frame.castsShadows l)
        = ((trace.lists.perLightDistToViewer.map Prod.fst).filter
            (fun l => frame.castsShadows l)).take b.state.maxShadowCastingLightsPerFrame ∧
      (((trace.lists.perLightDistToViewer.map Prod.fst).filter
          (fun l => frame.castsShadows l)).length ≤ b.state.maxShadowCastingLightsPerFrame →
        trace.uniforms.lights = trace.lists.perLightDistToViewer.map Prod.fst ∧
        trace.uniforms.numLights = b.state.maxTotalRegularLightsPerFrame) := by
  obtain ⟨trace, b1, hrs, -, -, hlists, -, -, hsub, hno, hyes⟩ :=
    hinv.renderScene frame hcsm hready
  have hlen : (RendererBackend.buildLightLists b frame).perLightDistToViewer.length
      = b.state.maxTotalRegularLightsPerFrame := by
    show (RendererBackend.truncate (RendererBackend.sortByDistance _) _).length = _
    rw [truncate_eq_take, List.length_take, (sortByDistance_perm _).length_eq, List.length_map]
    exact Nat.min_eq_left (Nat.le_of_lt hmore)
  refine ⟨trace, b1, _, hrs, ?_, ?_, ?_, ?_, ?_⟩
  · rw [hlists]; exact hlen
  · rw [hlists]; exact hsub
  · rw [hlists]
    intro l hl hc
    have h1 : l ∈ ((RendererBackend.buildLightLists b frame).perLightDistToViewer.map
        Prod.fst).filter (fun l => !frame.castsShadows l) :=
      List.mem_filter.mpr ⟨hl, by simp [hc]⟩
    rw [← hno] at h1
    exact (List.mem_filter.mp h1).1
  · rw [hlists]; exact hyes
  · rw [hlists]
    intro hcap
    rw [List.take_of_length_le hcap] at hyes
    have heq := sublist_eq_of_filters frame.castsShadows hsub hno hyes
    refine ⟨heq, ?_⟩
    unfold LightUniforms.numLights
    rw [heq, List.length_map]
    exact hlen

/-- C14, amended, for the example backend after `Begin` and the example frame. -/
theorem C14_lights_written_witness :
    ∃ trace b1 queue, exampleReady.RenderScene exampleFrame = some (trace, b1, queue) ∧
      trace.lists.perLightDistToViewer.length
        = exampleReady.state.maxTotalRegularLightsPerFrame ∧
      trace.uniforms.lights.Sublist (trace.lists.perLightDistToViewer.map Prod.fst) ∧
      (∀ l ∈ trace.lists.perLightDistToViewer.map Prod.fst,
        exampleFrame.castsShadows l = false → l ∈ trace.uniforms.lights) ∧
      trace.uniforms.lights.filter (fun l => exampleFrame.castsShadows l)
        = ((trace.lists.perLightDistToViewer.map Prod.fst).filter
            (fun l => exampleFrame.castsShadows l)).take
              exampleReady.state.maxShadowCastingLightsPerFrame ∧
      (((trace.lists.perLightDistToViewer.map Prod.fst).filter
          (fun l => exampleFrame.castsShadows l)).length
            ≤ exampleReady.state.maxShadowCastingLightsPerFrame →
        trace.uniforms.lights = trace.lists.perLightDistToViewer.map Prod.fst ∧
        trace.uniforms.numLights = exampleReady.state.maxTotalRegularLightsPerFrame) :=
  C14_lights_written exampleBackend._smapCache.shadowMap3DHandles
    exampleBackend._vplSmapCache.shadowMap3DHandles exampleReady exampleFrame
    exampleReady_inv (by decide) exampleReady_renderable (by decide)

/-- C15: shadow update amortization within one frame.  On a backend whose caches
satisfy the invariant of the reachable states, when the queue holds more than
`maxShadowUpdatesPerFrame` lights, all of them casting shadows, as the drain
loop of `_UpdatePointLights` begins, the loop returns; the lights whose shadow
map it obtained through `_GetOrAllocateShadowMapForLight` and rendered are
exactly the first `maxShadowUpdatesPerFrame` lights of the queue, in queue
order, each with a handle of the pool of its kind and cached afterwards; the
queue is left holding the other lights, in their order. -/
theorem C15_drain_amortized (rp vp : List TextureHandle) (b : RendererBackend)
    (castsShadows : LightPtr → Bool) (queue : List LightPtr) (hinv : BackendInv rp vp b)
    (hcast : ∀ l ∈ queue, castsShadows l = true)
    (hmore : queue.length > b.state.maxShadowUpdatesPerFrame) :
    ∃ rendered b1 queue1,
      RendererBackend.drainShadowUpdates castsShadows b.state.maxShadowUpdatesPerFrame b queue
        = some (rendered, b1, queue1) ∧
      rendered.map Prod.fst = queue.take b.state.maxShadowUpdatesPerFrame ∧
      rendered.length = b.state.maxShadowUpdatesPerFrame ∧
      queue1 = queue.drop b.state.maxShadowUpdatesPerFrame ∧
      queue1.length = queue.length - b.state.maxShadowUpdatesPerFrame ∧
      queue = rendered.map Prod.fst ++ queue1 ∧
      ∀ r ∈ rendered, r.2 ∈ poolFor rp vp r.1 ∧ b1._ShadowMapExistsForLight r.1 = true := by
  obtain ⟨rendered, b1, hd, -, -, hmap, hres, -⟩ :=
    BackendInv.drain castsShadows b.state.maxShadowUpdatesPerFrame queue hinv
  have hall : (queue.take b.state.maxShadowUpdatesPerFrame).filter (fun l => castsShadows l)
      = queue.take b.state.maxShadowUpdatesPerFrame := by
    apply List.filter_eq_self.mpr
    intro l hl
    exact hcast l (List.mem_of_mem_take hl)
  rw [hall] at hmap
  refine ⟨rendered, b1, _, hd, hmap, ?_, rfl, ?_, ?_, hres⟩
  · have := congrArg List.length hmap
    rw [List.length_map, List.length_take] at this
    rw [this]
    exact Nat.min_eq_left (Nat.le_of_lt hmore)
  · exact List.length_drop _ _
  · rw [hmap]
    exact (List.take_append_drop _ _).symm

/-- C15 on the example backend (one update per frame), the queue holding
`lightA`, `lightB`, `lightV`. -/
theorem C15_drain_amortized_witness :
    ∃ rendered b1 queue1,
      RendererBackend.drainShadowUpdates (fun _ => true)
        exampleBackend.state.maxShadowUpdatesPerFrame exampleBackend [lightA, lightB, lightV]
        = some (rendered, b1, queue1) ∧
      rendered.map Prod.fst
        = [lightA, lightB, lightV].take exampleBackend.state.maxShadowUpdatesPerFrame ∧
      rendered.length = exampleBackend.state.maxShadowUpdatesPerFrame ∧
      queue1 = [lightA, lightB, lightV].drop exampleBackend.state.maxShadowUpdatesPerFrame ∧
      queue1.length
        = [lightA, lightB, lightV].length - exampleBackend.state.maxShadowUpdatesPerFrame ∧
      [lightA, lightB, lightV] = rendered.map Prod.fst ++ queue1 ∧
      ∀ r ∈ rendered,
        r.2 ∈ poolFor exampleBackend._smapCache.shadowMap3DHandles
          exampleBackend._vplSmapCache.shadowMap3DHandles r.1 ∧
        b1._ShadowMapExistsForLight r.1 = true :=
  C15_drain_amortized exampleBackend._smapCache.shadowMap3DHandles
    exampleBackend._vplSmapCache.shadowMap3DHandles exampleBackend (fun _ => true)
    [lightA, lightB, lightV]
    ((Constructed.construct exampleState [] (fun _ => true)).backendInv (by decide) (by decide))
    (fun _ _ => rfl) (by decide)

/-- C16: shadow update amortization across frames.  Starting, on a renderable
backend, from empty caches over non-empty pools and an empty update queue, the queue being carried over
from frame to frame, when the same `K` lights, all casting shadows, are the
lights of every frame, with at least one shadow update per frame
(`maxShadowUpdatesPerFrame ≥ 1`), the regular ones at most
`maxShadowCastingLightsPerFrame` and the virtual ones at most
`maxTotalVirtualPointLightsPerFrame`, then `ceil(K / maxShadowUpdatesPerFrame)`
frames of `RenderScene` (`_UpdatePointLights` followed by the lighting pass) are
rendered and every one of the `K` lights has had its shadow map rendered in one
of them. -/
theorem C16_amortized_across_frames (b : RendererBackend) (frame : RendererFrame)
    (hrp : PoolOk b._smapCache.shadowMap3DHandles)
    (hvp : PoolOk b._vplSmapCache.shadowMap3DHandles)
    (hre : b._smapCache = ShadowMapCache.empty b._smapCache.shadowMap3DHandles)
    (hve : b._vplSmapCache = ShadowMapCache.empty b._vplSmapCache.shadowMap3DHandles)
    (hcast : ∀ l ∈ frame.lights, frame.castsShadows l = true)
    (hM : 1 ≤ b.state.maxShadowUpdatesPerFrame)
    (hcap : (frame.lights.filter (fun l => !l.isVirtual)).length
      ≤ b.state.maxShadowCastingLightsPerFrame)
    (hvcap : (frame.lights.filter (fun l => l.isVirtual)).length
      ≤ b.state.maxTotalVirtualPointLightsPerFrame)
    (hcsm : frame.worldLightEnabled = true → frame.cascades ≤ 6)
    (hready : Renderable b frame) :
    ∃ rendered b1 queue1,
      RendererBackend.renderFrames frame
        ((frame.lights.length + b.state.maxShadowUpdatesPerFrame - 1)
          / b.state.maxShadowUpdatesPerFrame) b []
        = some (rendered, b1, queue1) ∧
      ∀ l ∈ frame.lights, l ∈ rendered.map Prod.fst := by
  have hinv : BackendInv b._smapCache.shadowMap3DHandles b._vplSmapCache.shadowMap3DHandles
      b := by
    refine ⟨hrp, hvp, ?_, ?_⟩
    · have := CacheInv.empty _ hrp
      rwa [← hre] at this
    · have := CacheInv.empty _ hvp
      rwa [← hve] at this
  obtain ⟨rendered, b1, queue1, hrf, hcov⟩ := hinv.renderFrames frame hcsm
    ((frame.lights.length + b.state.maxShadowUpdatesPerFrame - 1)
      / b.state.maxShadowUpdatesPerFrame) [] hready
  refine ⟨rendered, b1, queue1, hrf, ?_⟩
  intro l hl
  apply hcov l _ (hcast l hl)
  -- nothing is cached, so the first frame pushes the two shadow-caster vectors whole
  have hnone : ∀ k, b._ShadowMapExistsForLight k = false := by
    intro k
    unfold RendererBackend._ShadowMapExistsForLight RendererBackend._GetSmapCacheForLight
    cases k.isVirtual
    · simp only [Bool.false_eq_true, if_false]
      rw [hre]; rfl
    · simp only [if_true]
      rw [hve]; rfl
  have hqueue : RendererBackend.enqueueShadowUpdates b (RendererBackend.buildLightLists b frame)
      [] = ((RendererBackend.buildLightLists b frame).perLightShadowCastingDistToViewer ++
        (RendererBackend.buildLightLists b frame).perVPLDistToViewer).map Prod.fst := by
    unfold RendererBackend.enqueueShadowUpdates
    rw [List.nil_append]
    apply List.filter_eq_self.mpr
    intro k _
    simp [hnone k]
  have hsame : frame.lights.filter (fun l => !l.isVirtual && frame.castsShadows l)
      = frame.lights.filter (fun l => !l.isVirtual) := by
    apply List.filter_congr
    intro k hk
    simp [hcast k hk]
  have hlen : (((RendererBackend.buildLightLists b frame).perLightShadowCastingDistToViewer ++
      (RendererBackend.buildLightLists b frame).perVPLDistToViewer).map Prod.fst).length
      ≤ frame.lights.length := by
    rw [List.length_map, List.length_append]
    have h1 := lightVector_length_le frame (fun l => !l.isVirtual && frame.castsShadows l)
      b.state.maxShadowCastingLightsPerFrame
    have h2 := lightVector_length_le frame (fun l => l.isVirtual)
      b.state.maxTotalVirtualPointLightsPerFrame
    have h3 := filter_disjoint_length (fun l : LightPtr => !l.isVirtual)
      (fun l => l.isVirtual) frame.lights (by intro x hx; simpa using hx)
    have e1 : (RendererBackend.buildLightLists b frame).perLightShadowCastingDistToViewer.length
        ≤ (frame.lights.filter (fun l => !l.isVirtual)).length := by
      rw [← hsame]
      exact h1
    have e2 : (RendererBackend.buildLightLists b frame).perVPLDistToViewer.length
        ≤ (frame.lights.filter (fun l => l.isVirtual)).length := h2
    omega
  rw [hqueue, List.take_of_length_le (Nat.le_trans hlen (frames_cover _ _ hM))]
  rw [List.map_append]
  cases hvirt : l.isVirtual
  · apply List.mem_append_left
    have := lightVector_complete frame (fun l => !l.isVirtual && frame.castsShadows l)
      b.state.maxShadowCastingLightsPerFrame (by rw [hsame]; exact hcap) l hl
      (by simp [hvirt, hcast l hl])
    exact this
  · apply List.mem_append_right
    exact lightVector_complete frame (fun l => l.isVirtual)
      b.state.maxTotalVirtualPointLightsPerFrame hvcap l hl hvirt

/-- C16 on the example backend after `Begin` (one shadow update per frame), the
lights of every frame being the virtual light `lightV` and the regular light
`lightA`: two frames render the shadow maps of both. -/
theorem C16_amortized_across_frames_witness :
    ∃ rendered b1 queue1,
      RendererBackend.renderFrames { exampleFrame with lights := [lightV, lightA] }
        (([lightV, lightA].length + exampleReady.state.maxShadowUpdatesPerFrame - 1)
          / exampleReady.state.maxShadowUpdatesPerFrame) exampleReady []
        = some (rendered, b1, queue1) ∧
      ∀ l ∈ [lightV, lightA], l ∈ rendered.map Prod.fst :=
  C16_amortized_across_frames exampleReady { exampleFrame with lights := [lightV, lightA] }
    exampleReady_inv.regularOk exampleReady_inv.vplOk rfl rfl
    (fun _ _ => rfl) (by decide) (by decide) (by decide) (by decide) exampleReady_renderable

/-- C17, as stated, fails for the example backend after `Begin` and the example
frame: the world light and global illumination are both enabled, yet
`RenderScene` runs neither the VPL culling pass nor the VPL global illumination
pass, the frame holding no virtual point light. -/
theorem C17_counterexample :
    exampleFrame.worldLightEnabled = true ∧ exampleFrame.globalIlluminationEnabled = true ∧
    (exampleReady.RenderScene exampleFrame).map (fun r => r.1.passes) =
      some [RenderPass.pointLightUpdate, RenderPass.csmDepth, RenderPass.geometry,
        RenderPass.ssaoOcclude, RenderPass.ssaoBlur, RenderPass.atmosphericShadowing,
        RenderPass.deferredLighting, RenderPass.depthCopy, RenderPass.skybox,
        RenderPass.flatForward, RenderPass.bloom, RenderPass.atmosphericPostFx,
        RenderPass.fxaaLuminance, RenderPass.fxaaSmoothing, RenderPass.finalize] := by
  decide

/-- C17, amended: for every frame with at least one cascade, and with four to six
cascades when the world light is enabled, on a backend whose nine framebuffer
members hold a framebuffer, whose bloom vectors hold the elements the bloom pass
reads and whose caches satisfy the invariant of the reachable states,
`RenderScene` returns, having run its passes once each and in this order: point-light shadow update; cascaded shadow depth (iff the world light is
enabled); geometry; SSAO occlude; SSAO blur; atmospheric scattering (iff the
world light is enabled); deferred lighting; VPL culling then VPL global
illumination (iff the world light is enabled, global illumination is enabled
and the vector `perVPLDistToViewer` of the frame is not empty); depth copy;
skybox; flat forward; bloom; atmospheric post-composite (iff the world light is
enabled); FXAA luminance; FXAA smoothing; finalize. -/
theorem C17_pass_order (rp vp : List TextureHandle) (b : RendererBackend)
    (frame : RendererFrame) (hinv : BackendInv rp vp b)
    (hcsm : frame.worldLightEnabled = true → frame.cascades ≤ 6)
    (hready : Renderable b frame) :
    ∃ trace b1 queue, b.RenderScene frame = some (trace, b1, queue) ∧
      trace.passes.Nodup ∧
      trace.passes =
        [RenderPass.pointLightUpdate] ++
        (if frame.worldLightEnabled then [RenderPass.csmDepth] else []) ++
        [RenderPass.geometry, RenderPass.ssaoOcclude, RenderPass.ssaoBlur] ++
        (if frame.worldLightEnabled then [RenderPass.atmosphericShadowing] else []) ++
        [RenderPass.deferredLighting] ++
        (if frame.worldLightEnabled && frame.globalIlluminationEnabled &&
            decide ((RendererBackend.buildLightLists b frame).perVPLDistToViewer ≠ []) then
          [RenderPass.vplCulling, RenderPass.vplGlobalIllumination] else []) ++
        [RenderPass.depthCopy, RenderPass.skybox, RenderPass.flatForward, RenderPass.bloom] ++
        (if frame.worldLightEnabled then [RenderPass.atmosphericPostFx] else []) ++
        [RenderPass.fxaaLuminance, RenderPass.fxaaSmoothing, RenderPass.finalize] := by
  obtain ⟨trace, b1, hrs, -, -, -, -, hpass, -⟩ := hinv.renderScene frame hcsm hready
  refine ⟨trace, b1, _, hrs, ?_, ?_⟩
  · rw [hpass]
    unfold framePasses
    cases frame.worldLightEnabled <;> cases frame.globalIlluminationEnabled <;>
      cases decide ((RendererBackend.buildLightLists b frame).perVPLDistToViewer ≠ []) <;>
      decide
  · rw [hpass]
    rfl

/-- C17, amended, for the example backend after `Begin` and the example frame. -/
theorem C17_pass_order_witness :
    ∃ trace b1 queue, exampleReady.RenderScene exampleFrame = some (trace, b1, queue) ∧
      trace.passes.Nodup ∧
      trace.passes =
        [RenderPass.pointLightUpdate] ++
        (if exampleFrame.worldLightEnabled then [RenderPass.csmDepth] else []) ++
        [RenderPass.geometry, RenderPass.ssaoOcclude, RenderPass.ssaoBlur] ++
        (if exampleFrame.worldLightEnabled then [RenderPass.atmosphericShadowing] else []) ++
        [RenderPass.deferredLighting] ++
        (if exampleFrame.worldLightEnabled && exampleFrame.globalIlluminationEnabled &&
            decide ((RendererBackend.buildLightLists exampleReady
              exampleFrame).perVPLDistToViewer ≠ []) then
          [RenderPass.vplCulling, RenderPass.vplGlobalIllumination] else []) ++
        [RenderPass.depthCopy, RenderPass.skybox, RenderPass.flatForward, RenderPass.bloom] ++
        (if exampleFrame.worldLightEnabled then [RenderPass.atmosphericPostFx] else []) ++
        [RenderPass.fxaaLuminance, RenderPass.fxaaSmoothing, RenderPass.finalize] :=
  C17_pass_order exampleBackend._smapCache.shadowMap3DHandles
    exampleBackend._vplSmapCache.shadowMap3DHandles exampleReady exampleFrame
    exampleReady_inv (by decide) exampleReady_renderable

/-- The framebuffers that the viewport (re)allocation tests propagate their
failure: if one of the G-buffer, lighting, SSAO, SSAO blur, VPL GI, atmospheric,
bloom downsample or upsample, atmospheric post-FX and FXAA framebuffers that
`Begin` creates fails its completeness check, `Valid()` is false after `Begin`.
(With a clean viewport none of them is created.) -/
theorem validity_propagation_tested (complete : FboId → Bool) (b : RendererBackend)
    (frame : RendererFrame) (clearScreen : Bool) (r : List FboId × RendererBackend)
    (x : FboId) (hr : RendererBackend.Begin complete b frame clearScreen = some r)
    (hx : x ∈ r.1) (hv : x.validated = true) (hc : complete x = false) :
    r.2.Valid = false := by
  have h := updateWindowDimensions_spec complete frame (b._ClearRemovedLightData frame)
  rw [begin_some hr] at hx ⊢
  dsimp only at hx ⊢
  have hx2 : x ∈ (RendererBackend._UpdateWindowDimensions complete frame
      (b._ClearRemovedLightData frame)).1 := by
    rcases List.mem_append.mp hx with h1 | h1
    · unfold RendererBackend._RecalculateCascadeData at h1
      split at h1
      · rw [List.mem_singleton] at h1
        subst h1
        cases hv
      · cases h1
    · exact h1
  rcases h.1 with ⟨hok, -⟩ | ⟨-, hval⟩
  · exact (hok.not_failed x hx2 hv hc).elim
  · exact hval

/-- The tested framebuffers on the example backend and frame (dirty viewport), the
SSAO blur framebuffer failing its check. -/
theorem validity_propagation_tested_example :
    (RendererBackend.Begin (fun id => decide (id ≠ FboId.ssaoOcclusionBlurred))
      exampleBackend exampleFrame false).map
        (fun r => (decide (FboId.ssaoOcclusionBlurred ∈ r.1), r.2.Valid)) =
      some (true, false) := by
  decide

/-- C18, on the example backend and frame (dirty 64 x 64 viewport): the Gaussian
blur framebuffers of the bloom chain are created without a test of `valid()`.
When the first of them fails its completeness check (and no other framebuffer
does), `Begin` creates it, and every framebuffer it creates when all are
complete, and `Valid()` is true after `Begin`, with and without clearing of
the screen. -/
theorem C18_gaussian_blur_unchecked :
    (fun id => decide (id ≠ FboId.gaussianBlur 0 0)) (FboId.gaussianBlur 0 0) = false ∧
    (RendererBackend.Begin (fun id => decide (id ≠ FboId.gaussianBlur 0 0)) exampleBackend
      exampleFrame true).map
        (fun r => (decide (FboId.gaussianBlur 0 0 ∈ r.1), r.2.Valid)) = some (true, true) ∧
    (RendererBackend.Begin (fun id => decide (id ≠ FboId.gaussianBlur 0 0)) exampleBackend
      exampleFrame false).map
        (fun r => (decide (FboId.gaussianBlur 0 0 ∈ r.1), r.2.Valid)) = some (true, true) ∧
    (RendererBackend.Begin (fun id => decide (id ≠ FboId.gaussianBlur 0 0)) exampleBackend
      exampleFrame true).map Prod.fst
      = (RendererBackend.Begin (fun _ => true) exampleBackend exampleFrame true).map
          Prod.fst := by
  decide

/-- C19, as stated, fails for the example backend and frame when the second FXAA
framebuffer fails its completeness check in `Begin`: `Valid()` is false after
`Begin`, and `RenderScene` runs the geometry, SSAO, lighting, forward, post-FX
and finalize passes all the same. -/
theorem C19_counterexample :
    (RendererBackend.Begin (fun id => decide (id ≠ FboId.fxaa2)) exampleBackend
      exampleFrame true).map (fun r => r.2.Valid) = some false ∧
    ((RendererBackend.Begin (fun id => decide (id ≠ FboId.fxaa2)) exampleBackend
      exampleFrame true).bind (fun r => r.2.RenderScene exampleFrame)).map
        (fun r => r.1.passes) =
      some [RenderPass.pointLightUpdate, RenderPass.csmDepth, RenderPass.geometry,
        RenderPass.ssaoOcclude, RenderPass.ssaoBlur, RenderPass.atmosphericShadowing,
        RenderPass.deferredLighting, RenderPass.depthCopy, RenderPass.skybox,
        RenderPass.flatForward, RenderPass.bloom, RenderPass.atmosphericPostFx,
        RenderPass.fxaaLuminance, RenderPass.fxaaSmoothing, RenderPass.finalize] := by
  decide

/-- C19, amended: `RenderScene` does not consult the flag.  Whenever `Valid()` is
false on a renderable backend (the framebuffer members hold a framebuffer and
the bloom vectors their elements, as after a `Begin` in which the last
framebuffer created is the one that failed) whose caches satisfy the invariant
of the reachable states, for a frame with at most six cascades when the world
light is enabled, `RenderScene` returns having run the geometry, SSAO, lighting,
forward, post-FX and finalize passes, the same passes as with the flag set;
`Valid()` is still false afterwards, for the caller to read.  For every backend
and frame whatsoever, `RenderScene` with the flag set to a value is undefined
where it is undefined without, and otherwise returns the same trace and queue
and the same backend but for the flag. -/
theorem C19_renders_when_invalid (rp vp : List TextureHandle) (b : RendererBackend)
    (frame : RendererFrame) (hinv : BackendInv rp vp b)
    (hcsm : frame.worldLightEnabled = true → frame.cascades ≤ 6)
    (hready : Renderable b frame)
    (hval : b.Valid = false) :
    ∃ trace b1 queue, b.RenderScene frame = some (trace, b1, queue) ∧
      b1.Valid = false ∧
      (∀ p ∈ [RenderPass.geometry, RenderPass.ssaoOcclude, RenderPass.ssaoBlur,
          RenderPass.deferredLighting, RenderPass.depthCopy, RenderPass.skybox,
          RenderPass.flatForward, RenderPass.bloom, RenderPass.fxaaLuminance,
          RenderPass.fxaaSmoothing, RenderPass.finalize], p ∈ trace.passes) ∧
      (∃ trace2 b2 queue2,
        RendererBackend.RenderScene { b with _isValid := true } frame
          = some (trace2, b2, queue2) ∧
        trace2.passes = trace.passes) ∧
      ∀ (b0 : RendererBackend) (frame0 : RendererFrame) (v : Bool),
        RendererBackend.RenderScene { b0 with _isValid := v } frame0
          = (b0.RenderScene frame0).map
              (fun r => (r.1, { r.2.1 with _isValid := v }, r.2.2)) := by
  obtain ⟨trace, b1, hrs, -, hstep, -, -, hpass, -⟩ := hinv.renderScene frame hcsm hready
  have hinv2 : BackendInv rp vp { b with _isValid := true } :=
    ⟨hinv.regularOk, hinv.vplOk, hinv.regular, hinv.vpl⟩
  have hready2 : Renderable { b with _isValid := true } frame := hready
  obtain ⟨trace2, b2, hrs2, -, -, -, -, hpass2, -⟩ := hinv2.renderScene frame hcsm hready2
  refine ⟨trace, b1, _, hrs, ?_, ?_, ⟨trace2, b2, _, hrs2, ?_⟩,
    fun b0 frame0 v => renderScene_setValid v b0 frame0⟩
  · unfold RendererBackend.Valid at hval ⊢
    rw [hstep.2.2.1]; exact hval
  · rw [hpass]
    unfold framePasses
    intro p hp
    simp only [List.mem_cons, List.mem_singleton, List.not_mem_nil, or_false] at hp
    rcases hp with h | h | h | h | h | h | h | h | h | h | h <;> subst h <;> simp
  · rw [hpass, hpass2]
    rfl

/-- C19, amended, for the example backend after a `Begin` in which the second
FXAA framebuffer fails its completeness check. -/
theorem C19_renders_when_invalid_witness :
    exampleInvalid.Valid = false ∧
    ∃ trace b1 queue,
      exampleInvalid.RenderScene exampleFrame = some (trace, b1, queue) ∧
      b1.Valid = false ∧
      (∀ p ∈ [RenderPass.geometry, RenderPass.ssaoOcclude, RenderPass.ssaoBlur,
          RenderPass.deferredLighting, RenderPass.depthCopy, RenderPass.skybox,
          RenderPass.flatForward, RenderPass.bloom, RenderPass.fxaaLuminance,
          RenderPass.fxaaSmoothing, RenderPass.finalize], p ∈ trace.passes) ∧
      (∃ trace2 b2 queue2,
        RendererBackend.RenderScene { exampleInvalid with _isValid := true } exampleFrame
          = some (trace2, b2, queue2) ∧
        trace2.passes = trace.passes) ∧
      ∀ (b0 : RendererBackend) (frame0 : RendererFrame) (v : Bool),
        RendererBackend.RenderScene { b0 with _isValid := v } frame0
          = (b0.RenderScene frame0).map
              (fun r => (r.1, { r.2.1 with _isValid := v }, r.2.2)) :=
  ⟨by decide,
    C19_renders_when_invalid exampleBackend._smapCache.shadowMap3DHandles
      exampleBackend._vplSmapCache.shadowMap3DHandles exampleInvalid exampleFrame
      exampleInvalid_inv (by decide) exampleInvalid_renderable (by decide)⟩

/-- C20, as stated, fails for the example backend and frame when the G-buffer
fails its completeness check: the (re)allocation does not construct the
framebuffers it constructs when every check passes; the lighting framebuffer,
for one, is not constructed. -/
theorem C20_counterexample :
    ¬ ((RendererBackend._UpdateWindowDimensions (fun id => decide (id ≠ FboId.gBuffer))
          exampleFrame exampleBackend).1
        = (RendererBackend._UpdateWindowDimensions (fun _ => true) exampleFrame
          exampleBackend).1) ∧
    FboId.lighting ∉ (RendererBackend._UpdateWindowDimensions
      (fun id => decide (id ≠ FboId.gBuffer)) exampleFrame exampleBackend).1 := by
  decide

/-- C20, amended: when a framebuffer that the viewport (re)allocation tests
(`_UpdateWindowDimensions` with `_InitializePostFxBuffers`) fails its
completeness check, the (re)allocation stops there: that framebuffer is the last
one constructed, and `Valid()` is false afterwards. -/
theorem C20_stops_at_first_failure (complete : FboId → Bool) (b : RendererBackend)
    (frame : RendererFrame) (x : FboId)
    (hx : x ∈ (RendererBackend._UpdateWindowDimensions complete frame b).1)
    (hv : x.validated = true) (hc : complete x = false) :
    (RendererBackend._UpdateWindowDimensions complete frame b).1.getLast? = some x ∧
    (RendererBackend._UpdateWindowDimensions complete frame b).2.Valid = false := by
  have h := updateWindowDimensions_spec complete frame b
  rcases h.1 with ⟨hok, -⟩ | ⟨hst, hval⟩
  · exact (hok.not_failed x hx hv hc).elim
  · exact ⟨hst.last x hx hv hc, hval⟩

/-- C20, amended, for the example backend and frame, the SSAO framebuffer failing
its check. -/
theorem C20_stops_at_first_failure_witness :
    (RendererBackend._UpdateWindowDimensions (fun id => decide (id ≠ FboId.ssaoOcclusion))
      exampleFrame exampleBackend).1.getLast? = some FboId.ssaoOcclusion ∧
    (RendererBackend._UpdateWindowDimensions (fun id => decide (id ≠ FboId.ssaoOcclusion))
      exampleFrame exampleBackend).2.Valid = false :=
  C20_stops_at_first_failure (fun id => decide (id ≠ FboId.ssaoOcclusion)) exampleBackend
    exampleFrame FboId.ssaoOcclusion (by decide) rfl (by decide)

/-! ## The framebuffer (C21 .. C24, C26) -/

/-- The loop of `setAttachments` when the attachments still to come bring the
number of depth and depth-stencil textures to one at most: it does not throw,
the color textures are appended in order, each at the next color attachment
point, and the first depth or depth-stencil texture to come becomes the
depth/stencil attachment. -/
theorem attachLoop_classifies (l : List Texture) :
    ∀ (s : AttachState),
      s.numDepthStencilAttachments + (l.filter (fun t => t.isDepthFormat)).length ≤ 1 →
      (FrameBufferImpl.attachLoop l s).1 = none ∧
      (FrameBufferImpl.attachLoop l s).2.fb._colorAttachments
        = s.fb._colorAttachments ++ l.filter (fun t => !t.isDepthFormat) ∧
      (FrameBufferImpl.attachLoop l s).2.drawBuffers
        = s.drawBuffers ++ List.range' s.drawBuffers.length
            (l.filter (fun t => !t.isDepthFormat)).length ∧
      (FrameBufferImpl.attachLoop l s).2.fb._glColorAttachments
        = s.fb._glColorAttachments ++ List.range' s.drawBuffers.length
            (l.filter (fun t => !t.isDepthFormat)).length ∧
      (FrameBufferImpl.attachLoop l s).2.fb._depthStencilAttachment
        = (match (l.filter (fun t => t.isDepthFormat)).head? with
            | some d => some d
            | none => s.fb._depthStencilAttachment) ∧
      (FrameBufferImpl.attachLoop l s).2.fb._valid = s.fb._valid ∧
      (FrameBufferImpl.attachLoop l s).2.fb.glCalls.length = s.fb.glCalls.length + l.length ∧
      (∀ c ∈ s.fb.glCalls, c ∈ (FrameBufferImpl.attachLoop l s).2.fb.glCalls) ∧
      (∀ (i : Nat) (t : Texture), (l.filter (fun t => !t.isDepthFormat)).get? i = some t →
        GLCall.framebufferTexture (AttachmentPoint.color (s.drawBuffers.length + i)) t.underlying
          ∈ (FrameBufferImpl.attachLoop l s).2.fb.glCalls) ∧
      (∀ t ∈ l, t.format = TextureComponentFormat.DEPTH →
        GLCall.framebufferTexture AttachmentPoint.depth t.underlying
          ∈ (FrameBufferImpl.attachLoop l s).2.fb.glCalls) ∧
      (∀ t ∈ l, t.format = TextureComponentFormat.DEPTH_STENCIL →
        GLCall.framebufferTexture AttachmentPoint.depthStencil t.underlying
          ∈ (FrameBufferImpl.attachLoop l s).2.fb.glCalls) := by
  induction l with
  | nil =>
    intro s _
    refine ⟨rfl, by simp [FrameBufferImpl.attachLoop], by simp [FrameBufferImpl.attachLoop],
      by simp [FrameBufferImpl.attachLoop], rfl, rfl, rfl, fun c hc => hc, ?_, ?_, ?_⟩
    · intro i t h; simp at h
    · intro t h; cases h
    · intro t h; cases h
  | cons tex rest ih =>
    intro s hnum
    by_cases hd : tex.format = TextureComponentFormat.DEPTH
    · have hdep : tex.isDepthFormat = true := by simp [Texture.isDepthFormat, hd]
      simp only [List.filter_cons, hdep, if_true, List.length_cons] at hnum
      have h0 : ¬ s.numDepthStencilAttachments > 0 := by omega
      have hrest := ih
        { fb := { s.fb with
            glCalls := s.fb.glCalls ++
              [GLCall.framebufferTexture AttachmentPoint.depth tex.underlying]
            _depthStencilAttachment := some tex }
          numDepthStencilAttachments := s.numDepthStencilAttachments + 1
          drawBuffers := s.drawBuffers } (by simp only; omega)
      have hnone : (rest.filter (fun t => t.isDepthFormat)) = [] := by
        apply List.length_eq_zero.mp; omega
      have hval : FrameBufferImpl.attachLoop (tex :: rest) s = FrameBufferImpl.attachLoop rest
          { fb := { s.fb with
              glCalls := s.fb.glCalls ++
                [GLCall.framebufferTexture AttachmentPoint.depth tex.underlying]
              _depthStencilAttachment := some tex }
            numDepthStencilAttachments := s.numDepthStencilAttachments + 1
            drawBuffers := s.drawBuffers } := by
        simp only [FrameBufferImpl.attachLoop, hd, if_true, h0, if_false]
      rw [hval]
      obtain ⟨h1, h2, h3, h4, h5, h6, h7, h8, h9, h10, h11⟩ := hrest
      simp only at h2 h3 h4 h5 h6 h7 h8 h9
      refine ⟨h1, ?_, ?_, ?_, ?_, h6, ?_, ?_, ?_, ?_, ?_⟩
      · simp [List.filter_cons, hdep, h2]
      · simp [List.filter_cons, hdep, h3]
      · simp [List.filter_cons, hdep, h4]
      · rw [h5, hnone]
        simp [List.filter_cons, hdep]
      · rw [h7]; simp; omega
      · intro c hc
        exact h8 c (List.mem_append_left _ hc)
      · intro i t hi
        simp only [List.filter_cons, hdep, Bool.not_true, Bool.false_eq_true, if_false] at hi
        exact h9 i t hi
      · intro t ht hf
        rcases List.mem_cons.mp ht with h | h
        · subst h
          exact h8 _ (List.mem_append_right _ (List.mem_singleton_self _))
        · exact h10 t h hf
      · intro t ht hf
        rcases List.mem_cons.mp ht with h | h
        · subst h
          rw [hd] at hf
          cases hf
        · exact h11 t h hf
    · by_cases hds : tex.format = TextureComponentFormat.DEPTH_STENCIL
      · have hdep : tex.isDepthFormat = true := by simp [Texture.isDepthFormat, hds]
        simp only [List.filter_cons, hdep, if_true, List.length_cons] at hnum
        have h0 : ¬ s.numDepthStencilAttachments > 0 := by omega
        have hrest := ih
          { fb := { s.fb with
              glCalls := s.fb.glCalls ++
                [GLCall.framebufferTexture AttachmentPoint.depthStencil tex.underlying]
              _depthStencilAttachment := some tex }
            numDepthStencilAttachments := s.numDepthStencilAttachments + 1
            drawBuffers := s.drawBuffers } (by simp only; omega)
        have hnone : (rest.filter (fun t => t.isDepthFormat)) = [] := by
          apply List.length_eq_zero.mp; omega
        have hval : FrameBufferImpl.attachLoop (tex :: rest) s = FrameBufferImpl.attachLoop rest
            { fb := { s.fb with
                glCalls := s.fb.glCalls ++
                  [GLCall.framebufferTexture AttachmentPoint.depthStencil tex.underlying]
                _depthStencilAttachment := some tex }
              numDepthStencilAttachments := s.numDepthStencilAttachments + 1
              drawBuffers := s.drawBuffers } := by
          simp [FrameBufferImpl.attachLoop, hds, h0]
        rw [hval]
        obtain ⟨h1, h2, h3, h4, h5, h6, h7, h8, h9, h10, h11⟩ := hrest
        simp only at h2 h3 h4 h5 h6 h7 h8 h9
        refine ⟨h1, ?_, ?_, ?_, ?_, h6, ?_, ?_, ?_, ?_, ?_⟩
        · simp [List.filter_cons, hdep, h2]
        · simp [List.filter_cons, hdep, h3]
        · simp [List.filter_cons, hdep, h4]
        · rw [h5, hnone]
          simp [List.filter_cons, hdep]
        · rw [h7]; simp; omega
        · intro c hc
          exact h8 c (List.mem_append_left _ hc)
        · intro i t hi
          simp only [List.filter_cons, hdep, Bool.not_true, Bool.false_eq_true, if_false] at hi
          exact h9 i t hi
        · intro t ht hf
          rcases List.mem_cons.mp ht with h | h
          · subst h
            exact absurd hf hd
          · exact h10 t h hf
        · intro t ht hf
          rcases List.mem_cons.mp ht with h | h
          · subst h
            exact h8 _ (List.mem_append_right _ (List.mem_singleton_self _))
          · exact h11 t h hf
      · have hdep : tex.isDepthFormat = false := by simp [Texture.isDepthFormat, hd, hds]
        simp only [List.filter_cons, hdep, Bool.false_eq_true, if_false] at hnum
        have hrest := ih
          { fb := { s.fb with
              _glColorAttachments := s.fb._glColorAttachments ++ [s.drawBuffers.length]
              glCalls := s.fb.glCalls ++
                [GLCall.framebufferTexture (AttachmentPoint.color s.drawBuffers.length)
                  tex.underlying]
              _colorAttachments := s.fb._colorAttachments ++ [tex] }
            numDepthStencilAttachments := s.numDepthStencilAttachments
            drawBuffers := s.drawBuffers ++ [s.drawBuffers.length] } hnum
        have hval : FrameBufferImpl.attachLoop (tex :: rest) s = FrameBufferImpl.attachLoop rest
            { fb := { s.fb with
                _glColorAttachments := s.fb._glColorAttachments ++ [s.drawBuffers.length]
                glCalls := s.fb.glCalls ++
                  [GLCall.framebufferTexture (AttachmentPoint.color s.drawBuffers.length)
                    tex.underlying]
                _colorAttachments := s.fb._colorAttachments ++ [tex] }
              numDepthStencilAttachments := s.numDepthStencilAttachments
              drawBuffers := s.drawBuffers ++ [s.drawBuffers.length] } := by
          simp only [FrameBufferImpl.attachLoop, hd, hds, if_false]
        rw [hval]
        obtain ⟨h1, h2, h3, h4, h5, h6, h7, h8, h9, h10, h11⟩ := hrest
        simp only [List.length_append, List.length_singleton] at h2 h3 h4 h5 h6 h7 h8 h9
        refine ⟨h1, ?_, ?_, ?_, ?_, h6, ?_, ?_, ?_, ?_, ?_⟩
        · simp [List.filter_cons, hdep, h2]
        · simp [List.filter_cons, hdep, h3, List.range'_succ]
        · simp [List.filter_cons, hdep, h4, List.range'_succ]
        · rw [h5]
          simp [List.filter_cons, hdep]
        · rw [h7]; simp; omega
        · intro c hc
          exact h8 c (List.mem_append_left _ hc)
        · intro i t hi
          simp only [List.filter_cons, hdep, Bool.not_false, if_true] at hi
          cases i with
          | zero =>
            simp only [List.get?_cons_zero, Option.some.injEq] at hi
            subst hi
            exact h8 _ (List.mem_append_right _ (List.mem_singleton_self _))
          | succ i =>
            simp only [List.get?_cons_succ] at hi
            have := h9 i t hi
            rwa [show s.drawBuffers.length + 1 + i = s.drawBuffers.length + (i + 1) by omega]
              at this
        · intro t ht hf
          rcases List.mem_cons.mp ht with h | h
          · subst h
            exact absurd hf hd
          · exact h10 t h hf
        · intro t ht hf
          rcases List.mem_cons.mp ht with h | h
          · subst h
            exact absurd hf hds
          · exact h11 t h hf

/-- The loop of `setAttachments` when the attachments still to come bring the
number of depth and depth-stencil textures to two or more: it throws at the
second of them, and the validity flag is as it was before the loop. -/
theorem attachLoop_throws (l : List Texture) :
    ∀ (s : AttachState), s.numDepthStencilAttachments ≤ 1 →
      2 ≤ s.numDepthStencilAttachments + (l.filter (fun t => t.isDepthFormat)).length →
      ((FrameBufferImpl.attachLoop l s).1 = some FrameBufferError.moreThanOneDepth ∨
        (FrameBufferImpl.attachLoop l s).1 = some FrameBufferError.moreThanOneDepthStencil) ∧
      (FrameBufferImpl.attachLoop l s).2.fb._valid = s.fb._valid := by
  induction l with
  | nil =>
    intro s hle hnum
    simp only [List.filter_nil, List.length_nil, Nat.add_zero] at hnum
    omega
  | cons tex rest ih =>
    intro s hle hnum
    by_cases hd : tex.format = TextureComponentFormat.DEPTH
    · have hdep : tex.isDepthFormat = true := by simp [Texture.isDepthFormat, hd]
      simp only [List.filter_cons, hdep, if_true, List.length_cons] at hnum
      by_cases h0 : s.numDepthStencilAttachments > 0
      · have hval : FrameBufferImpl.attachLoop (tex :: rest) s
            = (some FrameBufferError.moreThanOneDepth, s) := by
          simp only [FrameBufferImpl.attachLoop, hd, if_true, h0]
        rw [hval]
        exact ⟨Or.inl rfl, rfl⟩
      · have hval : FrameBufferImpl.attachLoop (tex :: rest) s = FrameBufferImpl.attachLoop rest
            { fb := { s.fb with
                glCalls := s.fb.glCalls ++
                  [GLCall.framebufferTexture AttachmentPoint.depth tex.underlying]
                _depthStencilAttachment := some tex }
              numDepthStencilAttachments := s.numDepthStencilAttachments + 1
              drawBuffers := s.drawBuffers } := by
          simp only [FrameBufferImpl.attachLoop, hd, if_true, h0, if_false]
        rw [hval]
        exact ih _ (by simp only; omega) (by simp only; omega)
    · by_cases hds : tex.format = TextureComponentFormat.DEPTH_STENCIL
      · have hdep : tex.isDepthFormat = true := by simp [Texture.isDepthFormat, hds]
        simp only [List.filter_cons, hdep, if_true, List.length_cons] at hnum
        by_cases h0 : s.numDepthStencilAttachments > 0
        · have hval : FrameBufferImpl.attachLoop (tex :: rest) s
              = (some FrameBufferError.moreThanOneDepthStencil, s) := by
            simp [FrameBufferImpl.attachLoop, hds, h0]
          rw [hval]
          exact ⟨Or.inr rfl, rfl⟩
        · have hval : FrameBufferImpl.attachLoop (tex :: rest) s
              = FrameBufferImpl.attachLoop rest
              { fb := { s.fb with
                  glCalls := s.fb.glCalls ++
                    [GLCall.framebufferTexture AttachmentPoint.depthStencil tex.underlying]
                  _depthStencilAttachment := some tex }
                numDepthStencilAttachments := s.numDepthStencilAttachments + 1
                drawBuffers := s.drawBuffers } := by
            simp [FrameBufferImpl.attachLoop, hds, h0]
          rw [hval]
          exact ih _ (by simp only; omega) (by simp only; omega)
      · have hdep : tex.isDepthFormat = false := by simp [Texture.isDepthFormat, hd, hds]
        simp only [List.filter_cons, hdep, Bool.false_eq_true, if_false] at hnum
        have hval : FrameBufferImpl.attachLoop (tex :: rest) s = FrameBufferImpl.attachLoop rest
            { fb := { s.fb with
                _glColorAttachments := s.fb._glColorAttachments ++ [s.drawBuffers.length]
                glCalls := s.fb.glCalls ++
                  [GLCall.framebufferTexture (AttachmentPoint.color s.drawBuffers.length)
                    tex.underlying]
                _colorAttachments := s.fb._colorAttachments ++ [tex] }
              numDepthStencilAttachments := s.numDepthStencilAttachments
              drawBuffers := s.drawBuffers ++ [s.drawBuffers.length] } := by
          simp only [FrameBufferImpl.attachLoop, hd, hds, if_false]
        rw [hval]
        exact ih _ hle hnum

/-- The index test of `ClearColorLayer` and `SetColorTextureLayer` on a
framebuffer with `n` color attachments: an index below `n` is used, an index
above `n` makes the call throw, and the index `n` itself passes the test
`size() < index` and reads past the end of the vector. -/
theorem colorIndex_cases (fb : FrameBufferImpl) (i : Nat) :
    (i < fb._colorAttachments.length →
      ∃ color, fb._colorAttachments.get? i = some color ∧
        fb.ClearColorLayer i = Outcome.returned color) ∧
    (fb._colorAttachments.length < i →
      fb.ClearColorLayer i = Outcome.threw FrameBufferError.colorIndexExceeds) ∧
    (i = fb._colorAttachments.length → fb.ClearColorLayer i = Outcome.undefined) := by
  refine ⟨?_, ?_, ?_⟩
  · intro hi
    have hnot : ¬ fb._colorAttachments.length < i := by omega
    obtain ⟨color, hc⟩ : ∃ color, fb._colorAttachments.get? i = some color :=
      ⟨_, List.get?_eq_get hi⟩
    refine ⟨color, hc, ?_⟩
    simp only [FrameBufferImpl.ClearColorLayer, hnot, if_false, hc]
  · intro hi
    simp only [FrameBufferImpl.ClearColorLayer, hi, if_true]
  · intro hi
    subst hi
    have hnone : fb._colorAttachments.get? fb._colorAttachments.length = none :=
      List.get?_eq_none.mpr (Nat.le_refl _)
    simp only [FrameBufferImpl.ClearColorLayer, Nat.lt_irrefl, if_false, hnone]

/-- The index test of `SetColorTextureLayer`, for an attachment number that is
not negative and fits an `int`: the same three cases. -/
theorem attachmentNum_cases (fb : FrameBufferImpl) (i : Nat) (hint : i < 2 ^ 31) :
    (i < fb._colorAttachments.length →
      ∃ color, fb._colorAttachments.get? i = some color ∧
        fb.SetColorTextureLayer (i : Int)
          = Outcome.returned (AttachmentPoint.color i, color)) ∧
    (fb._colorAttachments.length < i →
      fb.SetColorTextureLayer (i : Int)
        = Outcome.threw FrameBufferError.attachmentNumberExceeds) ∧
    (i = fb._colorAttachments.length →
      fb.SetColorTextureLayer (i : Int) = Outcome.undefined) := by
  have hsize : FrameBufferImpl.intToSize (i : Int) = i := by
    unfold FrameBufferImpl.intToSize
    have h1 : ((i : Int) % 2 ^ 64) = (i : Int) := by
      apply Int.emod_eq_of_lt (Int.ofNat_nonneg i)
      have : (i : Int) < 2 ^ 31 := by exact_mod_cast hint
      omega
    rw [h1]
    exact Int.toNat_ofNat i
  refine ⟨?_, ?_, ?_⟩
  · intro hi
    have hnot : ¬ fb._colorAttachments.length < i := by omega
    obtain ⟨color, hc⟩ : ∃ color, fb._colorAttachments.get? i = some color :=
      ⟨_, List.get?_eq_get hi⟩
    refine ⟨color, hc, ?_⟩
    simp only [FrameBufferImpl.SetColorTextureLayer, hsize, hnot, if_false,
      FrameBufferImpl.getColorAttachments, hc]
  · intro hi
    simp only [FrameBufferImpl.SetColorTextureLayer, hsize, hi, if_true]
  · intro hi
    subst hi
    have hnone : fb._colorAttachments.get? fb._colorAttachments.length = none :=
      List.get?_eq_none.mpr (Nat.le_refl _)
    simp only [FrameBufferImpl.SetColorTextureLayer, hsize, Nat.lt_irrefl, if_false,
      FrameBufferImpl.getColorAttachments, hnone]

/-! ## The eviction branch, shared handles and the validity flag (C27 .. C29) -/

/-- `Begin` does not set the validity flag: once false, it is false afterwards. -/
theorem begin_valid_false {complete : FboId → Bool} {b : RendererBackend}
    {frame : RendererFrame} {clearScreen : Bool} {r : List FboId × RendererBackend}
    (hr : RendererBackend.Begin complete b frame clearScreen = some r)
    (hval : b.Valid = false) : r.2.Valid = false := by
  have h1 := clearRemovedLightData_step frame.lightsToRemove b
  have h2 := updateWindowDimensions_spec complete frame (b._ClearRemovedLightData frame)
  rw [begin_some hr]
  dsimp only
  unfold RendererBackend.Valid at hval ⊢
  unfold RendererBackend._ClearRemovedLightData at h2 ⊢
  rcases h2.1 with ⟨-, hsame⟩ | ⟨-, hfalse⟩
  · rw [hsame, h1.2.2.1]; exact hval
  · exact hfalse

/-! ## The bloom buffers (C30) -/

/-- The bloom loop when every downsample framebuffer is valid: it does not leave
the function, it adds one downsample buffer per size of `bloomDownsampleSizes`
and two Gaussian buffers with each, and counts them in
`numDownsampleIterations`. -/
theorem bloomDownsampleLoop_complete (complete : FboId → Bool)
    (hall : ∀ i, complete (FboId.bloomDownsample i) = true) (fuel : Nat) :
    ∀ (w h : Nat) (b : RendererBackend),
      (RendererBackend.bloomDownsampleLoop complete fuel w h b).2.2 = false ∧
      (RendererBackend.bloomDownsampleLoop complete fuel w h b).2.1.numDownsampleIterations
        = b.numDownsampleIterations + (RendererBackend.bloomDownsampleSizes fuel w h).length ∧
      (RendererBackend.bloomDownsampleLoop complete fuel w h b).2.1.numUpsampleIterations
        = b.numUpsampleIterations ∧
      (RendererBackend.bloomDownsampleLoop complete fuel w h b).2.1.postFxBuffers
        = b.postFxBuffers ++ (List.range' b.numDownsampleIterations
            (RendererBackend.bloomDownsampleSizes fuel w h).length).map FboId.bloomDownsample ∧
      (RendererBackend.bloomDownsampleLoop complete fuel w h b).2.1.gaussianBuffers.length
        = b.gaussianBuffers.length + 2 * (RendererBackend.bloomDownsampleSizes fuel w h).length ∧
      (RendererBackend.bloomDownsampleLoop complete fuel w h b).2.1._isValid = b._isValid := by
  induction fuel with
  | zero =>
    intro w h b
    simp [RendererBackend.bloomDownsampleLoop, RendererBackend.bloomDownsampleSizes]
  | succ fuel ih =>
    intro w h b
    by_cases hsmall : w / 2 < 8 ∨ h / 2 < 8
    · simp [RendererBackend.bloomDownsampleLoop, RendererBackend.bloomDownsampleSizes, hsmall]
    · have hc := hall b.numDownsampleIterations
      have hrec := ih (w / 2) (h / 2)
        { b with
          postFxBuffers := b.postFxBuffers ++ [FboId.bloomDownsample b.numDownsampleIterations]
          gaussianBuffers := b.gaussianBuffers ++
            [FboId.gaussianBlur b.numDownsampleIterations 0,
              FboId.gaussianBlur b.numDownsampleIterations 1]
          numDownsampleIterations := b.numDownsampleIterations + 1 }
      obtain ⟨h1, h2, h3, h4, h5, h6⟩ := hrec
      simp only [RendererBackend.bloomDownsampleLoop, RendererBackend.bloomDownsampleSizes,
        hsmall, if_false, hc, Bool.not_true, Bool.false_eq_true, List.length_cons]
      refine ⟨h1, ?_, h3, ?_, ?_, h6⟩
      · rw [h2]; simp only; omega
      · rw [h4]
        simp [List.range'_succ]
      · rw [h5]
        simp only [List.length_append, List.length_cons, List.length_nil]
        omega

/-- The upsample loop when every upsample framebuffer is valid. -/
theorem bloomUpsampleLoop_complete (complete : FboId → Bool)
    (hall : ∀ i, complete (FboId.bloomUpsample i) = true) (n : Nat) :
    ∀ (b : RendererBackend),
      (RendererBackend.bloomUpsampleLoop complete n b).2.2 = false ∧
      (RendererBackend.bloomUpsampleLoop complete n b).2.1.numDownsampleIterations
        = b.numDownsampleIterations ∧
      (RendererBackend.bloomUpsampleLoop complete n b).2.1.numUpsampleIterations
        = b.numUpsampleIterations + n ∧
      (RendererBackend.bloomUpsampleLoop complete n b).2.1.postFxBuffers
        = b.postFxBuffers ++ (List.range' b.numUpsampleIterations n).map FboId.bloomUpsample ∧
      (RendererBackend.bloomUpsampleLoop complete n b).2.1.gaussianBuffers = b.gaussianBuffers ∧
      (RendererBackend.bloomUpsampleLoop complete n b).2.1._isValid = b._isValid := by
  induction n with
  | zero =>
    intro b
    simp [RendererBackend.bloomUpsampleLoop]
  | succ n ih =>
    intro b
    have hc := hall b.numUpsampleIterations
    have hrec := ih
      { b with
        numUpsampleIterations := b.numUpsampleIterations + 1
        postFxBuffers := b.postFxBuffers ++ [FboId.bloomUpsample b.numUpsampleIterations] }
    obtain ⟨h1, h2, h3, h4, h5, h6⟩ := hrec
    simp only [RendererBackend.bloomUpsampleLoop, hc, Bool.not_true, Bool.false_eq_true,
      if_false]
    refine ⟨h1, h2, ?_, ?_, h5, h6⟩
    · rw [h3]; simp only; omega
    · rw [h4]
      simp [List.range'_succ]

/-- The sizes of the downsample buffers are as many as the halvings that leave
both dimensions at 8 or more, counted among the first `fuel` halvings. -/
theorem bloomDownsampleSizes_length (fuel : Nat) :
    ∀ (w h : Nat), (RendererBackend.bloomDownsampleSizes fuel w h).length
      = ((List.range fuel).filter
          (fun j => decide (8 ≤ w / 2 ^ (j + 1) ∧ 8 ≤ h / 2 ^ (j + 1)))).length := by
  induction fuel with
  | zero => intro w h; rfl
  | succ fuel ih =>
    intro w h
    have hdiv : ∀ (x j : Nat), x / 2 ^ (j + 1 + 1) = x / 2 / 2 ^ (j + 1) := by
      intro x j
      rw [Nat.div_div_eq_div_mul, pow_succ' 2 (j + 1)]
    by_cases hsmall : w / 2 < 8 ∨ h / 2 < 8
    · have hnone : (List.range (fuel + 1)).filter
          (fun j => decide (8 ≤ w / 2 ^ (j + 1) ∧ 8 ≤ h / 2 ^ (j + 1))) = [] := by
        apply List.filter_eq_nil_iff.mpr
        intro j _
        have hw : w / 2 ^ (j + 1) ≤ w / 2 :=
          Nat.div_le_div_left (by
            calc 2 = 2 ^ 1 := rfl
              _ ≤ 2 ^ (j + 1) := Nat.pow_le_pow_right (by decide) (by omega)) (by decide)
        have hh : h / 2 ^ (j + 1) ≤ h / 2 :=
          Nat.div_le_div_left (by
            calc 2 = 2 ^ 1 := rfl
              _ ≤ 2 ^ (j + 1) := Nat.pow_le_pow_right (by decide) (by omega)) (by decide)
        simp only [decide_eq_true_eq, not_and, Nat.not_le]
        intro h8
        rcases hsmall with hs | hs
        · omega
        · omega
      rw [hnone]
      simp [RendererBackend.bloomDownsampleSizes, hsmall]
    · have h0 : (8 ≤ w / 2 ^ (0 + 1) ∧ 8 ≤ h / 2 ^ (0 + 1)) := by
        simp only [Nat.zero_add, pow_one]
        omega
      simp only [RendererBackend.bloomDownsampleSizes, hsmall, if_false, List.length_cons,
        ih (w / 2) (h / 2)]
      rw [List.range_succ_eq_map, List.filter_cons, if_pos (by simpa using h0),
        List.length_cons, List.filter_map, List.length_map]
      congr 2
      apply List.filter_congr
      intro j _
      simp only [Function.comp, Nat.succ_eq_add_one, hdiv]

/-- The sizes of the downsample buffers are at most 8, and as many as the
specification counts. -/
theorem bloomDownsampleSizes_levels (w h : Nat) :
    (RendererBackend.bloomDownsampleSizes 8 w h).length = halvingsLeavingEight w h ∧
    (RendererBackend.bloomDownsampleSizes 8 w h).length ≤ 8 := by
  have h1 := bloomDownsampleSizes_length 8 w h
  refine ⟨h1, ?_⟩
  rw [h1]
  exact Nat.le_trans (List.length_filter_le _ _) (by simp)

/-- `_InitializePostFxBuffers` when every framebuffer is valid: the counters and
the two vectors afterwards, `k` being the number of downsample sizes. -/
theorem initializePostFxBuffers_complete (complete : FboId → Bool)
    (hall : ∀ id, complete id = true) (frame : RendererFrame) (b : RendererBackend) :
    (RendererBackend._InitializePostFxBuffers complete frame b).2.numDownsampleIterations
      = (RendererBackend.bloomDownsampleSizes 8 frame.viewportWidth
          frame.viewportHeight).length ∧
    (RendererBackend._InitializePostFxBuffers complete frame b).2.numUpsampleIterations
      = (RendererBackend.bloomDownsampleSizes 8 frame.viewportWidth
          frame.viewportHeight).length - 1 + 1 ∧
    (RendererBackend._InitializePostFxBuffers complete frame b).2.postFxBuffers
      = b.postFxBuffers ++
        (List.range' 0 (RendererBackend.bloomDownsampleSizes 8 frame.viewportWidth
          frame.viewportHeight).length).map FboId.bloomDownsample ++
        (List.range' 0 ((RendererBackend.bloomDownsampleSizes 8 frame.viewportWidth
          frame.viewportHeight).length - 1 + 1)).map FboId.bloomUpsample ++
        [FboId.atmosphericPostFx, FboId.fxaa1, FboId.fxaa2] ∧
    (RendererBackend._InitializePostFxBuffers complete frame b).2.gaussianBuffers.length
      = b.gaussianBuffers.length +
        2 * (RendererBackend.bloomDownsampleSizes 8 frame.viewportWidth
          frame.viewportHeight).length ∧
    (RendererBackend._InitializePostFxBuffers complete frame b).2._isValid = b._isValid := by
  have hd := bloomDownsampleLoop_complete complete (fun _ => hall _) 8 frame.viewportWidth
    frame.viewportHeight { b with numDownsampleIterations := 0, numUpsampleIterations := 0 }
  unfold RendererBackend._InitializePostFxBuffers
  dsimp only
  generalize RendererBackend.bloomDownsampleLoop complete 8 frame.viewportWidth
    frame.viewportHeight { b with numDownsampleIterations := 0, numUpsampleIterations := 0 }
    = down at hd ⊢
  obtain ⟨c1, b1, e1⟩ := down
  dsimp only at hd ⊢
  obtain ⟨he, hd1, hd2, hd3, hd4, hd5⟩ := hd
  subst he
  simp only [Bool.false_eq_true, if_false]
  have hu := bloomUpsampleLoop_complete complete (fun _ => hall _)
    (b1.numDownsampleIterations - 1 + 1) b1
  generalize RendererBackend.bloomUpsampleLoop complete (b1.numDownsampleIterations - 1 + 1) b1
    = up at hu ⊢
  obtain ⟨c2, b2, e2⟩ := up
  dsimp only at hu ⊢
  obtain ⟨he, hu1, hu2, hu3, hu4, hu5⟩ := hu
  subst he
  simp only [Bool.false_eq_true, if_false, hall, Bool.not_true,
    assignFramebuffer_numDownsampleIterations, assignFramebuffer_numUpsampleIterations,
    assignFramebuffer_postFxBuffers, assignFramebuffer_gaussianBuffers,
    assignFramebuffer_isValid]
  simp only [Nat.zero_add] at hd1 hd2 hd3
  refine ⟨?_, ?_, ?_, ?_, ?_⟩
  · rw [hu1, hd1]
  · rw [hu2, hd2, hd1]; omega
  · rw [hu3, hd3, hd2, hd1]
    simp
  · rw [hu4, hd4]
  · rw [hu5, hd5]
/-- The bloom loop does not touch the framebuffer members. -/
theorem bloomDownsampleLoop_framebuffers (complete : FboId → Bool) (fuel : Nat) :
    ∀ (w h : Nat) (b : RendererBackend),
      (RendererBackend.bloomDownsampleLoop complete fuel w h b).2.1.framebuffers
        = b.framebuffers := by
  induction fuel with
  | zero => intro w h b; rfl
  | succ fuel ih =>
    intro w h b
    by_cases hsmall : w / 2 < 8 ∨ h / 2 < 8
    · simp [RendererBackend.bloomDownsampleLoop, hsmall]
    · by_cases hc : complete (FboId.bloomDownsample b.numDownsampleIterations) = true
      · simp only [RendererBackend.bloomDownsampleLoop, hsmall, if_false, hc, Bool.not_true,
          Bool.false_eq_true]
        rw [ih]
      · have hc2 : complete (FboId.bloomDownsample b.numDownsampleIterations) = false := by
          simpa using hc
        simp only [RendererBackend.bloomDownsampleLoop, hsmall, if_false, hc2, Bool.not_false,
          if_true]

/-- The upsample loop does not touch the framebuffer members. -/
theorem bloomUpsampleLoop_framebuffers (complete : FboId → Bool) (n : Nat) :
    ∀ (b : RendererBackend),
      (RendererBackend.bloomUpsampleLoop complete n b).2.1.framebuffers = b.framebuffers := by
  induction n with
  | zero => intro b; rfl
  | succ n ih =>
    intro b
    by_cases hc : complete (FboId.bloomUpsample b.numUpsampleIterations) = true
    · simp only [RendererBackend.bloomUpsampleLoop, hc, Bool.not_true, Bool.false_eq_true,
        if_false]
      rw [ih]
    · have hc2 : complete (FboId.bloomUpsample b.numUpsampleIterations) = false := by
        simpa using hc
      simp only [RendererBackend.bloomUpsampleLoop, hc2, Bool.not_false, if_true]

/-- `_InitializePostFxBuffers` when every bloom framebuffer is complete, whatever
the atmospheric post-FX and FXAA framebuffers are: the counters, the sizes of
the two vectors and the framebuffer members afterwards. -/
theorem initializePostFxBuffers_bloom (complete : FboId → Bool)
    (hdown : ∀ i, complete (FboId.bloomDownsample i) = true)
    (hup : ∀ i, complete (FboId.bloomUpsample i) = true)
    (frame : RendererFrame) (b : RendererBackend) :
    (RendererBackend._InitializePostFxBuffers complete frame b).2.numDownsampleIterations
      = (RendererBackend.bloomDownsampleSizes 8 frame.viewportWidth
          frame.viewportHeight).length ∧
    (RendererBackend._InitializePostFxBuffers complete frame b).2.numUpsampleIterations
      = (RendererBackend.bloomDownsampleSizes 8 frame.viewportWidth
          frame.viewportHeight).length - 1 + 1 ∧
    (RendererBackend.bloomDownsampleSizes 8 frame.viewportWidth frame.viewportHeight).length +
        ((RendererBackend.bloomDownsampleSizes 8 frame.viewportWidth
          frame.viewportHeight).length - 1 + 1)
      ≤ (RendererBackend._InitializePostFxBuffers complete frame b).2.postFxBuffers.length ∧
    (RendererBackend._InitializePostFxBuffers complete frame b).2.gaussianBuffers.length
      = b.gaussianBuffers.length +
        2 * (RendererBackend.bloomDownsampleSizes 8 frame.viewportWidth
          frame.viewportHeight).length ∧
    (∀ id ∈ b.framebuffers,
      id ∈ (RendererBackend._InitializePostFxBuffers complete frame b).2.framebuffers) ∧
    FboId.atmosphericPostFx ∈
      (RendererBackend._InitializePostFxBuffers complete frame b).2.framebuffers ∧
    (complete FboId.atmosphericPostFx = true → complete FboId.fxaa1 = true →
      FboId.fxaa1 ∈ (RendererBackend._InitializePostFxBuffers complete frame b).2.framebuffers ∧
      FboId.fxaa2 ∈
        (RendererBackend._InitializePostFxBuffers complete frame b).2.framebuffers) := by
  have hd := bloomDownsampleLoop_complete complete hdown 8 frame.viewportWidth
    frame.viewportHeight { b with numDownsampleIterations := 0, numUpsampleIterations := 0 }
  have hdf := bloomDownsampleLoop_framebuffers complete 8 frame.viewportWidth
    frame.viewportHeight { b with numDownsampleIterations := 0, numUpsampleIterations := 0 }
  unfold RendererBackend._InitializePostFxBuffers
  dsimp only
  generalize RendererBackend.bloomDownsampleLoop complete 8 frame.viewportWidth
    frame.viewportHeight { b with numDownsampleIterations := 0, numUpsampleIterations := 0 }
    = down at hd hdf ⊢
  obtain ⟨c1, b1, e1⟩ := down
  dsimp only at hd hdf ⊢
  obtain ⟨he, hd1, hd2, hd3, hd4, -⟩ := hd
  subst he
  simp only [Bool.false_eq_true, if_false]
  have hu := bloomUpsampleLoop_complete complete hup (b1.numDownsampleIterations - 1 + 1) b1
  have huf := bloomUpsampleLoop_framebuffers complete (b1.numDownsampleIterations - 1 + 1) b1
  generalize RendererBackend.bloomUpsampleLoop complete (b1.numDownsampleIterations - 1 + 1) b1
    = up at hu huf ⊢
  obtain ⟨c2, b2, e2⟩ := up
  dsimp only at hu huf ⊢
  obtain ⟨he, hu1, hu2, hu3, hu4, -⟩ := hu
  subst he
  simp only [Bool.false_eq_true, if_false]
  simp only [Nat.zero_add] at hd1 hd2 hd3
  have hfb : b2.framebuffers = b.framebuffers := by rw [huf, hdf]
  have hlen : (RendererBackend.bloomDownsampleSizes 8 frame.viewportWidth
        frame.viewportHeight).length +
      ((RendererBackend.bloomDownsampleSizes 8 frame.viewportWidth
        frame.viewportHeight).length - 1 + 1) ≤ b2.postFxBuffers.length := by
    rw [hu3, hd3, hd2, hd1]
    simp
  have hnd : b2.numDownsampleIterations
      = (RendererBackend.bloomDownsampleSizes 8 frame.viewportWidth
          frame.viewportHeight).length := by rw [hu1, hd1]
  have hnu : b2.numUpsampleIterations
      = (RendererBackend.bloomDownsampleSizes 8 frame.viewportWidth
          frame.viewportHeight).length - 1 + 1 := by rw [hu2, hd2, hd1]; omega
  have hg : b2.gaussianBuffers.length = b.gaussianBuffers.length +
      2 * (RendererBackend.bloomDownsampleSizes 8 frame.viewportWidth
        frame.viewportHeight).length := by rw [hu4, hd4]
  by_cases ha : complete FboId.atmosphericPostFx = true
  · by_cases hf1 : complete FboId.fxaa1 = true
    · by_cases hf2 : complete FboId.fxaa2 = true
      · simp only [ha, hf1, hf2, Bool.not_true, Bool.false_eq_true, if_false,
          assignFramebuffer_numDownsampleIterations, assignFramebuffer_numUpsampleIterations,
          assignFramebuffer_postFxBuffers, assignFramebuffer_gaussianBuffers,
          assignFramebuffer_framebuffers, hfb]
        refine ⟨hnd, hnu, ?_, hg, ?_, ?_, ?_⟩
        · simp only [List.length_append, List.length_cons, List.length_nil]
          omega
        · intro id hid
          simp [hid]
        · simp
        · intro _ _
          simp
      · have hf2' : complete FboId.fxaa2 = false := by simpa using hf2
        simp only [ha, hf1, hf2', Bool.not_true, Bool.not_false, Bool.false_eq_true, if_false,
          if_true,
          assignFramebuffer_numDownsampleIterations, assignFramebuffer_numUpsampleIterations,
          assignFramebuffer_postFxBuffers, assignFramebuffer_gaussianBuffers,
          assignFramebuffer_framebuffers, hfb]
        refine ⟨hnd, hnu, ?_, hg, ?_, ?_, ?_⟩
        · simp only [List.length_append, List.length_cons, List.length_nil]
          omega
        · intro id hid
          simp [hid]
        · simp
        · intro _ _
          simp
    · have hf1' : complete FboId.fxaa1 = false := by simpa using hf1
      simp only [ha, hf1', Bool.not_true, Bool.not_false, Bool.false_eq_true, if_false,
        if_true,
        assignFramebuffer_numDownsampleIterations, assignFramebuffer_numUpsampleIterations,
        assignFramebuffer_postFxBuffers, assignFramebuffer_gaussianBuffers,
        assignFramebuffer_framebuffers, hfb]
      refine ⟨hnd, hnu, ?_, hg, ?_, ?_, ?_⟩
      · simp only [List.length_append, List.length_cons, List.length_nil]
        omega
      · intro id hid
        simp [hid]
      · simp
      · intro _ h
        exact h.elim
  · have ha' : complete FboId.atmosphericPostFx = false := by simpa using ha
    simp only [ha', Bool.not_false, if_true,
      assignFramebuffer_numDownsampleIterations, assignFramebuffer_numUpsampleIterations,
      assignFramebuffer_postFxBuffers, assignFramebuffer_gaussianBuffers,
      assignFramebuffer_framebuffers, hfb]
    refine ⟨hnd, hnu, hlen, hg, ?_, ?_, ?_⟩
    · intro id hid
      simp [hid]
    · simp
    · intro h
      cases h

/-- The elements the bloom pass reads or writes lie inside their vectors when the
counters and the sizes of the vectors are as `_InitializePostFxBuffers` leaves
them, `k` being the number of downsample buffers. -/
theorem bloomAccesses_in_range (b : RendererBackend) (k : Nat)
    (h1 : b.numDownsampleIterations = k) (h2 : b.numUpsampleIterations = k - 1 + 1)
    (hlen : k + (k - 1 + 1) ≤ b.postFxBuffers.length)
    (h4 : 2 * k ≤ b.gaussianBuffers.length) :
    ∀ a ∈ b._PerformBloomPostFx,
      0 ≤ a.2 ∧ a.2 < (b.bloomVectorSize a.1 : Int) := by
  intro a ha
  unfold RendererBackend._PerformBloomPostFx at ha
  rw [h1] at ha
  rcases List.mem_append.mp ha with hd | hu
  · unfold RendererBackend.bloomDownsampleStage at hd
    obtain ⟨n, hn, hmem⟩ := List.mem_flatMap.mp hd
    have hn' : n < k := List.mem_range.mp hn
    by_cases h0 : (n : Int) = 0
    · simp only [h0, if_true, List.append_nil, List.singleton_append, List.mem_cons,
        List.mem_singleton, List.not_mem_nil, or_false] at hmem
      rcases hmem with h | h | h | h | h | h <;> subst h <;>
        simp only [RendererBackend.bloomVectorSize, h1, h2] <;>
        constructor <;> omega
    · simp only [h0, if_false, List.singleton_append, List.cons_append, List.nil_append,
        List.mem_cons, List.mem_singleton, List.not_mem_nil, or_false] at hmem
      rcases hmem with h | h | h | h | h | h | h <;> subst h <;>
        simp only [RendererBackend.bloomVectorSize, h1, h2] <;>
        constructor <;> omega
  · unfold RendererBackend.bloomUpsampleStage at hu
    obtain ⟨n, hn, hmem⟩ := List.mem_flatMap.mp hu
    have hn' : n < k := List.mem_range.mp hn
    by_cases h0 : (k : Int) - 1 - (n : Int) = 0
    · simp only [h0, if_true, List.append_nil, List.cons_append, List.nil_append,
        List.mem_cons, List.mem_singleton, List.not_mem_nil, or_false] at hmem
      rcases hmem with h | h | h <;> subst h <;>
        simp only [RendererBackend.bloomVectorSize, h1, h2] <;>
        constructor <;> omega
    · simp only [h0, if_false, List.cons_append, List.nil_append,
        List.mem_cons, List.mem_singleton, List.not_mem_nil, or_false] at hmem
      rcases hmem with h | h | h | h <;> subst h <;>
        simp only [RendererBackend.bloomVectorSize, h1, h2] <;>
        constructor <;> omega
/-- After a viewport (re)allocation in which every framebuffer is complete, but
possibly the last one created, the second FXAA framebuffer, the backend is
renderable, for a frame with a cascade and with four of them when the world
light is enabled. -/
theorem updateWindowDimensions_renderable (complete : FboId → Bool) (frame : RendererFrame)
    (b : RendererBackend) (hdirty : frame.viewportDirty = true)
    (hall : ∀ id, id ≠ FboId.fxaa2 → complete id = true)
    (hc1 : 1 ≤ frame.cascades) (hc4 : frame.worldLightEnabled = true → 4 ≤ frame.cascades) :
    Renderable (RendererBackend._UpdateWindowDimensions complete frame b).2 frame := by
  have h1 := hall FboId.gBuffer (by decide)
  have h2 := hall FboId.lighting (by decide)
  have h3 := hall FboId.ssaoOcclusion (by decide)
  have h4 := hall FboId.ssaoOcclusionBlurred (by decide)
  have h5 := hall FboId.vplGI (by decide)
  have h6 := hall FboId.atmospheric (by decide)
  have hp := initializePostFxBuffers_bloom complete (fun i => hall _ (by simp))
    (fun i => hall _ (by simp)) frame
    ((((((b._ClearGBuffer.assignFramebuffer FboId.gBuffer).assignFramebuffer
      FboId.lighting).assignFramebuffer FboId.ssaoOcclusion).assignFramebuffer
      FboId.ssaoOcclusionBlurred).assignFramebuffer FboId.vplGI).assignFramebuffer
      FboId.atmospheric)
  unfold RendererBackend._UpdateWindowDimensions
  simp only [hdirty, h1, h2, h3, h4, h5, h6, Bool.not_true, Bool.false_eq_true, if_false]
  generalize RendererBackend._InitializePostFxBuffers complete frame
    ((((((b._ClearGBuffer.assignFramebuffer FboId.gBuffer).assignFramebuffer
      FboId.lighting).assignFramebuffer FboId.ssaoOcclusion).assignFramebuffer
      FboId.ssaoOcclusionBlurred).assignFramebuffer FboId.vplGI).assignFramebuffer
      FboId.atmospheric) = r at hp ⊢
  obtain ⟨hnd, hnu, hlen, hg, hkeep, hatm, hfxaa⟩ := hp
  simp only [assignFramebuffer_framebuffers] at hkeep
  obtain ⟨hf1, hf2⟩ := hfxaa (hall _ (by decide)) (hall _ (by decide))
  refine ⟨hc1, hc4, ?_, ?_⟩
  · intro id hid
    simp only [List.mem_cons, List.mem_singleton, List.not_mem_nil, or_false] at hid
    rcases hid with h | h | h | h | h | h | h | h | h <;> subst h
    · exact hkeep _ (by simp)
    · exact hkeep _ (by simp)
    · exact hkeep _ (by simp)
    · exact hkeep _ (by simp)
    · exact hkeep _ (by simp)
    · exact hkeep _ (by simp)
    · exact hatm
    · exact hf1
    · exact hf2
  · exact bloomAccesses_in_range r.2 _ hnd hnu hlen (by rw [hg]; omega)

/-- A `Begin` with a dirty viewport in which every framebuffer is complete, but
possibly the last one created, the second FXAA framebuffer, returns, with or
without clearing of the screen, and leaves the backend renderable. -/
theorem begin_renderable (complete : FboId → Bool) (frame : RendererFrame)
    (b : RendererBackend) (clearScreen : Bool) (hdirty : frame.viewportDirty = true)
    (hall : ∀ id, id ≠ FboId.fxaa2 → complete id = true)
    (hc1 : 1 ≤ frame.cascades) (hc4 : frame.worldLightEnabled = true → 4 ≤ frame.cascades) :
    ∃ r, RendererBackend.Begin complete b frame clearScreen = some r ∧
      Renderable r.2 frame := by
  have hr := updateWindowDimensions_renderable complete frame (b._ClearRemovedLightData frame)
    hdirty hall hc1 hc4
  have hclear : (RendererBackend._UpdateWindowDimensions complete frame
      (b._ClearRemovedLightData frame)).2._ClearFramebufferData clearScreen = some () := by
    unfold RendererBackend._ClearFramebufferData
    cases clearScreen
    · rfl
    · simp only [if_true]
      exact hr.uses _ (by simp)
  refine ⟨(RendererBackend._RecalculateCascadeData frame ++
      (RendererBackend._UpdateWindowDimensions complete frame
        (b._ClearRemovedLightData frame)).1,
    (RendererBackend._UpdateWindowDimensions complete frame
      (b._ClearRemovedLightData frame)).2), ?_, hr⟩
  simp only [RendererBackend.Begin, hclear]

/-! ## The lights pushed to the update queue (C25) -/

/-- A sorted and truncated vector of `_UpdatePointLights`: it holds at most `max`
entries, in ascending order of distance, and every entry is at most as far as
every light satisfying `p` that is not in the vector. -/
theorem lightVector_nearest_le (frame : RendererFrame) (p : LightPtr → Bool) (max : Nat) :
    (RendererBackend.truncate (RendererBackend.sortByDistance
      ((frame.lights.filter p).map (fun light => (light, frame.distance light)))) max).length
      ≤ max ∧
    (RendererBackend.truncate (RendererBackend.sortByDistance
      ((frame.lights.filter p).map (fun light => (light, frame.distance light)))) max).Pairwise
      (fun a b => a.2 ≤ b.2) ∧
    ∀ e ∈ RendererBackend.truncate (RendererBackend.sortByDistance
      ((frame.lights.filter p).map (fun light => (light, frame.distance light)))) max,
      ∀ l ∈ frame.lights, p l = true →
        l ∉ (RendererBackend.truncate (RendererBackend.sortByDistance
          ((frame.lights.filter p).map (fun light => (light, frame.distance light))))
            max).map Prod.fst →
        e.2 ≤ frame.distance l := by
  rw [truncate_eq_take]
  have hperm := sortByDistance_perm
    ((frame.lights.filter p).map (fun light => (light, frame.distance light)))
  have hsorted := sortByDistance_sorted
    ((frame.lights.filter p).map (fun light => (light, frame.distance light)))
  generalize RendererBackend.sortByDistance
    ((frame.lights.filter p).map (fun light => (light, frame.distance light))) = S
    at hperm hsorted ⊢
  refine ⟨?_, hsorted.sublist (List.take_sublist _ _), ?_⟩
  · rw [List.length_take]
    exact Nat.min_le_left _ _
  · intro e he l hl hp hnot
    have hmem : (l, frame.distance l) ∈ S :=
      hperm.symm.subset (List.mem_map.mpr ⟨l, List.mem_filter.mpr ⟨hl, hp⟩, rfl⟩)
    rw [← List.take_append_drop max S] at hmem hsorted
    rcases List.mem_append.mp hmem with h1 | h1
    · exact absurd (List.mem_map.mpr ⟨_, h1, rfl⟩) hnot
    · exact (List.pairwise_append.mp hsorted).2.2 e he _ h1
/-- A sorted and truncated vector of `_UpdatePointLights` holds as many entries as
there are lights satisfying `p`, up to `max`: it is the first `max` entries of
an arrangement, in ascending order of distance, of the lights of the frame that
satisfy `p`, each with its distance. -/
theorem lightVector_filled (frame : RendererFrame) (p : LightPtr → Bool) (max : Nat) :
    (RendererBackend.truncate (RendererBackend.sortByDistance
      ((frame.lights.filter p).map (fun light => (light, frame.distance light)))) max).length
      = min max (frame.lights.filter p).length ∧
    ∃ sorted : List (LightPtr × Nat),
      sorted.Perm ((frame.lights.filter p).map (fun light => (light, frame.distance light))) ∧
      sorted.Pairwise (fun a b => a.2 ≤ b.2) ∧
      RendererBackend.truncate (RendererBackend.sortByDistance
        ((frame.lights.filter p).map (fun light => (light, frame.distance light)))) max
        = sorted.take max := by
  have hperm := sortByDistance_perm
    ((frame.lights.filter p).map (fun light => (light, frame.distance light)))
  have hsorted := sortByDistance_sorted
    ((frame.lights.filter p).map (fun light => (light, frame.distance light)))
  refine ⟨?_, _, hperm, hsorted, truncate_eq_take _ _⟩
  rw [truncate_eq_take, List.length_take, hperm.length_eq, List.length_map]

/-! ## The claims about the framebuffer and the remaining claims (C21 .. C30) -/

/-- C21, as stated, fails for the attachment list `[depthTex, depthStencilTex]`:
constructing a `FrameBuffer` from it throws, so that no framebuffer results
whose `valid()` could be false; and when `setAttachments` throws, the flag
`_valid` holds `true`, the value the function starts with. -/
theorem C21_counterexample :
    FrameBuffer.construct [depthTex, depthStencilTex] true
      = Outcome.threw FrameBufferError.moreThanOneDepthStencil ∧
    (¬ ∃ fb, FrameBuffer.construct [depthTex, depthStencilTex] true = Outcome.returned fb ∧
      fb.valid = false) ∧
    (FrameBufferImpl.fresh.setAttachments [depthTex, depthStencilTex] true).1.valid = true := by
  refine ⟨by decide, ?_, by decide⟩
  rintro ⟨fb, h, -⟩
  have h2 : FrameBuffer.construct [depthTex, depthStencilTex] true
      = Outcome.threw FrameBufferError.moreThanOneDepthStencil := by decide
  rw [h2] at h
  cases h

/-- C21, amended: for every attachment list that contains two textures of a
depth format (`DEPTH` and/or `DEPTH_STENCIL`), constructing a `FrameBuffer`
from it throws (`std::runtime_error`, at the second such texture, before the
completeness check), whatever the completeness check would answer: no
framebuffer is constructed, and the flag `_valid` is not set to false. -/
theorem C21_two_depth_attachments_throw (attachments : List Texture) (complete : Bool)
    (htwo : 2 ≤ (attachments.filter (fun t => t.isDepthFormat)).length) :
    (FrameBuffer.construct attachments complete
        = Outcome.threw FrameBufferError.moreThanOneDepth ∨
      FrameBuffer.construct attachments complete
        = Outcome.threw FrameBufferError.moreThanOneDepthStencil) ∧
    (FrameBufferImpl.fresh.setAttachments attachments complete).1.valid = true := by
  have hloop := attachLoop_throws attachments
    (AttachState.mk { FrameBufferImpl.fresh with _valid := true } 0 [])
    (by simp) (by simpa using htwo)
  have hguard : ¬ (FrameBufferImpl.fresh._colorAttachments.length > 0 ∨
      FrameBufferImpl.fresh._depthStencilAttachment.isSome = true) := by
    simp [FrameBufferImpl.fresh]
  have hset : ∀ e, (FrameBufferImpl.attachLoop attachments
      (AttachState.mk { FrameBufferImpl.fresh with _valid := true } 0 [])).1 = some e →
      FrameBufferImpl.fresh.setAttachments attachments complete
        = ((FrameBufferImpl.attachLoop attachments
            (AttachState.mk { FrameBufferImpl.fresh with _valid := true } 0 [])).2.fb,
          Outcome.threw e) := by
    intro e he
    unfold FrameBufferImpl.setAttachments
    rw [if_neg hguard]
    dsimp only
    rw [he]
  obtain ⟨hthrow, hvalid⟩ := hloop
  rcases hthrow with he | he
  · rw [hset _ he]
    exact ⟨Or.inl (by unfold FrameBuffer.construct; rw [hset _ he]), hvalid⟩
  · rw [hset _ he]
    exact ⟨Or.inr (by unfold FrameBuffer.construct; rw [hset _ he]), hvalid⟩

/-- C21, amended, for the attachment list `[colorTex, depthTex, depthTex]`. -/
theorem C21_two_depth_attachments_throw_witness :
    (FrameBuffer.construct [colorTex, depthTex, depthTex] false
        = Outcome.threw FrameBufferError.moreThanOneDepth ∨
      FrameBuffer.construct [colorTex, depthTex, depthTex] false
        = Outcome.threw FrameBufferError.moreThanOneDepthStencil) ∧
    (FrameBufferImpl.fresh.setAttachments [colorTex, depthTex, depthTex] false).1.valid
      = true :=
  C21_two_depth_attachments_throw [colorTex, depthTex, depthTex] false (by decide)

/-- C22: depth-only framebuffer.  For an attachment list of exactly one texture,
of the format `DEPTH` or `DEPTH_STENCIL`, the constructor does not throw; the
framebuffer has no color attachment and that texture as its depth/stencil
attachment; the texture is attached to the depth (or depth-stencil) attachment
point, no color draw buffer is bound (`glDrawBuffer(GL_NONE)` and
`glReadBuffer(GL_NONE)` are the only other calls), and `valid()` is what the
completeness check answers. -/
theorem C22_depth_only_framebuffer (tex : Texture) (complete : Bool)
    (hdepth : tex.isDepthFormat = true) :
    ∃ fb impl, FrameBuffer.construct [tex] complete = Outcome.returned fb ∧
      fb._fbo = some impl ∧
      impl.getColorAttachments = [] ∧
      impl._glColorAttachments = [] ∧
      impl.getDepthStencilAttachment = some tex ∧
      impl.glCalls =
        [GLCall.framebufferTexture
            (if tex.format = TextureComponentFormat.DEPTH then AttachmentPoint.depth
              else AttachmentPoint.depthStencil) tex.underlying,
          GLCall.drawBufferNone, GLCall.readBufferNone] ∧
      fb.valid = complete := by
  have key : FrameBufferImpl.fresh.setAttachments [tex] complete =
      ({ _colorAttachments := [], _glColorAttachments := [],
         _depthStencilAttachment := some tex, _valid := complete,
         glCalls :=
          [GLCall.framebufferTexture
              (if tex.format = TextureComponentFormat.DEPTH then AttachmentPoint.depth
                else AttachmentPoint.depthStencil) tex.underlying,
            GLCall.drawBufferNone, GLCall.readBufferNone] }, Outcome.returned ()) := by
    by_cases hd : tex.format = TextureComponentFormat.DEPTH
    · cases complete <;>
        simp [FrameBufferImpl.setAttachments, FrameBufferImpl.fresh,
          FrameBufferImpl.attachLoop, hd]
    · have hds : tex.format = TextureComponentFormat.DEPTH_STENCIL := by
        simpa [Texture.isDepthFormat, hd] using hdepth
      cases complete <;>
        simp [FrameBufferImpl.setAttachments, FrameBufferImpl.fresh,
          FrameBufferImpl.attachLoop, hds]
  have hc : FrameBuffer.construct [tex] complete = Outcome.returned
      { _fbo := some (FrameBufferImpl.fresh.setAttachments [tex] complete).1 } := by
    unfold FrameBuffer.construct
    rw [key]
  rw [key] at hc
  exact ⟨_, _, hc, rfl, rfl, rfl, rfl, rfl, rfl⟩

/-- C22 for the depth texture `depthTex`, the completeness check answering
complete. -/
theorem C22_depth_only_framebuffer_witness :
    ∃ fb impl, FrameBuffer.construct [depthTex] true = Outcome.returned fb ∧
      fb._fbo = some impl ∧
      impl.getColorAttachments = [] ∧
      impl._glColorAttachments = [] ∧
      impl.getDepthStencilAttachment = some depthTex ∧
      impl.glCalls =
        [GLCall.framebufferTexture
            (if depthTex.format = TextureComponentFormat.DEPTH then AttachmentPoint.depth
              else AttachmentPoint.depthStencil) depthTex.underlying,
          GLCall.drawBufferNone, GLCall.readBufferNone] ∧
      fb.valid = true :=
  C22_depth_only_framebuffer depthTex true (by decide)

/-- C24: the index test `size() < index` lets the index `n` of a framebuffer with
`n` color attachments through.  On a framebuffer with the one color attachment
`colorTex`, `ClearColorLayer(rgba, 1, layer)` and `SetColorTextureLayer(1,
mipLevel, layer)` do not throw: both read `_colorAttachments[1]`, past the end
of the vector. -/
theorem C24_index_equal_to_size_not_refused :
    (FrameBufferImpl.fresh.setAttachments [colorTex] true).1.getColorAttachments.length = 1 ∧
    (FrameBufferImpl.fresh.setAttachments [colorTex] true).1.ClearColorLayer 1
      = Outcome.undefined ∧
    (FrameBufferImpl.fresh.setAttachments [colorTex] true).1.SetColorTextureLayer 1
      = Outcome.undefined ∧
    (FrameBufferImpl.fresh.setAttachments [colorTex] true).1.ClearColorLayer 2
      = Outcome.threw FrameBufferError.colorIndexExceeds ∧
    (FrameBufferImpl.fresh.setAttachments [colorTex] true).1.ClearColorLayer 0
      = Outcome.returned colorTex := by
  decide

/-- C25: shadow update scheduling.  `_UpdatePointLights` starts its drain loop
from the queue `lightsToUpate` followed by the lights it appends, which are:
the lights of the truncated shadow-caster vector (at most
`maxShadowCastingLightsPerFrame` regular shadow casters of the frame, in
ascending order of distance, none farther than a regular shadow caster left
out) for which `_ShadowMapExistsForLight` is false, in the order of the vector,
then the lights of the truncated VPL vector (at most
`maxTotalVirtualPointLightsPerFrame` virtual lights of the frame, in ascending
order of distance, none farther than a virtual light left out) for which it is
false, in the order of the vector.  Each truncated vector is filled: it holds
as many entries as the frame has lights of its kind, up to its cap, namely the
first entries of an arrangement of all the lights of its kind in ascending
order of distance.  A light with a cache entry is not appended, nor is a light
that is in neither truncated vector. -/
theorem C25_shadow_update_scheduling (b : RendererBackend) (frame : RendererFrame) :
    b._UpdatePointLights frame
      = (RendererBackend.drainShadowUpdates frame.castsShadows
          b.state.maxShadowUpdatesPerFrame b
          (frame.lightsToUpate ++
            (((RendererBackend.buildLightLists b frame).perLightShadowCastingDistToViewer.map
                Prod.fst).filter (fun l => !b._ShadowMapExistsForLight l) ++
              ((RendererBackend.buildLightLists b frame).perVPLDistToViewer.map
                Prod.fst).filter (fun l => !b._ShadowMapExistsForLight l)))).map
          (fun r => (RendererBackend.buildLightLists b frame, r.1, r.2.1, r.2.2)) ∧
    RendererBackend.enqueueShadowUpdates b (RendererBackend.buildLightLists b frame)
        frame.lightsToUpate
      = frame.lightsToUpate ++
          (((RendererBackend.buildLightLists b frame).perLightShadowCastingDistToViewer.map
              Prod.fst).filter (fun l => !b._ShadowMapExistsForLight l) ++
            ((RendererBackend.buildLightLists b frame).perVPLDistToViewer.map
              Prod.fst).filter (fun l => !b._ShadowMapExistsForLight l)) ∧
    (RendererBackend.buildLightLists b frame).perLightShadowCastingDistToViewer.length
      ≤ b.state.maxShadowCastingLightsPerFrame ∧
    (RendererBackend.buildLightLists b frame).perVPLDistToViewer.length
      ≤ b.state.maxTotalVirtualPointLightsPerFrame ∧
    (RendererBackend.buildLightLists b frame).perLightShadowCastingDistToViewer.length
      = min b.state.maxShadowCastingLightsPerFrame
          (frame.lights.filter (fun l => !l.isVirtual && frame.castsShadows l)).length ∧
    (RendererBackend.buildLightLists b frame).perVPLDistToViewer.length
      = min b.state.maxTotalVirtualPointLightsPerFrame
          (frame.lights.filter (fun l => l.isVirtual)).length ∧
    (∃ sorted : List (LightPtr × Nat),
      sorted.Perm ((frame.lights.filter (fun l => !l.isVirtual && frame.castsShadows l)).map
        (fun light => (light, frame.distance light))) ∧
      sorted.Pairwise (fun e1 e2 => e1.2 ≤ e2.2) ∧
      (RendererBackend.buildLightLists b frame).perLightShadowCastingDistToViewer
        = sorted.take b.state.maxShadowCastingLightsPerFrame) ∧
    (∃ sorted : List (LightPtr × Nat),
      sorted.Perm ((frame.lights.filter (fun l => l.isVirtual)).map
        (fun light => (light, frame.distance light))) ∧
      sorted.Pairwise (fun e1 e2 => e1.2 ≤ e2.2) ∧
      (RendererBackend.buildLightLists b frame).perVPLDistToViewer
        = sorted.take b.state.maxTotalVirtualPointLightsPerFrame) ∧
    (RendererBackend.buildLightLists b frame).perLightShadowCastingDistToViewer.Pairwise
      (fun e1 e2 => e1.2 ≤ e2.2) ∧
    (RendererBackend.buildLightLists b frame).perVPLDistToViewer.Pairwise
      (fun e1 e2 => e1.2 ≤ e2.2) ∧
    (∀ e ∈ (RendererBackend.buildLightLists b frame).perLightShadowCastingDistToViewer,
      e.1 ∈ frame.lights ∧ e.1.isVirtual = false ∧ frame.castsShadows e.1 = true ∧
      e.2 = frame.distance e.1 ∧
      ∀ l ∈ frame.lights, l.isVirtual = false → frame.castsShadows l = true →
        l ∉ (RendererBackend.buildLightLists b frame).perLightShadowCastingDistToViewer.map
          Prod.fst →
        e.2 ≤ frame.distance l) ∧
    (∀ e ∈ (RendererBackend.buildLightLists b frame).perVPLDistToViewer,
      e.1 ∈ frame.lights ∧ e.1.isVirtual = true ∧ e.2 = frame.distance e.1 ∧
      ∀ l ∈ frame.lights, l.isVirtual = true →
        l ∉ (RendererBackend.buildLightLists b frame).perVPLDistToViewer.map Prod.fst →
        e.2 ≤ frame.distance l) ∧
    (∀ l, b._ShadowMapExistsForLight l = true →
      l ∉ ((RendererBackend.buildLightLists b frame).perLightShadowCastingDistToViewer.map
            Prod.fst).filter (fun l => !b._ShadowMapExistsForLight l) ++
          ((RendererBackend.buildLightLists b frame).perVPLDistToViewer.map
            Prod.fst).filter (fun l => !b._ShadowMapExistsForLight l)) ∧
    (∀ l,
      l ∉ (RendererBackend.buildLightLists b frame).perLightShadowCastingDistToViewer.map
        Prod.fst →
      l ∉ (RendererBackend.buildLightLists b frame).perVPLDistToViewer.map Prod.fst →
      l ∉ ((RendererBackend.buildLightLists b frame).perLightShadowCastingDistToViewer.map
            Prod.fst).filter (fun l => !b._ShadowMapExistsForLight l) ++
          ((RendererBackend.buildLightLists b frame).perVPLDistToViewer.map
            Prod.fst).filter (fun l => !b._ShadowMapExistsForLight l)) := by
  have hs := lightVector_nearest_le frame (fun l => !l.isVirtual && frame.castsShadows l)
    b.state.maxShadowCastingLightsPerFrame
  have hv := lightVector_nearest_le frame (fun l => l.isVirtual)
    b.state.maxTotalVirtualPointLightsPerFrame
  have henq : RendererBackend.enqueueShadowUpdates b (RendererBackend.buildLightLists b frame)
      frame.lightsToUpate
      = frame.lightsToUpate ++
          (((RendererBackend.buildLightLists b frame).perLightShadowCastingDistToViewer.map
              Prod.fst).filter (fun l => !b._ShadowMapExistsForLight l) ++
            ((RendererBackend.buildLightLists b frame).perVPLDistToViewer.map
              Prod.fst).filter (fun l => !b._ShadowMapExistsForLight l)) := by
    unfold RendererBackend.enqueueShadowUpdates
    rw [List.map_append, List.filter_append]
  have hsf := lightVector_filled frame (fun l => !l.isVirtual && frame.castsShadows l)
    b.state.maxShadowCastingLightsPerFrame
  have hvf := lightVector_filled frame (fun l => l.isVirtual)
    b.state.maxTotalVirtualPointLightsPerFrame
  refine ⟨?_, henq, hs.1, hv.1, hsf.1, hvf.1, hsf.2, hvf.2, hs.2.1, hv.2.1, ?_, ?_, ?_, ?_⟩
  · unfold RendererBackend._UpdatePointLights
    dsimp only
    rw [henq]
    cases RendererBackend.drainShadowUpdates frame.castsShadows
      b.state.maxShadowUpdatesPerFrame b
      (frame.lightsToUpate ++
        (((RendererBackend.buildLightLists b frame).perLightShadowCastingDistToViewer.map
            Prod.fst).filter (fun l => !b._ShadowMapExistsForLight l) ++
          ((RendererBackend.buildLightLists b frame).perVPLDistToViewer.map
            Prod.fst).filter (fun l => !b._ShadowMapExistsForLight l))) with
    | none => rfl
    | some r => rfl
  · intro e he
    have hm := mem_lightVector frame (fun l => !l.isVirtual && frame.castsShadows l) _ e he
    have hp : e.1.isVirtual = false ∧ frame.castsShadows e.1 = true := by
      simpa using hm.2.1
    refine ⟨hm.1, hp.1, hp.2, hm.2.2, ?_⟩
    intro l hl hreg hc hnot
    exact hs.2.2 e he l hl (by simp [hreg, hc]) hnot
  · intro e he
    have hm := mem_lightVector frame (fun l => l.isVirtual) _ e he
    refine ⟨hm.1, hm.2.1, hm.2.2, ?_⟩
    intro l hl hvirt hnot
    exact hv.2.2 e he l hl hvirt hnot
  · intro l hex hmem
    rcases List.mem_append.mp hmem with h | h
    · have := (List.mem_filter.mp h).2
      simp [hex] at this
    · have := (List.mem_filter.mp h).2
      simp [hex] at this
  · intro l h1 h2 hmem
    rcases List.mem_append.mp hmem with h | h
    · exact h1 (List.mem_filter.mp h).1
    · exact h2 (List.mem_filter.mp h).1

/-- C26: attachment classification.  For every attachment list with at most one
texture of a depth format, `setAttachments` on a new framebuffer returns;
`getColorAttachments()` is the list of the textures of the other formats, in
input order, the `i`-th of them attached to the color attachment point `i`;
`getDepthStencilAttachment()` is the texture of a depth format when there is
one (and the null texture otherwise), attached to the depth attachment point
when its format is `DEPTH` and to the depth-stencil attachment point when it
is `DEPTH_STENCIL`; and `valid()` is what the completeness check answers. -/
theorem C26_attachment_classification (attachments : List Texture) (complete : Bool)
    (hone : (attachments.filter (fun t => t.isDepthFormat)).length ≤ 1) :
    (FrameBufferImpl.fresh.setAttachments attachments complete).2 = Outcome.returned () ∧
    (FrameBufferImpl.fresh.setAttachments attachments complete).1.getColorAttachments
      = attachments.filter (fun t => !t.isDepthFormat) ∧
    (FrameBufferImpl.fresh.setAttachments attachments complete).1._glColorAttachments
      = List.range (attachments.filter (fun t => !t.isDepthFormat)).length ∧
    (FrameBufferImpl.fresh.setAttachments attachments complete).1.getDepthStencilAttachment
      = (attachments.filter (fun t => t.isDepthFormat)).head? ∧
    (∀ (i : Nat) (t : Texture),
      (attachments.filter (fun t => !t.isDepthFormat)).get? i = some t →
      GLCall.framebufferTexture (AttachmentPoint.color i) t.underlying
        ∈ (FrameBufferImpl.fresh.setAttachments attachments complete).1.glCalls) ∧
    (∀ t ∈ attachments, t.format = TextureComponentFormat.DEPTH →
      GLCall.framebufferTexture AttachmentPoint.depth t.underlying
        ∈ (FrameBufferImpl.fresh.setAttachments attachments complete).1.glCalls) ∧
    (∀ t ∈ attachments, t.format = TextureComponentFormat.DEPTH_STENCIL →
      GLCall.framebufferTexture AttachmentPoint.depthStencil t.underlying
        ∈ (FrameBufferImpl.fresh.setAttachments attachments complete).1.glCalls) ∧
    (FrameBufferImpl.fresh.setAttachments attachments complete).1.valid = complete := by
  obtain ⟨h1, h2, h3, h4, h5, h6, -, -, h9, h10, h11⟩ := attachLoop_classifies attachments
    (AttachState.mk { FrameBufferImpl.fresh with _valid := true } 0 [])
    (by simpa using hone)
  have hguard : ¬ (FrameBufferImpl.fresh._colorAttachments.length > 0 ∨
      FrameBufferImpl.fresh._depthStencilAttachment.isSome = true) := by
    simp [FrameBufferImpl.fresh]
  unfold FrameBufferImpl.setAttachments
  rw [if_neg hguard]
  dsimp only
  generalize FrameBufferImpl.attachLoop attachments
    (AttachState.mk { FrameBufferImpl.fresh with _valid := true } 0 []) = r
    at h1 h2 h3 h4 h5 h6 h9 h10 h11 ⊢
  obtain ⟨e, s1⟩ := r
  dsimp only at h1 h2 h3 h4 h5 h6 h9 h10 h11 ⊢
  subst h1
  dsimp only
  simp only [FrameBufferImpl.fresh, List.nil_append, List.length_nil, Nat.zero_add] at h2 h4 h5 h9
  have hdepth : s1.fb._depthStencilAttachment
      = (attachments.filter (fun t => t.isDepthFormat)).head? := by
    rw [h5]
    cases (attachments.filter (fun t => t.isDepthFormat)).head? <;> rfl
  have hrange : s1.fb._glColorAttachments
      = List.range (attachments.filter (fun t => !t.isDepthFormat)).length := by
    rw [h4, List.range_eq_range']
  by_cases hdb : s1.drawBuffers.length = 0
  · cases complete
    · refine ⟨rfl, ?_, ?_, ?_, ?_, ?_, ?_, ?_⟩ <;>
        simp only [hdb, if_true, Bool.not_false, FrameBufferImpl.getColorAttachments,
          FrameBufferImpl.getDepthStencilAttachment, FrameBufferImpl.valid]
      · exact h2
      · exact hrange
      · exact hdepth
      · intro i t hi; exact List.mem_append_left _ (h9 i t hi)
      · intro t ht hf; exact List.mem_append_left _ (h10 t ht hf)
      · intro t ht hf; exact List.mem_append_left _ (h11 t ht hf)
    · refine ⟨rfl, ?_, ?_, ?_, ?_, ?_, ?_, ?_⟩ <;>
        simp only [hdb, if_true, Bool.not_true, Bool.false_eq_true, if_false,
          FrameBufferImpl.getColorAttachments,
          FrameBufferImpl.getDepthStencilAttachment, FrameBufferImpl.valid]
      · exact h2
      · exact hrange
      · exact hdepth
      · intro i t hi; exact List.mem_append_left _ (h9 i t hi)
      · intro t ht hf; exact List.mem_append_left _ (h10 t ht hf)
      · intro t ht hf; exact List.mem_append_left _ (h11 t ht hf)
      · exact h6
  · cases complete
    · refine ⟨rfl, ?_, ?_, ?_, ?_, ?_, ?_, ?_⟩ <;>
        simp only [hdb, if_false, Bool.not_false, if_true, FrameBufferImpl.getColorAttachments,
          FrameBufferImpl.getDepthStencilAttachment, FrameBufferImpl.valid]
      · exact h2
      · exact hrange
      · exact hdepth
      · intro i t hi; exact List.mem_append_left _ (h9 i t hi)
      · intro t ht hf; exact List.mem_append_left _ (h10 t ht hf)
      · intro t ht hf; exact List.mem_append_left _ (h11 t ht hf)
    · refine ⟨rfl, ?_, ?_, ?_, ?_, ?_, ?_, ?_⟩ <;>
        simp only [hdb, if_false, Bool.not_true, Bool.false_eq_true,
          FrameBufferImpl.getColorAttachments,
          FrameBufferImpl.getDepthStencilAttachment, FrameBufferImpl.valid]
      · exact h2
      · exact hrange
      · exact hdepth
      · intro i t hi; exact List.mem_append_left _ (h9 i t hi)
      · intro t ht hf; exact List.mem_append_left _ (h10 t ht hf)
      · intro t ht hf; exact List.mem_append_left _ (h11 t ht hf)
      · exact h6

/-- C26 for the attachment list `[colorTex, depthTex, colorTex2]`, the
completeness check answering complete. -/
theorem C26_attachment_classification_witness :
    (FrameBufferImpl.fresh.setAttachments [colorTex, depthTex, colorTex2] true).2
      = Outcome.returned () ∧
    (FrameBufferImpl.fresh.setAttachments [colorTex, depthTex, colorTex2]
        true).1.getColorAttachments
      = [colorTex, depthTex, colorTex2].filter (fun t => !t.isDepthFormat) ∧
    (FrameBufferImpl.fresh.setAttachments [colorTex, depthTex, colorTex2]
        true).1._glColorAttachments
      = List.range ([colorTex, depthTex, colorTex2].filter (fun t => !t.isDepthFormat)).length ∧
    (FrameBufferImpl.fresh.setAttachments [colorTex, depthTex, colorTex2]
        true).1.getDepthStencilAttachment
      = ([colorTex, depthTex, colorTex2].filter (fun t => t.isDepthFormat)).head? ∧
    (∀ (i : Nat) (t : Texture),
      ([colorTex, depthTex, colorTex2].filter (fun t => !t.isDepthFormat)).get? i = some t →
      GLCall.framebufferTexture (AttachmentPoint.color i) t.underlying
        ∈ (FrameBufferImpl.fresh.setAttachments [colorTex, depthTex, colorTex2]
            true).1.glCalls) ∧
    (∀ t ∈ [colorTex, depthTex, colorTex2], t.format = TextureComponentFormat.DEPTH →
      GLCall.framebufferTexture AttachmentPoint.depth t.underlying
        ∈ (FrameBufferImpl.fresh.setAttachments [colorTex, depthTex, colorTex2]
            true).1.glCalls) ∧
    (∀ t ∈ [colorTex, depthTex, colorTex2], t.format = TextureComponentFormat.DEPTH_STENCIL →
      GLCall.framebufferTexture AttachmentPoint.depthStencil t.underlying
        ∈ (FrameBufferImpl.fresh.setAttachments [colorTex, depthTex, colorTex2]
            true).1.glCalls) ∧
    (FrameBufferImpl.fresh.setAttachments [colorTex, depthTex, colorTex2] true).1.valid
      = true :=
  C26_attachment_classification [colorTex, depthTex, colorTex2] true (by decide)

/-- C27: the eviction branch is safe.  In every state of the cache of a non-empty
pool that `GetOrAllocate` and `Remove` calls reach from the empty cache, when
`_GetOrAllocateShadowMapHandleForLight` finds no entry for the light and no
free pool handle, `lruLightCache` is not empty and its front light has an
entry in `lightsToShadowMap`; the call returns the handle of that entry, which
is a handle of the pool and not the null handle. -/
theorem C27_eviction_branch_safe (pool : List TextureHandle) (cache : ShadowMapCache)
    (light : LightPtr) (hpool : PoolOk pool) (hr : Reachable pool cache)
    (hl : mapFind cache.lightsToShadowMap light = none)
    (hs : scanFreeHandle cache = TextureHandle.Null) :
    ∃ oldest rest h cache1,
      cache.lruLightCache = oldest :: rest ∧
      mapFind cache.lightsToShadowMap oldest = some h ∧
      _GetOrAllocateShadowMapHandleForLight cache light = some (h, cache1) ∧
      h ∈ pool ∧ h ≠ TextureHandle.Null := by
  have hinv := hr.inv hpool
  rcases getOrAllocate_cases hpool hinv light with ⟨h2, hl2, -⟩ | ⟨-, hs2, -⟩ |
    ⟨-, -, oldest, rest, h1, hlru, ho, hg⟩
  · rw [hl] at hl2; cases hl2
  · exact absurd hs hs2
  · have hmem : h1 ∈ pool := hinv.vals_sub _ (mapFind_mem _ _ _ ho)
    exact ⟨oldest, rest, h1, _, hlru, ho, hg, hmem, fun h0 => hpool.2.2 (h0 ▸ hmem)⟩

/-- C27 for the pool `[1, 2]` after requests for `lightA` and `lightB`, the
request for `lightC` taking the eviction branch. -/
theorem C27_eviction_branch_safe_witness :
    ∃ oldest rest h cache1,
      (assigned (assigned (ShadowMapCache.empty [1, 2]) [] lightA 1) [lightA] lightB
        2).lruLightCache = oldest :: rest ∧
      mapFind (assigned (assigned (ShadowMapCache.empty [1, 2]) [] lightA 1) [lightA] lightB
        2).lightsToShadowMap oldest = some h ∧
      _GetOrAllocateShadowMapHandleForLight
        (assigned (assigned (ShadowMapCache.empty [1, 2]) [] lightA 1) [lightA] lightB 2)
        lightC = some (h, cache1) ∧
      h ∈ [1, 2] ∧ h ≠ TextureHandle.Null :=
  C27_eviction_branch_safe [1, 2]
    (assigned (assigned (ShadowMapCache.empty [1, 2]) [] lightA 1) [lightA] lightB 2) lightC
    (by decide)
    (Reachable.getOrAllocate
      (Reachable.getOrAllocate Reachable.init
        (show _GetOrAllocateShadowMapHandleForLight (ShadowMapCache.empty [1, 2]) lightA
          = some (1, assigned (ShadowMapCache.empty [1, 2]) [] lightA 1) from by decide))
      (show _GetOrAllocateShadowMapHandleForLight
          (assigned (ShadowMapCache.empty [1, 2]) [] lightA 1) lightB
          = some (2, assigned (assigned (ShadowMapCache.empty [1, 2]) [] lightA 1) [lightA]
              lightB 2) from by decide))
    (by decide) (by decide)

/-- C28: two virtual point lights of one frame share a shadow map.  On the
example backend (VPL pool of the two handles 4 and 5), after requests for
`lightV`, `lightW` and `lightX` (the third evicts `lightV`, whose entry in
`lightsToShadowMap` stays), `_PerformVirtualPointLightCulling` for the two
distinct lights `lightV` and `lightX` obtains the handle 4 for both. -/
theorem C28_shared_shadow_map :
    exampleBackend._vplSmapCache.shadowMap3DHandles = [4, 5] ∧
    (exampleBackend.runOps [CacheOp.getOrAllocate lightV, CacheOp.getOrAllocate lightW,
        CacheOp.getOrAllocate lightX]).map (fun r => r.1)
      = some [(lightV, 4), (lightW, 5), (lightX, 4)] ∧
    ((exampleBackend.runOps [CacheOp.getOrAllocate lightV, CacheOp.getOrAllocate lightW,
        CacheOp.getOrAllocate lightX]).bind
      (fun r => r.2._PerformVirtualPointLightCulling [(lightV, 1), (lightX, 2)]
        exampleFrame)).map
        (fun r => r.2.1)
      = some [4, 4] := by
  decide

/-- C29: invalidity is not sticky across `RecompileShaders`.  On the example
backend, a `Begin` in which the second FXAA framebuffer fails its completeness
check (or, without clearing of the screen, the G-buffer) leaves `Valid()` false;
a `RecompileShaders` in which both pipelines compile then makes `Valid()` true
again, although no framebuffer has been created anew. -/
theorem C29_recompile_resets_invalid_flag :
    (RendererBackend.Begin (fun id => decide (id ≠ FboId.fxaa2)) exampleBackend
      exampleFrame true).map (fun r => r.2.Valid) = some false ∧
    (RendererBackend.Begin (fun id => decide (id ≠ FboId.fxaa2)) exampleBackend
      exampleFrame true).map (fun r => (r.2.RecompileShaders [true, true]).Valid)
      = some true ∧
    (RendererBackend.Begin (fun id => decide (id ≠ FboId.gBuffer)) exampleBackend
      exampleFrame false).map (fun r => r.2.Valid) = some false ∧
    (RendererBackend.Begin (fun id => decide (id ≠ FboId.gBuffer)) exampleBackend
      exampleFrame false).map (fun r => (r.2.RecompileShaders [true, true]).Valid)
      = some true := by
  decide

/-- C30: bloom buffer indexing is in range.  When every post-FX framebuffer is
valid, `_InitializePostFxBuffers` (on the empty vectors `_ClearGBuffer` leaves)
sets `numDownsampleIterations` to `k`, the number (at most 8) of successive
integer halvings after which both viewport dimensions are still at least 8; it
creates `k` downsample buffers and `2 * k` Gaussian buffers, then `max k 1`
upsample buffers, the last of the viewport size, then the atmospheric and the
two FXAA buffers; and every index `_PerformBloomPostFx` uses into
`postFxBuffers`, `gaussianBuffers` and `finalizedPostFxFrames` is within
bounds. -/
theorem C30_bloom_indices_in_range (complete : FboId → Bool) (frame : RendererFrame)
    (b : RendererBackend) (hall : ∀ id, complete id = true)
    (hpost : b.postFxBuffers = []) (hgauss : b.gaussianBuffers = []) :
    (RendererBackend._InitializePostFxBuffers complete frame b).2.numDownsampleIterations
      = halvingsLeavingEight frame.viewportWidth frame.viewportHeight ∧
    halvingsLeavingEight frame.viewportWidth frame.viewportHeight ≤ 8 ∧
    (RendererBackend.bloomDownsampleSizes 8 frame.viewportWidth frame.viewportHeight).length
      = halvingsLeavingEight frame.viewportWidth frame.viewportHeight ∧
    (RendererBackend._InitializePostFxBuffers complete frame b).2.gaussianBuffers.length
      = 2 * halvingsLeavingEight frame.viewportWidth frame.viewportHeight ∧
    (RendererBackend._InitializePostFxBuffers complete frame b).2.numUpsampleIterations
      = max (halvingsLeavingEight frame.viewportWidth frame.viewportHeight) 1 ∧
    (RendererBackend.bloomUpsampleSizes
      (RendererBackend.bloomDownsampleSizes 8 frame.viewportWidth frame.viewportHeight)
      frame.viewportWidth frame.viewportHeight).length
      = max (halvingsLeavingEight frame.viewportWidth frame.viewportHeight) 1 ∧
    (RendererBackend.bloomUpsampleSizes
      (RendererBackend.bloomDownsampleSizes 8 frame.viewportWidth frame.viewportHeight)
      frame.viewportWidth frame.viewportHeight).getLast?
      = some (frame.viewportWidth, frame.viewportHeight) ∧
    (RendererBackend._InitializePostFxBuffers complete frame b).2.postFxBuffers
      = (List.range (halvingsLeavingEight frame.viewportWidth frame.viewportHeight)).map
          FboId.bloomDownsample ++
        (List.range (max (halvingsLeavingEight frame.viewportWidth frame.viewportHeight)
          1)).map FboId.bloomUpsample ++
        [FboId.atmosphericPostFx, FboId.fxaa1, FboId.fxaa2] ∧
    ∀ a ∈ (RendererBackend._InitializePostFxBuffers complete frame b).2._PerformBloomPostFx,
      0 ≤ a.2 ∧
      a.2 < (RendererBackend.bloomVectorSize
        (RendererBackend._InitializePostFxBuffers complete frame b).2 a.1 : Int) := by
  obtain ⟨h1, h2, h3, h4, -⟩ := initializePostFxBuffers_complete complete hall frame b
  obtain ⟨hk, hk8⟩ := bloomDownsampleSizes_levels frame.viewportWidth frame.viewportHeight
  rw [hk] at h1 h2 h3 h4
  rw [hk] at hk8
  rw [hpost, List.nil_append] at h3
  rw [hgauss, List.length_nil, Nat.zero_add] at h4
  have hmax : ∀ k : Nat, k - 1 + 1 = max k 1 := by intro k; omega
  rw [hmax] at h2 h3
  generalize RendererBackend._InitializePostFxBuffers complete frame b = r at h1 h2 h3 h4 ⊢
  generalize halvingsLeavingEight frame.viewportWidth frame.viewportHeight = k
    at h1 h2 h3 h4 hk hk8 ⊢
  refine ⟨h1, hk8, hk, h4, h2, ?_, ?_, ?_, ?_⟩
  · unfold RendererBackend.bloomUpsampleSizes
    simp only [List.length_append, List.length_reverse, List.length_take, List.length_singleton,
      hk]
    omega
  · unfold RendererBackend.bloomUpsampleSizes
    simp
  · rw [h3, List.range_eq_range', List.range_eq_range']
  · intro a ha
    have hlen : r.2.postFxBuffers.length = k + max k 1 + 3 := by
      rw [h3]; simp; omega
    unfold RendererBackend._PerformBloomPostFx at ha
    rw [h1] at ha
    rcases List.mem_append.mp ha with hd | hu
    · unfold RendererBackend.bloomDownsampleStage at hd
      obtain ⟨n, hn, hmem⟩ := List.mem_flatMap.mp hd
      have hn' : n < k := List.mem_range.mp hn
      by_cases h0 : (n : Int) = 0
      · simp only [h0, if_true, List.append_nil, List.singleton_append, List.mem_cons,
          List.mem_singleton, List.not_mem_nil, or_false] at hmem
        rcases hmem with h | h | h | h | h | h <;> subst h <;>
          simp only [RendererBackend.bloomVectorSize, hlen, h4, h1, h2] <;>
          constructor <;> omega
      · simp only [h0, if_false, List.singleton_append, List.cons_append, List.nil_append,
          List.mem_cons, List.mem_singleton, List.not_mem_nil, or_false] at hmem
        rcases hmem with h | h | h | h | h | h | h <;> subst h <;>
          simp only [RendererBackend.bloomVectorSize, hlen, h4, h1, h2] <;>
          constructor <;> omega
    · unfold RendererBackend.bloomUpsampleStage at hu
      obtain ⟨n, hn, hmem⟩ := List.mem_flatMap.mp hu
      have hn' : n < k := List.mem_range.mp hn
      by_cases h0 : (k : Int) - 1 - (n : Int) = 0
      · simp only [h0, if_true, List.append_nil, List.cons_append, List.nil_append,
          List.mem_cons, List.mem_singleton, List.not_mem_nil, or_false] at hmem
        rcases hmem with h | h | h <;> subst h <;>
          simp only [RendererBackend.bloomVectorSize, hlen, h4, h1, h2] <;>
          constructor <;> omega
      · simp only [h0, if_false, List.cons_append, List.nil_append,
          List.mem_cons, List.mem_singleton, List.not_mem_nil, or_false] at hmem
        rcases hmem with h | h | h | h <;> subst h <;>
          simp only [RendererBackend.bloomVectorSize, hlen, h4, h1, h2] <;>
          constructor <;> omega

/-- C30 for the example backend and frame (64 x 64 viewport): three halvings. -/
theorem C30_bloom_indices_in_range_witness :
    (RendererBackend._InitializePostFxBuffers (fun _ => true) exampleFrame
      exampleBackend).2.numDownsampleIterations = 3 ∧
    (RendererBackend._InitializePostFxBuffers (fun _ => true) exampleFrame
      exampleBackend).2.gaussianBuffers.length = 2 * 3 ∧
    (RendererBackend._InitializePostFxBuffers (fun _ => true) exampleFrame
      exampleBackend).2.numUpsampleIterations = 3 ∧
    ∀ a ∈ (RendererBackend._InitializePostFxBuffers (fun _ => true) exampleFrame
        exampleBackend).2._PerformBloomPostFx,
      0 ≤ a.2 ∧
      a.2 < (RendererBackend.bloomVectorSize
        (RendererBackend._InitializePostFxBuffers (fun _ => true) exampleFrame
          exampleBackend).2 a.1 : Int) :=
  have key := C30_bloom_indices_in_range (fun _ => true) exampleFrame exampleBackend
    (fun _ => rfl) (by decide) (by decide)
  ⟨key.1, key.2.2.2.1, key.2.2.2.2.1, key.2.2.2.2.2.2.2.2⟩

end Stratus
